import Mathlib

/-!
Verification development for the editing core of the MyNotes text editor
(crates editor-core, io): a shallow embedding of the piece table, the
B-tree line index, the text buffer and the edit history, together with
theorems settling the specification claims against the code.

Modelling conventions:
* bytes are natural numbers (the newline byte is 10);
* Rust u64 / usize values are natural numbers; checked arithmetic keeps
  its explicit guards where the source has them; the one place where an
  unchecked u64 subtraction can actually underflow on reachable inputs
  (InternalNode::add_child) is modelled with wrapping (release-build)
  semantics via wsub64;
* fallible Rust functions returning Result are modelled with Except;
  functions that mutate through a mutable reference and may fail after a
  partial mutation return a pair of the Except result and the final state;
* Rust panics (expect / unwrap) that are reachable are modelled with an
  explicit crash variant of the error type.
-/

set_option autoImplicit false

namespace MyNotes

/-- Wrapping 64-bit subtraction, matching release-build u64 semantics.
Both arguments are assumed below 2 to the 64. -/
def wsub64 (a b : Nat) : Nat := (a + (2 ^ 64 - b)) % 2 ^ 64

/-- MathError from editor-core enums.rs. The payload of conversionFailed is
dropped (TryFromIntError carries no data we need). -/
inductive MathError where
  | conversionFailed
  | overflow
  | outOfBounds (len : Nat)
deriving DecidableEq, Repr

/-- BufferKind from enums.rs. -/
inductive BufferKind where
  | original
  | add
deriving DecidableEq, Repr

/-- Piece from piece_table/piece.rs. The Rust field is a Range with fields
start and end; end is a reserved word in Lean, so the fields are named
rangeStart and rangeStop. -/
structure Piece where
  bufKind : BufferKind
  rangeStart : Nat
  rangeStop : Nat
deriving DecidableEq, Repr

/-- Piece::len. -/
def Piece.len (p : Piece) : Nat := p.rangeStop - p.rangeStart

/-- Edit from enums.rs: the low-level piece journal entry. -/
inductive Edit where
  | insertE (pos : Nat) (rangeStart rangeStop : Nat)
  | deleteE (pos : Nat) (len : Nat) (removed : List Piece)
deriving DecidableEq, Repr

/-- MmapFile is modelled by its byte contents; get_bytes_clamped from
io/mmap.rs: clamps the range to the file, empty when start is past end. -/
def getBytesClamped (file : List Nat) (start length : Nat) : List Nat :=
  if start ≥ file.length then []
  else (file.drop start).take (min (start + length) file.length - start)

/-- PieceTable from piece_table/table.rs. -/
structure PieceTable where
  original : List Nat
  buf : List Nat
  pieces : List Piece
  undoStack : List Edit
  redoStack : List Edit
deriving DecidableEq, Repr

namespace PieceTable

/-- PieceTable::new over an mmapped file: one original piece when the file
is nonempty. The baseline capacity reservation has no observable effect on
contents and is not modelled. -/
def newFromOriginal (orig : List Nat) : PieceTable :=
  { original := orig
    buf := []
    pieces := if orig.isEmpty then [] else [⟨BufferKind.original, 0, orig.length⟩]
    undoStack := []
    redoStack := [] }

/-- PieceTable::len: sum of piece lengths. -/
def len (pt : PieceTable) : Nat := (pt.pieces.map Piece.len).sum

/-- The scanning loop of PieceTable::locate, recast as structural recursion
on the piece list. Falls through to (number of pieces, 0). -/
def locateAux : List Piece → Nat → Nat × Nat
  | [], _ => (0, 0)
  | p :: rest, pos =>
    if pos ≤ p.len then (0, pos)
    else
      let r := locateAux rest (pos - p.len)
      (r.1 + 1, r.2)

/-- PieceTable::locate. -/
def locate (pt : PieceTable) (pos : Nat) : Nat × Nat :=
  locateAux pt.pieces pos

/-- SliceOfWithStartEnd::slice_of. Note that for an Original piece the
source passes the absolute end offset as the LENGTH argument of
get_bytes_clamped, which is modelled verbatim. The Add branch is a plain
Rust slice buf[s..e]. -/
def sliceOfWithStartEnd (pt : PieceTable) (piece : Piece) (start stop : Nat) : List Nat :=
  match piece.bufKind with
  | BufferKind.original => getBytesClamped pt.original start stop
  | BufferKind.add => (pt.buf.drop start).take (stop - start)

/-- PieceTable::merge_or_continue: possibly extends an adjacent compatible
piece in place; returns false (do not continue) together with the updated
table when the merge happened. -/
def mergeOrContinue (pt : PieceTable) (idx offset : Nat) (bufKind : BufferKind)
    (rangeStart rangeStop : Nat) : Bool × PieceTable :=
  let piecesLen := pt.pieces.length
  let prevIdx : Option Nat :=
    if idx = piecesLen ∨ offset = 0 then
      if idx = 0 then none else some (idx - 1)
    else if offset = ((pt.pieces.getD idx ⟨BufferKind.original, 0, 0⟩).len) then some idx
    else none
  match prevIdx with
  | none => (true, pt)
  | some i =>
    match pt.pieces[i]? with
    | none => (true, pt)
    | some prev =>
      if prev.bufKind = bufKind ∧ prev.rangeStop = rangeStart then
        (false, { pt with pieces := pt.pieces.set i { prev with rangeStop := rangeStop } })
      else (true, pt)

/-- PieceTable::insert_no_history. -/
def insertNoHistory (pt : PieceTable) (pos : Nat) (rangeStart rangeStop : Nat)
    (bufKind : BufferKind) : Except MathError PieceTable :=
  let loc := pt.locate pos
  let idx := loc.1
  let offset := loc.2
  let merged := mergeOrContinue pt idx offset bufKind rangeStart rangeStop
  if merged.1 = false then Except.ok merged.2
  else
    let newPiece : Piece := ⟨bufKind, rangeStart, rangeStop⟩
    if idx = pt.pieces.length then
      Except.ok { pt with pieces := pt.pieces ++ [newPiece] }
    else if offset = 0 then
      Except.ok { pt with pieces := pt.pieces.take idx ++ newPiece :: pt.pieces.drop idx }
    else
      match pt.pieces[idx]? with
      | none => Except.error MathError.overflow
      | some piece =>
        if offset = piece.len then
          Except.ok
            { pt with
              pieces :=
                pt.pieces.take (idx + 1) ++ newPiece :: pt.pieces.drop (idx + 1) }
        else
          let startPlusOffset := piece.rangeStart + offset
          if startPlusOffset > piece.rangeStop then Except.error MathError.overflow
          else
            Except.ok
              { pt with
                pieces :=
                  pt.pieces.take idx ++
                    ⟨piece.bufKind, piece.rangeStart, startPlusOffset⟩ ::
                      newPiece ::
                        ⟨piece.bufKind, startPlusOffset, piece.rangeStop⟩ ::
                          pt.pieces.drop (idx + 1) }

/-- PieceTable::insert. Returns the result together with the final state,
since on an error raised after the append buffer was extended the partial
mutation persists in the source. -/
def insert (pt : PieceTable) (pos : Nat) (bytes : List Nat) :
    Except MathError Unit × PieceTable :=
  if bytes.isEmpty then (Except.ok (), pt)
  else if pos > pt.len then (Except.error (MathError.outOfBounds pos), pt)
  else
    let start := pt.buf.length
    let stop := start + bytes.length
    let pt1 := { pt with buf := pt.buf ++ bytes }
    match pt1.insertNoHistory pos start stop BufferKind.add with
    | Except.error e => (Except.error e, pt1)
    | Except.ok pt2 =>
      (Except.ok (),
        { pt2 with
          undoStack := pt2.undoStack ++ [Edit.insertE pos start stop]
          redoStack := [] })

/-- One iteration state of the PieceTable::delete_no_history loop, recast
as a recursive function. The loop index, the running offset, the remaining
length and the shadow piece count piecesLen are threaded exactly as in the
source; removedAcc accumulates the journal pieces in order. The fuel
argument only forces structural recursion: every iteration either shrinks
the remaining length or advances past a piece, so any fuel of at least
len + piecesLen + 1 is enough and the fuel-exhausted branch is never
taken (see deleteLoop_fuel lemmas below). -/
def deleteLoop : Nat → List Piece → Nat → Nat → Nat → Nat → List Piece →
    Except MathError (List Piece × List Piece)
  | 0, pieces, _, _, _, _, removedAcc => Except.ok (pieces, removedAcc)
  | fuel + 1, pieces, idx, offset, len, piecesLen, removedAcc =>
  if len > 0 ∧ idx < piecesLen then
    match pieces[idx]? with
    | none =>
      -- unreachable: idx < piecesLen ≤ pieces.length along the loop
      Except.ok (pieces, removedAcc)
    | some piece =>
      let pieceLen := piece.len
      let deleteStart := offset
      let deleteEnd := min (offset + len) pieceLen
      let removeLen := deleteEnd - deleteStart
      if deleteStart = 0 ∧ deleteEnd = pieceLen then
        -- full delete: drop the piece
        deleteLoop fuel (pieces.take idx ++ pieces.drop (idx + 1)) idx 0 (len - removeLen)
          (piecesLen - 1) (removedAcc ++ [piece])
      else if deleteStart = 0 then
        -- shrink from the left
        deleteLoop fuel
          (pieces.set idx { piece with rangeStart := piece.rangeStart + removeLen })
          idx 0 (len - removeLen) piecesLen
          (removedAcc ++ [⟨piece.bufKind, piece.rangeStart, piece.rangeStart + removeLen⟩])
      else if deleteEnd = pieceLen then
        -- shrink from the right; the source records the sub-range
        -- end - (end - remove_len) .. end, transcribed verbatim
        let newStart := piece.rangeStop - (piece.rangeStop - removeLen)
        deleteLoop fuel (pieces.set idx { piece with rangeStop := piece.rangeStop - removeLen })
          (idx + 1) 0 (len - removeLen) piecesLen
          (removedAcc ++ [⟨piece.bufKind, newStart, piece.rangeStop⟩])
      else
        -- middle split
        let newStartRemoved := piece.rangeStart + deleteStart
        deleteLoop fuel
          (pieces.take idx ++
            ⟨piece.bufKind, piece.rangeStart, deleteStart⟩ ::
              ⟨piece.bufKind, deleteEnd, piece.rangeStop⟩ :: pieces.drop (idx + 1))
          (idx + 1) 0 (len - removeLen) (piecesLen - 1)
          (removedAcc ++ [⟨piece.bufKind, newStartRemoved, deleteEnd⟩])
  else Except.ok (pieces, removedAcc)

/-- PieceTable::delete_no_history. -/
def deleteNoHistory (pt : PieceTable) (pos len : Nat) :
    Except MathError (PieceTable × List Piece) :=
  let loc := pt.locate pos
  match deleteLoop (len + pt.pieces.length + 1) pt.pieces loc.1 loc.2 len
      pt.pieces.length [] with
  | Except.error e => Except.error e
  | Except.ok (pieces, removed) => Except.ok ({ pt with pieces := pieces }, removed)

/-- PieceTable::delete. -/
def delete (pt : PieceTable) (pos len : Nat) : Except MathError Unit × PieceTable :=
  if len = 0 then (Except.ok (), pt)
  else
    match pt.deleteNoHistory pos len with
    | Except.error e => (Except.error e, pt)
    | Except.ok (pt1, removed) =>
      (Except.ok (),
        { pt1 with
          undoStack := pt1.undoStack ++ [Edit.deleteE pos len removed]
          redoStack := [] })

/-- The loop of PieceTable::undo for a Delete entry: re-insert the removed
pieces in order, advancing the insert position by each piece length. -/
def reinsertRemoved (pt : PieceTable) (pos : Nat) :
    List Piece → Except MathError PieceTable
  | [] => Except.ok pt
  | piece :: rest =>
    match pt.insertNoHistory pos piece.rangeStart piece.rangeStop piece.bufKind with
    | Except.error e => Except.error e
    | Except.ok pt1 => reinsertRemoved pt1 (pos + piece.len) rest

/-- PieceTable::undo. On the error path the command has been popped and is
lost, as in the source. -/
def undo (pt : PieceTable) : Except MathError Unit × PieceTable :=
  match pt.undoStack.getLast? with
  | none => (Except.ok (), pt)
  | some cmd =>
    let pt0 := { pt with undoStack := pt.undoStack.dropLast }
    match cmd with
    | Edit.insertE pos rangeStart rangeStop =>
      match pt0.deleteNoHistory pos (rangeStop - rangeStart) with
      | Except.error e => (Except.error e, pt0)
      | Except.ok (pt1, _) =>
        (Except.ok (), { pt1 with redoStack := pt1.redoStack ++ [cmd] })
    | Edit.deleteE pos _ removed =>
      match reinsertRemoved pt0 pos removed with
      | Except.error e => (Except.error e, pt0)
      | Except.ok pt1 =>
        (Except.ok (), { pt1 with redoStack := pt1.redoStack ++ [cmd] })

/-- PieceTable::redo. -/
def redo (pt : PieceTable) : Except MathError Unit × PieceTable :=
  match pt.redoStack.getLast? with
  | none => (Except.ok (), pt)
  | some cmd =>
    let pt0 := { pt with redoStack := pt.redoStack.dropLast }
    match cmd with
    | Edit.insertE pos rangeStart rangeStop =>
      match pt0.insertNoHistory pos rangeStart rangeStop BufferKind.add with
      | Except.error e => (Except.error e, pt0)
      | Except.ok pt1 =>
        (Except.ok (), { pt1 with undoStack := pt1.undoStack ++ [cmd] })
    | Edit.deleteE pos len _ =>
      match pt0.deleteNoHistory pos len with
      | Except.error e => (Except.error e, pt0)
      | Except.ok (pt1, removed) =>
        (Except.ok (),
          { pt1 with undoStack := pt1.undoStack ++ [Edit.deleteE pos len removed] })

/-- The loop of PieceTable::get_bytes_at, recast structurally on the piece
list. The integer conversions of the source never fail on 64-bit targets
and are not modelled. -/
def getBytesAtLoop (pt : PieceTable) : List Piece → Nat → Nat → List Nat
  | [], _, _ => []
  | piece :: rest, pos, len =>
    let pieceLen := piece.len
    if pos ≥ pieceLen then getBytesAtLoop pt rest (pos - pieceLen) len
    else
      let start := piece.rangeStart + pos
      let take := min (pieceLen - pos) len
      let chunk := sliceOfWithStartEnd pt piece start (start + take)
      if len - take = 0 then chunk
      else chunk ++ getBytesAtLoop pt rest 0 (len - take)

/-- PieceTable::get_bytes_at. -/
def getBytesAt (pt : PieceTable) (pos len : Nat) : List Nat :=
  getBytesAtLoop pt pt.pieces pos len

end PieceTable

/-! Line index: line_index/line_summary.rs, node.rs, btree.rs. -/

/-- MAX_CHILDREN from line_index/mod.rs. -/
def maxChildren : Nat := 16

/-- LineSummary from line_summary.rs. -/
structure LineSummary where
  lineCount : Nat
  byteLen : Nat
deriving DecidableEq, Repr

/-- LineSummary::add. -/
def LineSummary.add (a b : LineSummary) : LineSummary :=
  ⟨a.lineCount + b.lineCount, a.byteLen + b.byteLen⟩

/-- SearchCache from search_cache.rs. -/
structure SearchCache where
  lineIdx : Nat
  byteOffset : Nat
deriving DecidableEq, Repr

/-- LeafNode from node.rs. -/
structure LeafNode where
  summary : LineSummary
  lineLengths : List Nat
deriving DecidableEq, Repr

/-- Node from node.rs. InternalNode is inlined into the internal
constructor (a separate structure holding List Node would need a mutual
inductive). -/
inductive Node where
  | leaf (node : LeafNode)
  | internal (summary : LineSummary) (children : List Node)
deriving Repr

/-- Node::summary. -/
def Node.summary : Node → LineSummary
  | Node.leaf l => l.summary
  | Node.internal s _ => s

/-- The memchr_iter positions of the newline byte in a byte sequence. -/
def nlPositions : List Nat → List Nat
  | [] => []
  | b :: rest =>
    if b = 10 then 0 :: (nlPositions rest).map (· + 1)
    else (nlPositions rest).map (· + 1)

/-- Per-newline line lengths derived from the newline positions and the
running last_position, as in the scan loops of LeafNode::add_child and
BTreeLineIndex::build_leaves: each length is position + 1 - last_position. -/
def nlSegs : List Nat → Nat → List Nat
  | [], _ => []
  | p :: ps, lastPos => (p + 1 - lastPos) :: nlSegs ps (p + 1)

/-- The value of last_position after the scan: one past the final newline. -/
def lastNlPos (bytes : List Nat) : Nat :=
  match (nlPositions bytes).getLast? with
  | some p => p + 1
  | none => 0

namespace LeafNode

/-- LeafNode::default: one line of length zero. -/
def defaultLeaf : LeafNode := ⟨⟨1, 0⟩, [0]⟩

/-- LeafNode::default_if_empty. -/
def defaultIfEmpty (l : LeafNode) : LeafNode :=
  if l.lineLengths.isEmpty then { l with lineLengths := l.lineLengths ++ [0] } else l

/-- The Iterator::position scan of LeafNode::add_child: the closure
decrements the offset by each line length it passes over; returns the found
index (if any) together with the final value of the mutated offset. -/
def scanTarget : List Nat → Nat → Option Nat × Nat
  | [], abs => (none, abs)
  | l :: ls, abs =>
    if abs < l then (some 0, abs)
    else
      let r := scanTarget ls (abs - l)
      (r.1.map (· + 1), r.2)

/-- LeafNode::split_if_needed. -/
def splitIfNeeded (l : LeafNode) : LeafNode × Option LeafNode :=
  if l.lineLengths.length ≤ maxChildren then (l, none)
  else
    let mid := l.lineLengths.length / 2
    let leftLens := l.lineLengths.take mid
    let rightLens := l.lineLengths.drop mid
    (⟨⟨leftLens.length, leftLens.sum⟩, leftLens⟩,
      some ⟨⟨rightLens.length, rightLens.sum⟩, rightLens⟩)

/-- LeafNode::add_child. The unwrap_or branch of the target scan keeps the
fully decremented offset as the intra-line prefix length, and the plain u64
subtraction computing the suffix length is modelled with wrapping
semantics, both exactly as the source behaves. The checked u64 additions
of the source can only fail beyond 2 to the 64 and are modelled as total;
the checked subtractions are guarded by construction. -/
def addChild (l0 : LeafNode) (absByteOffset : Nat) (bytes : List Nat) :
    Except MathError (LeafNode × Option LeafNode) :=
  let l := defaultIfEmpty l0
  let bytesLen := bytes.length
  let scan := scanTarget l.lineLengths absByteOffset
  let targetIdx := scan.1.getD (l.lineLengths.length - 1)
  let abs2 := scan.2
  let oldLineLen := l.lineLengths.getD targetIdx 0
  let linePrefixLen := abs2
  let lineSuffixLen := wsub64 oldLineLen abs2
  let newLines := nlSegs (nlPositions bytes) 0
  if newLines.isEmpty then
    Except.ok
      (splitIfNeeded
        ⟨⟨l.summary.lineCount, l.summary.byteLen + bytesLen⟩,
          l.lineLengths.set targetIdx (oldLineLen + bytesLen)⟩)
  else
    let remainingTextLen := bytesLen - lastNlPos bytes
    let lengths1 := l.lineLengths.set targetIdx (linePrefixLen + newLines.headD 0)
    let middleLines := newLines.drop 1
    let finalNewLineLen := remainingTextLen + lineSuffixLen
    let lengths2 :=
      lengths1.take (targetIdx + 1) ++ (middleLines ++ [finalNewLineLen]) ++
        lengths1.drop (targetIdx + 1)
    Except.ok
      (splitIfNeeded ⟨⟨lengths2.length, l.summary.byteLen + bytesLen⟩, lengths2⟩)

/-- LeafNode::set_line_length. The two u64-to-i64 try_into conversions fail
with ConversionFailed on values at or above 2^63; the i64 checked_sub fails
when the difference leaves the i64 range (unreachable once both conversions
succeeded, but modelled); the final u64 checked_add_signed fails when the
signed sum leaves the u64 range. -/
def setLineLength (l : LeafNode) (targetLineIdx newLen : Nat) :
    Except MathError (LeafNode × Int) :=
  if targetLineIdx ≥ l.lineLengths.length then
    Except.error (MathError.outOfBounds l.lineLengths.length)
  else if newLen ≥ 2 ^ 63 then Except.error MathError.conversionFailed
  else if l.lineLengths.getD targetLineIdx 0 ≥ 2 ^ 63 then
    Except.error MathError.conversionFailed
  else
    let diff : Int := (newLen : Int) - (l.lineLengths.getD targetLineIdx 0 : Int)
    if diff < -(2 ^ 63) ∨ 2 ^ 63 - 1 < diff then Except.error MathError.overflow
    else if (l.summary.byteLen : Int) + diff < 0 ∨
        (l.summary.byteLen : Int) + diff ≥ 2 ^ 64 then
      Except.error MathError.overflow
    else
      Except.ok
        (⟨⟨l.summary.lineCount, ((l.summary.byteLen : Int) + diff).toNat⟩,
            l.lineLengths.set targetLineIdx newLen⟩,
          diff)

/-- LeafNode::remove_line_range: drains the clamped index range and
recomputes the summary; returns the removed byte count. -/
def removeLineRange (l : LeafNode) (start stop : Nat) : LeafNode × Nat :=
  let lineLen := l.lineLengths.length
  let removeStart := min start lineLen
  let removeEnd := min (stop + 1) lineLen
  if removeStart ≥ removeEnd then (l, 0)
  else
    let removed := ((l.lineLengths.drop removeStart).take (removeEnd - removeStart)).sum
    let lengths := l.lineLengths.take removeStart ++ l.lineLengths.drop removeEnd
    (⟨⟨lengths.length, l.summary.byteLen - removed⟩, lengths⟩, removed)

/-- LeafNode::get_line_length_at. -/
def getLineLengthAt (l : LeafNode) (lineIdx : Nat) : Option Nat :=
  l.lineLengths[lineIdx]?

/-- LeafNode::line_idx_to_abs_idx. -/
def lineIdxToAbsIdx (l : LeafNode) (lineIdx : Nat) : Option Nat :=
  if lineIdx ≥ l.lineLengths.length then none
  else some ((l.lineLengths.take (min lineIdx l.lineLengths.length)).sum)

end LeafNode

/-- The Iterator::position scan of LeafNode::abs_idx_to_line_idx: the first
line the offset falls strictly inside, decrementing the offset as it goes. -/
def lineOfLens : List Nat → Nat → Option Nat
  | [], _ => none
  | l :: ls, a =>
    if a < l then some 0
    else (lineOfLens ls (a - l)).map (· + 1)

/-- LeafNode::abs_idx_to_line_idx. -/
def LeafNode.absIdxToLineIdx (l : LeafNode) (absIdx : Nat) : Option Nat :=
  lineOfLens l.lineLengths absIdx

/-- InternalNode::split_if_needed, on the internal fields of a node. -/
def Node.splitInternalIfNeeded (s : LineSummary) (cs : List Node) : Node × Option Node :=
  if cs.length ≤ maxChildren then (Node.internal s cs, none)
  else
    let mid := cs.length / 2
    let leftCs := cs.take mid
    let rightCs := cs.drop mid
    let leftSum : LineSummary :=
      ⟨(leftCs.map (fun c => c.summary.lineCount)).sum,
        (leftCs.map (fun c => c.summary.byteLen)).sum⟩
    let rightSum : LineSummary :=
      ⟨(rightCs.map (fun c => c.summary.lineCount)).sum,
        (rightCs.map (fun c => c.summary.byteLen)).sum⟩
    (Node.internal leftSum leftCs, some (Node.internal rightSum rightCs))

mutual

/-- Node::add_child dispatch plus InternalNode::add_child. The internal
summary update adds the byte count unconditionally and recomputes the line
count from the children, as in the source. -/
def Node.addChild : Node → Nat → List Nat → Except MathError (Node × Option Node)
  | Node.leaf l, absOffset, bytes =>
    match l.addChild absOffset bytes with
    | Except.error e => Except.error e
    | Except.ok (l', opt) => Except.ok (Node.leaf l', opt.map Node.leaf)
  | Node.internal s cs, absOffset, bytes =>
    match Node.addChildLoop cs absOffset bytes with
    | Except.error e => Except.error e
    | Except.ok cs' =>
      let s' : LineSummary :=
        ⟨(cs'.map (fun c => c.summary.lineCount)).sum, s.byteLen + bytes.length⟩
      Except.ok (Node.splitInternalIfNeeded s' cs')

/-- The child loop of InternalNode::add_child, recast structurally. When a
child accepts the bytes and splits, the sibling is inserted right after it
and the loop breaks; when it accepts without splitting the loop falls
through to the wrapping subtraction of the PRE-call child byte length and
keeps scanning, so an offset equal to a child boundary is handed to the
next child as offset zero (and a smaller offset wraps around), exactly as
the release-build source behaves. -/
def Node.addChildLoop : List Node → Nat → List Nat → Except MathError (List Node)
  | [], _, _ => Except.ok []
  | c :: rest, absOffset, bytes =>
    let childByteLen := c.summary.byteLen
    if absOffset ≤ childByteLen then
      match c.addChild absOffset bytes with
      | Except.error e => Except.error e
      | Except.ok (c', some n) => Except.ok (c' :: n :: rest)
      | Except.ok (c', none) =>
        match Node.addChildLoop rest (wsub64 absOffset childByteLen) bytes with
        | Except.error e => Except.error e
        | Except.ok rest' => Except.ok (c' :: rest')
    else
      match Node.addChildLoop rest (wsub64 absOffset childByteLen) bytes with
      | Except.error e => Except.error e
      | Except.ok rest' => Except.ok (c :: rest')

end

mutual

/-- Node::set_line_length dispatch plus InternalNode::set_line_length. The
internal checked_add_signed fails when the signed sum leaves the u64
range. -/
def Node.setLineLength : Node → Nat → Nat → Except MathError (Node × Int)
  | Node.leaf l, targetLineIdx, newLen =>
    match l.setLineLength targetLineIdx newLen with
    | Except.error e => Except.error e
    | Except.ok (l', diff) => Except.ok (Node.leaf l', diff)
  | Node.internal s cs, targetLineIdx, newLen =>
    match Node.setLineChildren cs targetLineIdx newLen with
    | Except.error e => Except.error e
    | Except.ok (cs', diff) =>
      if (s.byteLen : Int) + diff < 0 ∨ (s.byteLen : Int) + diff ≥ 2 ^ 64 then
        Except.error MathError.overflow
      else
        Except.ok (Node.internal ⟨s.lineCount, ((s.byteLen : Int) + diff).toNat⟩ cs', diff)

/-- The child loop of InternalNode::set_line_length: diff stays zero when no
child takes the index. -/
def Node.setLineChildren : List Node → Nat → Nat → Except MathError (List Node × Int)
  | [], _, _ => Except.ok ([], 0)
  | c :: rest, targetLineIdx, newLen =>
    if targetLineIdx < c.summary.lineCount then
      match c.setLineLength targetLineIdx newLen with
      | Except.error e => Except.error e
      | Except.ok (c', diff) => Except.ok (c' :: rest, diff)
    else
      match Node.setLineChildren rest (targetLineIdx - c.summary.lineCount) newLen with
      | Except.error e => Except.error e
      | Except.ok (rest', diff) => Except.ok (c :: rest', diff)

end

mutual

/-- Node::remove_line_range dispatch plus InternalNode::remove_line_range. -/
def Node.removeLineRange : Node → Nat → Nat → Except MathError (Node × Nat)
  | Node.leaf l, start, stop =>
    let r := l.removeLineRange start stop
    Except.ok (Node.leaf r.1, r.2)
  | Node.internal s cs, start, stop =>
    match Node.removeChildren cs start stop with
    | Except.error e => Except.error e
    | Except.ok (cs', removed) =>
      Except.ok
        (Node.internal
          ⟨(cs'.map (fun c => c.summary.lineCount)).sum, s.byteLen - removed⟩ cs',
          removed)

/-- The child loop of InternalNode::remove_line_range, recast structurally:
recurse into a child when the range starts inside it, cull it when it
becomes empty, stop when the range ends inside it, and renumber on the way
past. The u64 subtractions are guarded by the control flow. -/
def Node.removeChildren : List Node → Nat → Nat → Except MathError (List Node × Nat)
  | [], _, _ => Except.ok ([], 0)
  | c :: rest, start, stop =>
    if start ≤ stop then
      let childLineCount := c.summary.lineCount
      if start < childLineCount then
        match c.removeLineRange start (min stop (childLineCount - 1)) with
        | Except.error e => Except.error e
        | Except.ok (c', rem) =>
          let kept : List Node := if c'.summary.lineCount = 0 then [] else [c']
          if stop < childLineCount then Except.ok (kept ++ rest, rem)
          else
            match Node.removeChildren rest 0 (stop - childLineCount) with
            | Except.error e => Except.error e
            | Except.ok (rest', rem') => Except.ok (kept ++ rest', rem + rem')
      else
        match Node.removeChildren rest (start - childLineCount) (stop - childLineCount) with
        | Except.error e => Except.error e
        | Except.ok (rest', rem') => Except.ok (c :: rest', rem')
    else Except.ok (c :: rest, 0)

end

mutual

/-- Node::get_line_length_at dispatch plus InternalNode::get_line_length_at. -/
def Node.getLineLengthAt : Node → Nat → Option Nat
  | Node.leaf l, lineIdx => l.getLineLengthAt lineIdx
  | Node.internal s cs, lineIdx =>
    if lineIdx ≥ s.lineCount then none
    else Node.getLineLengthChildren cs lineIdx

/-- The child loop of InternalNode::get_line_length_at. The source marks
the fall-through unreachable (the bound was checked against the summary);
it is modelled as none. -/
def Node.getLineLengthChildren : List Node → Nat → Option Nat
  | [], _ => none
  | c :: rest, lineIdx =>
    if lineIdx < c.summary.lineCount then c.getLineLengthAt lineIdx
    else Node.getLineLengthChildren rest (lineIdx - c.summary.lineCount)

end

mutual

/-- Node::line_idx_to_abs_idx dispatch plus InternalNode::line_idx_to_abs_idx.
After the bound check the internal node always answers some, even when the
chosen child answers none (the accumulated offset is returned unchanged),
as in the source. -/
def Node.lineIdxToAbsIdx : Node → Nat → Option Nat
  | Node.leaf l, lineIdx => l.lineIdxToAbsIdx lineIdx
  | Node.internal s cs, lineIdx =>
    if lineIdx ≥ s.lineCount then none
    else some (Node.lineIdxChildren cs lineIdx 0)

/-- The child loop of InternalNode::line_idx_to_abs_idx. -/
def Node.lineIdxChildren : List Node → Nat → Nat → Nat
  | [], _, absIdx => absIdx
  | c :: rest, lineIdx, absIdx =>
    if lineIdx < c.summary.lineCount then
      match c.lineIdxToAbsIdx lineIdx with
      | some v => absIdx + v
      | none => absIdx
    else Node.lineIdxChildren rest (lineIdx - c.summary.lineCount) (absIdx + c.summary.byteLen)

end

mutual

/-- Node::abs_idx_to_line_idx dispatch plus InternalNode::abs_idx_to_line_idx. -/
def Node.absIdxToLineIdx : Node → Nat → Option Nat
  | Node.leaf l, absIdx => l.absIdxToLineIdx absIdx
  | Node.internal s cs, absIdx =>
    if absIdx ≥ s.byteLen then none
    else some (Node.absIdxChildren cs absIdx 0)

/-- The child loop of InternalNode::abs_idx_to_line_idx. -/
def Node.absIdxChildren : List Node → Nat → Nat → Nat
  | [], _, lineIdx => lineIdx
  | c :: rest, absIdx, lineIdx =>
    if absIdx < c.summary.byteLen then
      match c.absIdxToLineIdx absIdx with
      | some v => lineIdx + v
      | none => lineIdx
    else Node.absIdxChildren rest (absIdx - c.summary.byteLen) (lineIdx + c.summary.lineCount)

end

mutual

/-- The concatenated per-line byte lengths below a node (the abstraction the
summaries are supposed to describe). -/
def Node.toLens : Node → List Nat
  | Node.leaf l => l.lineLengths
  | Node.internal _ cs => Node.toLensList cs

/-- toLens over a child list. -/
def Node.toLensList : List Node → List Nat
  | [] => []
  | c :: rest => Node.toLens c ++ Node.toLensList rest

end

mutual

/-- Summary consistency: every summary equals what its leaf line lengths or
child summaries say (the invariants of section 3 of the spec). -/
def Node.wfB : Node → Bool
  | Node.leaf l =>
    l.summary.lineCount == l.lineLengths.length && l.summary.byteLen == l.lineLengths.sum
  | Node.internal s cs =>
    s.lineCount == (cs.map (fun c => c.summary.lineCount)).sum &&
      s.byteLen == (cs.map (fun c => c.summary.byteLen)).sum && Node.wfListB cs

/-- wfB over a child list. -/
def Node.wfListB : List Node → Bool
  | [] => true
  | c :: rest => Node.wfB c && Node.wfListB rest

end

/-! BTreeLineIndex from btree.rs. -/

/-- BTreeLineIndex: the root together with the single-entry search cache
(a Cell in the source, so queries update it behind a shared reference;
modelled by threading the state). -/
structure BTreeLineIndex where
  root : Node
  cache : Option SearchCache
deriving Repr

/-- The incremental pack-and-flush of build_leaves and of the chunking loop
of build_tree: push each element onto the current chunk, flush the chunk
whenever it reaches MAX_CHILDREN, and keep a final partial chunk. -/
def packChunks {α : Type} : List α → List α → List (List α)
  | [], cur => if cur.isEmpty then [] else [cur]
  | x :: xs, cur =>
    let cur2 := cur ++ [x]
    if cur2.length = maxChildren then cur2 :: packChunks xs []
    else packChunks xs cur2

/-- Chunks of at most MAX_CHILDREN elements, preserving order. -/
def chunksOf (l : List Node) : List (List Node) := packChunks l []

/-- Chunks of at most MAX_CHILDREN line lengths. -/
def chunksOfLens (l : List Nat) : List (List Nat) := packChunks l []

/-- The per-line byte lengths emitted by the scan of
BTreeLineIndex::build_leaves: one length per newline (including it), plus
the trailing partial line exactly when text remains after the last
newline. -/
def lineLens (bytes : List Nat) : List Nat :=
  let segs := nlSegs (nlPositions bytes) 0
  if lastNlPos bytes < bytes.length then segs ++ [bytes.length - lastNlPos bytes] else segs

namespace BTreeLineIndex

/-- BTreeLineIndex::build_leaves. The incremental pack-and-flush of the
source emits exactly the chunks of sixteen of the emitted length stream,
each with its accumulated summary. -/
def buildLeaves (bytes : List Nat) : List Node :=
  (chunksOfLens (lineLens bytes)).map fun c => Node.leaf ⟨⟨c.length, c.sum⟩, c⟩

/-- One level of the while loop of BTreeLineIndex::build_tree: wrap chunks
of sixteen into internal nodes whose summary folds the chunk summaries. -/
def buildLevel (level : List Node) : List Node :=
  (chunksOf level).map fun chunk =>
    Node.internal
      (chunk.foldl (fun acc c => acc.add c.summary) ⟨0, 0⟩) chunk

/-- BTreeLineIndex::build_tree. The while loop is modelled with explicit
fuel (the level length strictly shrinks each round, so the initial length
is always enough fuel; the fuel-exhausted branch is unreachable). An empty
level yields the OutOfBounds(0) error of the source pop. -/
def buildTreeFuel : Nat → List Node → Except MathError Node
  | _, [] => Except.error (MathError.outOfBounds 0)
  | _, [n] => Except.ok n
  | 0, _ :: _ :: _ => Except.error (MathError.outOfBounds 0)
  | fuel + 1, l@(_ :: _ :: _) => buildTreeFuel fuel (buildLevel l)

/-- BTreeLineIndex::build_tree. -/
def buildTree (level : List Node) : Except MathError Node :=
  buildTreeFuel level.length level

/-- BTreeLineIndex::new. -/
def new (bytes : List Nat) : Except MathError BTreeLineIndex :=
  if bytes.isEmpty then Except.ok ⟨Node.leaf LeafNode.defaultLeaf, none⟩
  else
    let leaves := buildLeaves bytes
    if leaves.isEmpty then Except.ok ⟨Node.leaf LeafNode.defaultLeaf, none⟩
    else
      match buildTree leaves with
      | Except.error e => Except.error e
      | Except.ok t => Except.ok ⟨t, none⟩

/-- BTreeLineIndex::insert: delegate to the root, grow a new root on split,
clear the cache. -/
def insert (li : BTreeLineIndex) (bytePos : Nat) (bytes : List Nat) :
    Except MathError BTreeLineIndex :=
  if bytes.isEmpty then Except.ok li
  else
    match li.root.addChild bytePos bytes with
    | Except.error e => Except.error e
    | Except.ok (root', none) => Except.ok ⟨root', none⟩
    | Except.ok (root', some sib) =>
      Except.ok ⟨Node.internal (root'.summary.add sib.summary) [root', sib], none⟩

/-- BTreeLineIndex::get_line_length_at. -/
def getLineLengthAt (li : BTreeLineIndex) (lineIdx : Nat) : Option Nat :=
  li.root.getLineLengthAt lineIdx

/-- BTreeLineIndex::line_idx_to_abs_idx with its cache fast path; the state
carries the updated cache. -/
def lineIdxToAbsIdx (li : BTreeLineIndex) (lineIdx : Nat) (bustCache : Bool) :
    Option Nat × BTreeLineIndex :=
  match li.cache with
  | some c =>
    if bustCache = false ∧ c.lineIdx = lineIdx then (some c.byteOffset, li)
    else
      match li.root.lineIdxToAbsIdx lineIdx with
      | none => (none, li)
      | some r => (some r, { li with cache := some ⟨lineIdx, r⟩ })
  | none =>
    match li.root.lineIdxToAbsIdx lineIdx with
    | none => (none, li)
    | some r => (some r, { li with cache := some ⟨lineIdx, r⟩ })

/-- BTreeLineIndex::abs_idx_to_line_idx with its cache fast path. -/
def absIdxToLineIdx (li : BTreeLineIndex) (absIdx : Nat) (bustCache : Bool) :
    Option Nat × BTreeLineIndex :=
  match li.cache with
  | some c =>
    if bustCache = false ∧ c.byteOffset = absIdx then (some c.lineIdx, li)
    else
      match li.root.absIdxToLineIdx absIdx with
      | none => (none, li)
      | some r => (some r, { li with cache := some ⟨r, absIdx⟩ })
  | none =>
    match li.root.absIdxToLineIdx absIdx with
    | none => (none, li)
    | some r => (some r, { li with cache := some ⟨r, absIdx⟩ })

/-- byte_len read off the root summary. -/
def byteLen (li : BTreeLineIndex) : Nat := li.root.summary.byteLen

/-- line_count read off the root summary. -/
def lineCount (li : BTreeLineIndex) : Nat := li.root.summary.lineCount

end BTreeLineIndex

/-- The error outcomes of BTreeLineIndex::remove: a structured MathError,
or a panic from one of the numbered expect calls (crash n is the expect
whose message starts CRASH n). -/
inductive RemoveError where
  | crash (code : Nat)
  | err (e : MathError)
deriving DecidableEq, Repr

/-- BTreeLineIndex::remove, with every expect modelled as a crash outcome
and every intermediate cache update threaded. The two u64 checked_add
guards fail exactly when the sum leaves the u64 range. -/
def BTreeLineIndex.remove (li : BTreeLineIndex) (absIdx len : Nat) :
    Except RemoveError Unit × BTreeLineIndex :=
  if len = 0 then (Except.ok (), li)
  else if absIdx + len ≥ 2 ^ 64 then (Except.error (RemoveError.crash 1), li)
  else
    let deletionEnd := absIdx + len
    let q1 := li.absIdxToLineIdx absIdx true
    match q1.1 with
    | none => (Except.error (RemoveError.crash 2), q1.2)
    | some startLine =>
      let q2 := q1.2.absIdxToLineIdx deletionEnd true
      match q2.1 with
      | none => (Except.error (RemoveError.crash 3), q2.2)
      | some endLine =>
        let q3 := q2.2.lineIdxToAbsIdx startLine true
        match q3.1 with
        | none => (Except.error (RemoveError.crash 4), q3.2)
        | some startLineByte =>
          let q4 := q3.2.lineIdxToAbsIdx endLine true
          match q4.1 with
          | none => (Except.error (RemoveError.crash 5), q4.2)
          | some endLineByte =>
            let li4 := q4.2
            match li4.getLineLengthAt endLine with
            | none => (Except.error (RemoveError.crash 6), li4)
            | some endLineLen =>
              if absIdx < startLineByte then (Except.error (RemoveError.crash 7), li4)
              else
                let prefixLen := absIdx - startLineByte
                if endLineByte + endLineLen ≥ 2 ^ 64 then
                  (Except.error (RemoveError.crash 8), li4)
                else
                  let endLineTotalBytes := endLineByte + endLineLen
                  if endLineTotalBytes < deletionEnd then
                    (Except.error (RemoveError.crash 9), li4)
                  else
                    let suffixLen := endLineTotalBytes - deletionEnd
                    if prefixLen + suffixLen ≥ 2 ^ 64 then
                      (Except.error (RemoveError.crash 10), li4)
                    else
                      let newMergedLen := prefixLen + suffixLen
                      match li4.root.setLineLength startLine newMergedLen with
                      | Except.error e => (Except.error (RemoveError.err e), li4)
                      | Except.ok (root', _) =>
                        let li5 : BTreeLineIndex := { li4 with root := root' }
                        if startLine < endLine then
                          match li5.root.removeLineRange (startLine + 1) endLine with
                          | Except.error e => (Except.error (RemoveError.err e), li5)
                          | Except.ok (root'', _) =>
                            (Except.ok (), ⟨root'', none⟩)
                        else (Except.ok (), { li5 with cache := none })

/-! Cursor model from cursor.rs. The source crates disagree on the name of
the second Position field (column in cursor.rs, col at the use sites in
text.rs and history.rs); col is used here. -/

/-- Position: 0-based row and byte column. -/
structure Position where
  row : Nat
  col : Nat
deriving DecidableEq, Repr

/-- The derived lexicographic order on Position. -/
def Position.le (a b : Position) : Prop :=
  a.row < b.row ∨ (a.row = b.row ∧ a.col ≤ b.col)

instance : DecidablePred (fun p : Position × Position => Position.le p.1 p.2) :=
  fun _ => by
    unfold Position.le
    infer_instance

/-- Decidable comparison used by Cursor::range and min and max. -/
def Position.leB (a b : Position) : Bool :=
  decide (a.row < b.row ∨ (a.row = b.row ∧ a.col ≤ b.col))

/-- Position::new. -/
def Position.mk' (row col : Nat) : Position := ⟨row, col⟩

/-- Cursor: anchor, head and the preferred column. -/
structure Cursor where
  anchor : Position
  head : Position
  preferredColumn : Option Nat
deriving DecidableEq, Repr

/-- Cursor::new: collapsed cursor at a position. -/
def Cursor.mk' (row col : Nat) : Cursor :=
  ⟨⟨row, col⟩, ⟨row, col⟩, some col⟩

/-- Cursor::new_selection. -/
def Cursor.mkSelection (anchor head : Position) : Cursor :=
  ⟨anchor, head, some head.col⟩

/-- Cursor::no_selection. -/
def Cursor.noSelection (c : Cursor) : Bool := c.anchor = c.head

/-- Cursor::start: the top-left end of the selection. -/
def Cursor.start (c : Cursor) : Position :=
  if Position.leB c.anchor c.head then c.anchor else c.head

/-- Cursor::range: the normalized selection pair. -/
def Cursor.range (c : Cursor) : Position × Position :=
  if Position.leB c.anchor c.head then (c.anchor, c.head) else (c.head, c.anchor)

/-! TextBuffer from text.rs. The filesystem-facing state (filepath, the
temp backing file, the detected line ending, save) is outside the claims
and is not modelled; the buffer keeps its piece table, its line index and
the dirty flag. -/

/-- The error outcomes of the TextBuffer editing operations: a structured
error (TextBufferError wraps MathError), a line index panic, or one of the
unwrap panics of delete_selection. -/
inductive TbError where
  | math (e : MathError)
  | liCrash (code : Nat)
  | posToAbsIdx
  | unwrapFail
deriving DecidableEq, Repr

/-- TextBuffer. -/
structure TextBuffer where
  pieceTable : PieceTable
  lineIndex : BTreeLineIndex
  isDirty : Bool
deriving Repr

namespace TextBuffer

/-- TextBuffer::new: an empty buffer over an empty temporary file. -/
def newEmpty : TextBuffer :=
  { pieceTable := PieceTable.newFromOriginal []
    lineIndex := ⟨Node.leaf LeafNode.defaultLeaf, none⟩
    isDirty := false }

/-- TextBuffer::line_count, read off the root summary. -/
def lineCount (tb : TextBuffer) : Nat := tb.lineIndex.root.summary.lineCount

/-- TextBuffer::byte_length, read off the root summary. -/
def byteLength (tb : TextBuffer) : Nat := tb.lineIndex.root.summary.byteLen

/-- TextBuffer::point_to_abs_offset. The line start query may update the
search cache, so the updated buffer is returned alongside. -/
def pointToAbsOffset (tb : TextBuffer) (row col : Nat) : Option Nat × TextBuffer :=
  let q := tb.lineIndex.lineIdxToAbsIdx row false
  let tb1 := { tb with lineIndex := q.2 }
  match q.1 with
  | none => (none, tb1)
  | some lineStartAbsIdx =>
    match tb1.lineIndex.getLineLengthAt row with
    | none => (none, tb1)
    | some lineLen =>
      if col > lineLen then (none, tb1)
      else (some (lineStartAbsIdx + col), tb1)

/-- TextBuffer::get_cursor_selection, with the selected bytes in place of
the lossily decoded String of the source. -/
def getCursorSelection (tb : TextBuffer) (cursor : Cursor) :
    Except TbError (Option (List Nat)) × TextBuffer :=
  if cursor.noSelection then (Except.ok none, tb)
  else
    let r := cursor.range
    let q1 := tb.pointToAbsOffset r.1.row r.1.col
    match q1.1 with
    | none => (Except.error TbError.posToAbsIdx, q1.2)
    | some startAbs =>
      let q2 := q1.2.pointToAbsOffset r.2.row r.2.col
      match q2.1 with
      | none => (Except.error TbError.posToAbsIdx, q2.2)
      | some endAbs =>
        if startAbs > endAbs then (Except.ok none, q2.2)
        else
          (Except.ok (some (q2.2.pieceTable.getBytesAt startAbs (endAbs - startAbs))), q2.2)

/-- TextBuffer::delete_selection. The two point_to_abs_offset unwrap calls
are modelled as unwrapFail panics; the piece table and line index are
updated with the same offset and length. -/
def deleteSelection (tb : TextBuffer) (cursor : Cursor) :
    Except TbError (Position × List Nat) × TextBuffer :=
  if cursor.noSelection then (Except.ok (cursor.head, []), tb)
  else
    let sel := tb.getCursorSelection cursor
    match sel.1 with
    | Except.error e => (Except.error e, sel.2)
    | Except.ok deletedText =>
      let r := cursor.range
      let q1 := sel.2.pointToAbsOffset r.1.row r.1.col
      match q1.1 with
      | none => (Except.error TbError.unwrapFail, q1.2)
      | some startOffset =>
        let q2 := q1.2.pointToAbsOffset r.2.row r.2.col
        match q2.1 with
        | none => (Except.error TbError.unwrapFail, q2.2)
        | some endOffset =>
          let length := endOffset - startOffset
          let tb2 := q2.2
          let pd := tb2.pieceTable.delete startOffset length
          match pd.1 with
          | Except.error e => (Except.error (TbError.math e), { tb2 with pieceTable := pd.2 })
          | Except.ok _ =>
            let tb3 := { tb2 with pieceTable := pd.2 }
            let ld := tb3.lineIndex.remove startOffset length
            let tb4 := { tb3 with lineIndex := ld.2 }
            match ld.1 with
            | Except.error (RemoveError.crash k) => (Except.error (TbError.liCrash k), tb4)
            | Except.error (RemoveError.err e) => (Except.error (TbError.math e), tb4)
            | Except.ok _ =>
              (Except.ok (r.1, deletedText.getD []), { tb4 with isDirty := true })

/-- The split of the inserted text along newlines used by TextBuffer::insert
to compute the post-insert position (str::split with a single separator). -/
def splitOnNL : List Nat → List (List Nat)
  | [] => [[]]
  | b :: rest =>
    if b = 10 then [] :: splitOnNL rest
    else
      match splitOnNL rest with
      | s :: ss => (b :: s) :: ss
      | [] => [[b]]

/-- TextBuffer::insert. -/
def insert (tb : TextBuffer) (cursor : Cursor) (text : List Nat) :
    Except TbError Position × TextBuffer :=
  let step1 : Except TbError Position × TextBuffer :=
    if cursor.noSelection then (Except.ok cursor.head, tb)
    else
      match tb.deleteSelection cursor with
      | (Except.error e, tb') => (Except.error e, tb')
      | (Except.ok _, tb') => (Except.ok cursor.start, tb')
  match step1 with
  | (Except.error e, tb1) => (Except.error e, tb1)
  | (Except.ok insertPosition, tb1) =>
    let q := tb1.pointToAbsOffset insertPosition.row insertPosition.col
    match q.1 with
    | none =>
      (Except.error (TbError.math (MathError.outOfBounds insertPosition.row)), q.2)
    | some absOffset =>
      let tb2 := q.2
      let pi := tb2.pieceTable.insert absOffset text
      match pi.1 with
      | Except.error e => (Except.error (TbError.math e), { tb2 with pieceTable := pi.2 })
      | Except.ok _ =>
        let tb3 := { tb2 with pieceTable := pi.2 }
        match tb3.lineIndex.insert absOffset text with
        | Except.error e => (Except.error (TbError.math e), tb3)
        | Except.ok li' =>
          let tb4 := { tb3 with lineIndex := li', isDirty := true }
          let segs := splitOnNL text
          let firstSegment := segs.headD []
          let remainingLines := segs.drop 1
          let newPosition :=
            if remainingLines.isEmpty then
              Position.mk' insertPosition.row (insertPosition.col + firstSegment.length)
            else
              Position.mk' (insertPosition.row + remainingLines.length)
                ((remainingLines.getLastD []).length)
          (Except.ok newPosition, tb4)

/-- TextBuffer::backspace. -/
def backspace (tb : TextBuffer) (cursor : Cursor) :
    Except TbError (Position × List Nat) × TextBuffer :=
  if cursor.noSelection = false then tb.deleteSelection cursor
  else if cursor.head.row = 0 ∧ cursor.head.col = 0 then (Except.ok (cursor.head, []), tb)
  else
    if cursor.head.col > 0 then
      let startPosition : Position := ⟨cursor.head.row, cursor.head.col - 1⟩
      tb.deleteSelection (Cursor.mkSelection startPosition cursor.head)
    else
      match cursor.head.row with
      | 0 => (Except.error (TbError.math (MathError.outOfBounds 0)), tb)
      | prevRow + 1 =>
        match tb.lineIndex.getLineLengthAt prevRow with
        | none => (Except.error (TbError.math (MathError.outOfBounds prevRow)), tb)
        | some prevRowLen =>
          let startPosition : Position := ⟨prevRow, prevRowLen - 1⟩
          tb.deleteSelection (Cursor.mkSelection startPosition cursor.head)

/-- TextBuffer::delete_forward. -/
def deleteForward (tb : TextBuffer) (cursor : Cursor) :
    Except TbError (Position × List Nat) × TextBuffer :=
  if cursor.noSelection = false then tb.deleteSelection cursor
  else
    match tb.lineIndex.getLineLengthAt cursor.head.row with
    | none => (Except.error (TbError.math (MathError.outOfBounds cursor.head.row)), tb)
    | some currentRowLen =>
      if cursor.head.col ≥ currentRowLen - 1 then
        if cursor.head.row + 1 ≥ tb.lineCount then (Except.ok (cursor.head, []), tb)
        else
          tb.deleteSelection
            (Cursor.mkSelection cursor.head ⟨cursor.head.row + 1, 0⟩)
      else
        tb.deleteSelection
          (Cursor.mkSelection cursor.head ⟨cursor.head.row, cursor.head.col + 1⟩)

end TextBuffer

/-! History from history.rs (the 2-D transactional journal). -/

/-- EditAction from enums.rs in the history variant of the source tree. -/
inductive EditAction where
  | insertA (pos : Position) (text : List Nat)
  | deleteA (pos : Position) (endPos : Position) (text : List Nat)
deriving DecidableEq, Repr

/-- Transaction from history.rs. -/
structure Transaction where
  actions : List EditAction
  cursorBefore : Cursor
  cursorAfter : Cursor
deriving DecidableEq, Repr

/-- History from history.rs. -/
structure History where
  undoStack : List Transaction
  redoStack : List Transaction
deriving DecidableEq, Repr

/-- History::record_insert: clear the redo stack, then either extend the
last Insert action of the top transaction (same row, no newlines on either
side, and the new position sits exactly at the end of the recorded text)
updating only cursor_after, or push a fresh transaction. The usize
checked_add of the adjacency test keeps its guard. -/
def History.recordInsert (h : History) (pos : Position) (text : List Nat)
    (cursorBefore cursorAfter : Cursor) : Except MathError History :=
  let h0 : History := { h with redoStack := [] }
  let pushNew : History :=
    { h0 with
      undoStack :=
        h0.undoStack ++ [⟨[EditAction.insertA pos text], cursorBefore, cursorAfter⟩] }
  match h0.undoStack.getLast? with
  | none => Except.ok pushNew
  | some lastTx =>
    match lastTx.actions.getLast? with
    | some (EditAction.insertA lastPos lastText) =>
      if lastPos.row = pos.row ∧ text.contains 10 = false ∧ lastText.contains 10 = false then
        if lastPos.col + lastText.length ≥ 2 ^ 64 then Except.error MathError.overflow
        else if lastPos.col + lastText.length = pos.col then
          Except.ok
            { h0 with
              undoStack :=
                h0.undoStack.dropLast ++
                  [{ lastTx with
                      actions :=
                        lastTx.actions.dropLast ++
                          [EditAction.insertA lastPos (lastText ++ text)]
                      cursorAfter := cursorAfter }] }
        else Except.ok pushNew
      else Except.ok pushNew
    | _ => Except.ok pushNew


/-! Concrete fixtures used by the claim theorems, witnesses and
counterexamples. -/

deriving instance DecidableEq for Except

/-- A piece table over the original file abcdef, as after PieceTable::new. -/
def abcdefTable : PieceTable := PieceTable.newFromOriginal [97, 98, 99, 100, 101, 102]

/-- The byte sequence abcdef. -/
def abcdefBytes : List Nat := [97, 98, 99, 100, 101, 102]

/-- Seventeen newline bytes. -/
def nlText : List Nat := List.replicate 17 10

/-- The TextBuffer edit sequence exhibiting the length divergence: build
seventeen plus one lines, insert one byte exactly at a line index child
boundary (row 9 column 0), then grow the tree until the root splits and
recomputes its summary from the children. -/
def c1Ops : List (Cursor × List Nat) :=
  (Cursor.mk' 0 0, nlText) :: (Cursor.mk' 9 0, [120]) ::
    List.replicate 15 (Cursor.mk' 0 0, nlText)

/-- Run a list of TextBuffer::insert calls, stopping with false when a call
fails. -/
def runInserts : TextBuffer → List (Cursor × List Nat) → Bool × TextBuffer
  | tb, [] => (true, tb)
  | tb, op :: rest =>
    match tb.insert op.1 op.2 with
    | (Except.ok _, tb2) => runInserts tb2 rest
    | (Except.error _, tb2) => (false, tb2)

/-- The states of the divergence sequence, written out as literals so
each step lemma evaluates one insert applied to a fully evaluated state
(kernel reduction of the whole chain in one go is intractable). State
zero is the fresh buffer. -/
def c1t0 : TextBuffer := TextBuffer.newEmpty

/-- Step 1 result of the divergence sequence. -/
def c1p1 : Except TbError Position × TextBuffer :=
  (Except.ok { row := 17, col := 0 }, { pieceTable := { original := [], buf := [10, 10, 10, 10, 10, 10, 10, 10, 10, 10, 10, 10, 10, 10, 10, 10, 10], pieces := [{ bufKind := MyNotes.BufferKind.add, rangeStart := 0, rangeStop := 17 }], undoStack := [MyNotes.Edit.insertE 0 0 17], redoStack := [] }, lineIndex := { root := MyNotes.Node.internal { lineCount := 18, byteLen := 17 } [MyNotes.Node.leaf { summary := { lineCount := 9, byteLen := 9 }, lineLengths := [1, 1, 1, 1, 1, 1, 1, 1, 1] }, MyNotes.Node.leaf { summary := { lineCount := 9, byteLen := 8 }, lineLengths := [1, 1, 1, 1, 1, 1, 1, 1, 0] }], cache := none }, isDirty := true })

/-- State after step 1. -/
def c1t1 : TextBuffer := c1p1.2

/-- Step 2 result of the divergence sequence. -/
def c1p2 : Except TbError Position × TextBuffer :=
  (Except.ok { row := 9, col := 1 }, { pieceTable := { original := [], buf := [10, 10, 10, 10, 10, 10, 10, 10, 10, 10, 10, 10, 10, 10, 10, 10, 10, 120], pieces := [{ bufKind := MyNotes.BufferKind.add, rangeStart := 0, rangeStop := 9 }, { bufKind := MyNotes.BufferKind.add, rangeStart := 17, rangeStop := 18 }, { bufKind := MyNotes.BufferKind.add, rangeStart := 9, rangeStop := 17 }], undoStack := [MyNotes.Edit.insertE 0 0 17, MyNotes.Edit.insertE 9 17 18], redoStack := [] }, lineIndex := { root := MyNotes.Node.internal { lineCount := 18, byteLen := 18 } [MyNotes.Node.leaf { summary := { lineCount := 9, byteLen := 10 }, lineLengths := [1, 1, 1, 1, 1, 1, 1, 1, 2] }, MyNotes.Node.leaf { summary := { lineCount := 9, byteLen := 9 }, lineLengths := [2, 1, 1, 1, 1, 1, 1, 1, 0] }], cache := none }, isDirty := true })

/-- State after step 2. -/
def c1t2 : TextBuffer := c1p2.2

/-- Step 3 result of the divergence sequence. -/
def c1p3 : Except TbError Position × TextBuffer :=
  (Except.ok { row := 17, col := 0 }, { pieceTable := { original := [], buf := [10, 10, 10, 10, 10, 10, 10, 10, 10, 10, 10, 10, 10, 10, 10, 10, 10, 120, 10, 10, 10, 10, 10, 10, 10, 10, 10, 10, 10, 10, 10, 10, 10, 10, 10], pieces := [{ bufKind := MyNotes.BufferKind.add, rangeStart := 18, rangeStop := 35 }, { bufKind := MyNotes.BufferKind.add, rangeStart := 0, rangeStop := 9 }, { bufKind := MyNotes.BufferKind.add, rangeStart := 17, rangeStop := 18 }, { bufKind := MyNotes.BufferKind.add, rangeStart := 9, rangeStop := 17 }], undoStack := [MyNotes.Edit.insertE 0 0 17, MyNotes.Edit.insertE 9 17 18, MyNotes.Edit.insertE 0 18 35], redoStack := [] }, lineIndex := { root := MyNotes.Node.internal { lineCount := 35, byteLen := 35 } [MyNotes.Node.leaf { summary := { lineCount := 13, byteLen := 13 }, lineLengths := [1, 1, 1, 1, 1, 1, 1, 1, 1, 1, 1, 1, 1] }, MyNotes.Node.leaf { summary := { lineCount := 13, byteLen := 14 }, lineLengths := [1, 1, 1, 1, 1, 1, 1, 1, 1, 1, 1, 1, 2] }, MyNotes.Node.leaf { summary := { lineCount := 9, byteLen := 9 }, lineLengths := [2, 1, 1, 1, 1, 1, 1, 1, 0] }], cache := none }, isDirty := true })

/-- State after step 3. -/
def c1t3 : TextBuffer := c1p3.2

/-- Step 4 result of the divergence sequence. -/
def c1p4 : Except TbError Position × TextBuffer :=
  (Except.ok { row := 17, col := 0 }, { pieceTable := { original := [], buf := [10, 10, 10, 10, 10, 10, 10, 10, 10, 10, 10, 10, 10, 10, 10, 10, 10, 120, 10, 10, 10, 10, 10, 10, 10, 10, 10, 10, 10, 10, 10, 10, 10, 10, 10, 10, 10, 10, 10, 10, 10, 10, 10, 10, 10, 10, 10, 10, 10, 10, 10, 10], pieces := [{ bufKind := MyNotes.BufferKind.add, rangeStart := 35, rangeStop := 52 }, { bufKind := MyNotes.BufferKind.add, rangeStart := 18, rangeStop := 35 }, { bufKind := MyNotes.BufferKind.add, rangeStart := 0, rangeStop := 9 }, { bufKind := MyNotes.BufferKind.add, rangeStart := 17, rangeStop := 18 }, { bufKind := MyNotes.BufferKind.add, rangeStart := 9, rangeStop := 17 }], undoStack := [MyNotes.Edit.insertE 0 0 17, MyNotes.Edit.insertE 9 17 18, MyNotes.Edit.insertE 0 18 35, MyNotes.Edit.insertE 0 35 52], redoStack := [] }, lineIndex := { root := MyNotes.Node.internal { lineCount := 52, byteLen := 52 } [MyNotes.Node.leaf { summary := { lineCount := 15, byteLen := 15 }, lineLengths := [1, 1, 1, 1, 1, 1, 1, 1, 1, 1, 1, 1, 1, 1, 1] }, MyNotes.Node.leaf { summary := { lineCount := 15, byteLen := 15 }, lineLengths := [1, 1, 1, 1, 1, 1, 1, 1, 1, 1, 1, 1, 1, 1, 1] }, MyNotes.Node.leaf { summary := { lineCount := 13, byteLen := 14 }, lineLengths := [1, 1, 1, 1, 1, 1, 1, 1, 1, 1, 1, 1, 2] }, MyNotes.Node.leaf { summary := { lineCount := 9, byteLen := 9 }, lineLengths := [2, 1, 1, 1, 1, 1, 1, 1, 0] }], cache := none }, isDirty := true })

/-- State after step 4. -/
def c1t4 : TextBuffer := c1p4.2

/-- Step 5 result of the divergence sequence. -/
def c1p5 : Except TbError Position × TextBuffer :=
  (Except.ok { row := 17, col := 0 }, { pieceTable := { original := [], buf := [10, 10, 10, 10, 10, 10, 10, 10, 10, 10, 10, 10, 10, 10, 10, 10, 10, 120, 10, 10, 10, 10, 10, 10, 10, 10, 10, 10, 10, 10, 10, 10, 10, 10, 10, 10, 10, 10, 10, 10, 10, 10, 10, 10, 10, 10, 10, 10, 10, 10, 10, 10, 10, 10, 10, 10, 10, 10, 10, 10, 10, 10, 10, 10, 10, 10, 10, 10, 10], pieces := [{ bufKind := MyNotes.BufferKind.add, rangeStart := 52, rangeStop := 69 }, { bufKind := MyNotes.BufferKind.add, rangeStart := 35, rangeStop := 52 }, { bufKind := MyNotes.BufferKind.add, rangeStart := 18, rangeStop := 35 }, { bufKind := MyNotes.BufferKind.add, rangeStart := 0, rangeStop := 9 }, { bufKind := MyNotes.BufferKind.add, rangeStart := 17, rangeStop := 18 }, { bufKind := MyNotes.BufferKind.add, rangeStart := 9, rangeStop := 17 }], undoStack := [MyNotes.Edit.insertE 0 0 17, MyNotes.Edit.insertE 9 17 18, MyNotes.Edit.insertE 0 18 35, MyNotes.Edit.insertE 0 35 52, MyNotes.Edit.insertE 0 52 69], redoStack := [] }, lineIndex := { root := MyNotes.Node.internal { lineCount := 69, byteLen := 69 } [MyNotes.Node.leaf { summary := { lineCount := 16, byteLen := 16 }, lineLengths := [1, 1, 1, 1, 1, 1, 1, 1, 1, 1, 1, 1, 1, 1, 1, 1] }, MyNotes.Node.leaf { summary := { lineCount := 16, byteLen := 16 }, lineLengths := [1, 1, 1, 1, 1, 1, 1, 1, 1, 1, 1, 1, 1, 1, 1, 1] }, MyNotes.Node.leaf { summary := { lineCount := 15, byteLen := 15 }, lineLengths := [1, 1, 1, 1, 1, 1, 1, 1, 1, 1, 1, 1, 1, 1, 1] }, MyNotes.Node.leaf { summary := { lineCount := 13, byteLen := 14 }, lineLengths := [1, 1, 1, 1, 1, 1, 1, 1, 1, 1, 1, 1, 2] }, MyNotes.Node.leaf { summary := { lineCount := 9, byteLen := 9 }, lineLengths := [2, 1, 1, 1, 1, 1, 1, 1, 0] }], cache := none }, isDirty := true })

/-- State after step 5. -/
def c1t5 : TextBuffer := c1p5.2

/-- Step 6 result of the divergence sequence. -/
def c1p6 : Except TbError Position × TextBuffer :=
  (Except.ok { row := 17, col := 0 }, { pieceTable := { original := [], buf := [10, 10, 10, 10, 10, 10, 10, 10, 10, 10, 10, 10, 10, 10, 10, 10, 10, 120, 10, 10, 10, 10, 10, 10, 10, 10, 10, 10, 10, 10, 10, 10, 10, 10, 10, 10, 10, 10, 10, 10, 10, 10, 10, 10, 10, 10, 10, 10, 10, 10, 10, 10, 10, 10, 10, 10, 10, 10, 10, 10, 10, 10, 10, 10, 10, 10, 10, 10, 10, 10, 10, 10, 10, 10, 10, 10, 10, 10, 10, 10, 10, 10, 10, 10, 10, 10], pieces := [{ bufKind := MyNotes.BufferKind.add, rangeStart := 69, rangeStop := 86 }, { bufKind := MyNotes.BufferKind.add, rangeStart := 52, rangeStop := 69 }, { bufKind := MyNotes.BufferKind.add, rangeStart := 35, rangeStop := 52 }, { bufKind := MyNotes.BufferKind.add, rangeStart := 18, rangeStop := 35 }, { bufKind := MyNotes.BufferKind.add, rangeStart := 0, rangeStop := 9 }, { bufKind := MyNotes.BufferKind.add, rangeStart := 17, rangeStop := 18 }, { bufKind := MyNotes.BufferKind.add, rangeStart := 9, rangeStop := 17 }], undoStack := [MyNotes.Edit.insertE 0 0 17, MyNotes.Edit.insertE 9 17 18, MyNotes.Edit.insertE 0 18 35, MyNotes.Edit.insertE 0 35 52, MyNotes.Edit.insertE 0 52 69, MyNotes.Edit.insertE 0 69 86], redoStack := [] }, lineIndex := { root := MyNotes.Node.internal { lineCount := 86, byteLen := 86 } [MyNotes.Node.leaf { summary := { lineCount := 16, byteLen := 16 }, lineLengths := [1, 1, 1, 1, 1, 1, 1, 1, 1, 1, 1, 1, 1, 1, 1, 1] }, MyNotes.Node.leaf { summary := { lineCount := 17, byteLen := 17 }, lineLengths := [1, 1, 1, 1, 1, 1, 1, 1, 1, 1, 1, 1, 1, 1, 1, 1, 1] }, MyNotes.Node.leaf { summary := { lineCount := 16, byteLen := 16 }, lineLengths := [1, 1, 1, 1, 1, 1, 1, 1, 1, 1, 1, 1, 1, 1, 1, 1] }, MyNotes.Node.leaf { summary := { lineCount := 15, byteLen := 15 }, lineLengths := [1, 1, 1, 1, 1, 1, 1, 1, 1, 1, 1, 1, 1, 1, 1] }, MyNotes.Node.leaf { summary := { lineCount := 13, byteLen := 14 }, lineLengths := [1, 1, 1, 1, 1, 1, 1, 1, 1, 1, 1, 1, 2] }, MyNotes.Node.leaf { summary := { lineCount := 9, byteLen := 9 }, lineLengths := [2, 1, 1, 1, 1, 1, 1, 1, 0] }], cache := none }, isDirty := true })

/-- State after step 6. -/
def c1t6 : TextBuffer := c1p6.2

/-- Step 7 result of the divergence sequence. -/
def c1p7 : Except TbError Position × TextBuffer :=
  (Except.ok { row := 17, col := 0 }, { pieceTable := { original := [], buf := [10, 10, 10, 10, 10, 10, 10, 10, 10, 10, 10, 10, 10, 10, 10, 10, 10, 120, 10, 10, 10, 10, 10, 10, 10, 10, 10, 10, 10, 10, 10, 10, 10, 10, 10, 10, 10, 10, 10, 10, 10, 10, 10, 10, 10, 10, 10, 10, 10, 10, 10, 10, 10, 10, 10, 10, 10, 10, 10, 10, 10, 10, 10, 10, 10, 10, 10, 10, 10, 10, 10, 10, 10, 10, 10, 10, 10, 10, 10, 10, 10, 10, 10, 10, 10, 10, 10, 10, 10, 10, 10, 10, 10, 10, 10, 10, 10, 10, 10, 10, 10, 10, 10], pieces := [{ bufKind := MyNotes.BufferKind.add, rangeStart := 86, rangeStop := 103 }, { bufKind := MyNotes.BufferKind.add, rangeStart := 69, rangeStop := 86 }, { bufKind := MyNotes.BufferKind.add, rangeStart := 52, rangeStop := 69 }, { bufKind := MyNotes.BufferKind.add, rangeStart := 35, rangeStop := 52 }, { bufKind := MyNotes.BufferKind.add, rangeStart := 18, rangeStop := 35 }, { bufKind := MyNotes.BufferKind.add, rangeStart := 0, rangeStop := 9 }, { bufKind := MyNotes.BufferKind.add, rangeStart := 17, rangeStop := 18 }, { bufKind := MyNotes.BufferKind.add, rangeStart := 9, rangeStop := 17 }], undoStack := [MyNotes.Edit.insertE 0 0 17, MyNotes.Edit.insertE 9 17 18, MyNotes.Edit.insertE 0 18 35, MyNotes.Edit.insertE 0 35 52, MyNotes.Edit.insertE 0 52 69, MyNotes.Edit.insertE 0 69 86, MyNotes.Edit.insertE 0 86 103], redoStack := [] }, lineIndex := { root := MyNotes.Node.internal { lineCount := 103, byteLen := 103 } [MyNotes.Node.leaf { summary := { lineCount := 16, byteLen := 16 }, lineLengths := [1, 1, 1, 1, 1, 1, 1, 1, 1, 1, 1, 1, 1, 1, 1, 1] }, MyNotes.Node.leaf { summary := { lineCount := 17, byteLen := 17 }, lineLengths := [1, 1, 1, 1, 1, 1, 1, 1, 1, 1, 1, 1, 1, 1, 1, 1, 1] }, MyNotes.Node.leaf { summary := { lineCount := 17, byteLen := 17 }, lineLengths := [1, 1, 1, 1, 1, 1, 1, 1, 1, 1, 1, 1, 1, 1, 1, 1, 1] }, MyNotes.Node.leaf { summary := { lineCount := 16, byteLen := 16 }, lineLengths := [1, 1, 1, 1, 1, 1, 1, 1, 1, 1, 1, 1, 1, 1, 1, 1] }, MyNotes.Node.leaf { summary := { lineCount := 15, byteLen := 15 }, lineLengths := [1, 1, 1, 1, 1, 1, 1, 1, 1, 1, 1, 1, 1, 1, 1] }, MyNotes.Node.leaf { summary := { lineCount := 13, byteLen := 14 }, lineLengths := [1, 1, 1, 1, 1, 1, 1, 1, 1, 1, 1, 1, 2] }, MyNotes.Node.leaf { summary := { lineCount := 9, byteLen := 9 }, lineLengths := [2, 1, 1, 1, 1, 1, 1, 1, 0] }], cache := none }, isDirty := true })

/-- State after step 7. -/
def c1t7 : TextBuffer := c1p7.2

/-- Step 8 result of the divergence sequence. -/
def c1p8 : Except TbError Position × TextBuffer :=
  (Except.ok { row := 17, col := 0 }, { pieceTable := { original := [], buf := [10, 10, 10, 10, 10, 10, 10, 10, 10, 10, 10, 10, 10, 10, 10, 10, 10, 120, 10, 10, 10, 10, 10, 10, 10, 10, 10, 10, 10, 10, 10, 10, 10, 10, 10, 10, 10, 10, 10, 10, 10, 10, 10, 10, 10, 10, 10, 10, 10, 10, 10, 10, 10, 10, 10, 10, 10, 10, 10, 10, 10, 10, 10, 10, 10, 10, 10, 10, 10, 10, 10, 10, 10, 10, 10, 10, 10, 10, 10, 10, 10, 10, 10, 10, 10, 10, 10, 10, 10, 10, 10, 10, 10, 10, 10, 10, 10, 10, 10, 10, 10, 10, 10, 10, 10, 10, 10, 10, 10, 10, 10, 10, 10, 10, 10, 10, 10, 10, 10, 10], pieces := [{ bufKind := MyNotes.BufferKind.add, rangeStart := 103, rangeStop := 120 }, { bufKind := MyNotes.BufferKind.add, rangeStart := 86, rangeStop := 103 }, { bufKind := MyNotes.BufferKind.add, rangeStart := 69, rangeStop := 86 }, { bufKind := MyNotes.BufferKind.add, rangeStart := 52, rangeStop := 69 }, { bufKind := MyNotes.BufferKind.add, rangeStart := 35, rangeStop := 52 }, { bufKind := MyNotes.BufferKind.add, rangeStart := 18, rangeStop := 35 }, { bufKind := MyNotes.BufferKind.add, rangeStart := 0, rangeStop := 9 }, { bufKind := MyNotes.BufferKind.add, rangeStart := 17, rangeStop := 18 }, { bufKind := MyNotes.BufferKind.add, rangeStart := 9, rangeStop := 17 }], undoStack := [MyNotes.Edit.insertE 0 0 17, MyNotes.Edit.insertE 9 17 18, MyNotes.Edit.insertE 0 18 35, MyNotes.Edit.insertE 0 35 52, MyNotes.Edit.insertE 0 52 69, MyNotes.Edit.insertE 0 69 86, MyNotes.Edit.insertE 0 86 103, MyNotes.Edit.insertE 0 103 120], redoStack := [] }, lineIndex := { root := MyNotes.Node.internal { lineCount := 120, byteLen := 120 } [MyNotes.Node.leaf { summary := { lineCount := 16, byteLen := 16 }, lineLengths := [1, 1, 1, 1, 1, 1, 1, 1, 1, 1, 1, 1, 1, 1, 1, 1] }, MyNotes.Node.leaf { summary := { lineCount := 17, byteLen := 17 }, lineLengths := [1, 1, 1, 1, 1, 1, 1, 1, 1, 1, 1, 1, 1, 1, 1, 1, 1] }, MyNotes.Node.leaf { summary := { lineCount := 17, byteLen := 17 }, lineLengths := [1, 1, 1, 1, 1, 1, 1, 1, 1, 1, 1, 1, 1, 1, 1, 1, 1] }, MyNotes.Node.leaf { summary := { lineCount := 17, byteLen := 17 }, lineLengths := [1, 1, 1, 1, 1, 1, 1, 1, 1, 1, 1, 1, 1, 1, 1, 1, 1] }, MyNotes.Node.leaf { summary := { lineCount := 16, byteLen := 16 }, lineLengths := [1, 1, 1, 1, 1, 1, 1, 1, 1, 1, 1, 1, 1, 1, 1, 1] }, MyNotes.Node.leaf { summary := { lineCount := 15, byteLen := 15 }, lineLengths := [1, 1, 1, 1, 1, 1, 1, 1, 1, 1, 1, 1, 1, 1, 1] }, MyNotes.Node.leaf { summary := { lineCount := 13, byteLen := 14 }, lineLengths := [1, 1, 1, 1, 1, 1, 1, 1, 1, 1, 1, 1, 2] }, MyNotes.Node.leaf { summary := { lineCount := 9, byteLen := 9 }, lineLengths := [2, 1, 1, 1, 1, 1, 1, 1, 0] }], cache := none }, isDirty := true })

/-- State after step 8. -/
def c1t8 : TextBuffer := c1p8.2

/-- Step 9 result of the divergence sequence. -/
def c1p9 : Except TbError Position × TextBuffer :=
  (Except.ok { row := 17, col := 0 }, { pieceTable := { original := [], buf := [10, 10, 10, 10, 10, 10, 10, 10, 10, 10, 10, 10, 10, 10, 10, 10, 10, 120, 10, 10, 10, 10, 10, 10, 10, 10, 10, 10, 10, 10, 10, 10, 10, 10, 10, 10, 10, 10, 10, 10, 10, 10, 10, 10, 10, 10, 10, 10, 10, 10, 10, 10, 10, 10, 10, 10, 10, 10, 10, 10, 10, 10, 10, 10, 10, 10, 10, 10, 10, 10, 10, 10, 10, 10, 10, 10, 10, 10, 10, 10, 10, 10, 10, 10, 10, 10, 10, 10, 10, 10, 10, 10, 10, 10, 10, 10, 10, 10, 10, 10, 10, 10, 10, 10, 10, 10, 10, 10, 10, 10, 10, 10, 10, 10, 10, 10, 10, 10, 10, 10, 10, 10, 10, 10, 10, 10, 10, 10, 10, 10, 10, 10, 10, 10, 10, 10, 10], pieces := [{ bufKind := MyNotes.BufferKind.add, rangeStart := 120, rangeStop := 137 }, { bufKind := MyNotes.BufferKind.add, rangeStart := 103, rangeStop := 120 }, { bufKind := MyNotes.BufferKind.add, rangeStart := 86, rangeStop := 103 }, { bufKind := MyNotes.BufferKind.add, rangeStart := 69, rangeStop := 86 }, { bufKind := MyNotes.BufferKind.add, rangeStart := 52, rangeStop := 69 }, { bufKind := MyNotes.BufferKind.add, rangeStart := 35, rangeStop := 52 }, { bufKind := MyNotes.BufferKind.add, rangeStart := 18, rangeStop := 35 }, { bufKind := MyNotes.BufferKind.add, rangeStart := 0, rangeStop := 9 }, { bufKind := MyNotes.BufferKind.add, rangeStart := 17, rangeStop := 18 }, { bufKind := MyNotes.BufferKind.add, rangeStart := 9, rangeStop := 17 }], undoStack := [MyNotes.Edit.insertE 0 0 17, MyNotes.Edit.insertE 9 17 18, MyNotes.Edit.insertE 0 18 35, MyNotes.Edit.insertE 0 35 52, MyNotes.Edit.insertE 0 52 69, MyNotes.Edit.insertE 0 69 86, MyNotes.Edit.insertE 0 86 103, MyNotes.Edit.insertE 0 103 120, MyNotes.Edit.insertE 0 120 137], redoStack := [] }, lineIndex := { root := MyNotes.Node.internal { lineCount := 137, byteLen := 137 } [MyNotes.Node.leaf { summary := { lineCount := 16, byteLen := 16 }, lineLengths := [1, 1, 1, 1, 1, 1, 1, 1, 1, 1, 1, 1, 1, 1, 1, 1] }, MyNotes.Node.leaf { summary := { lineCount := 17, byteLen := 17 }, lineLengths := [1, 1, 1, 1, 1, 1, 1, 1, 1, 1, 1, 1, 1, 1, 1, 1, 1] }, MyNotes.Node.leaf { summary := { lineCount := 17, byteLen := 17 }, lineLengths := [1, 1, 1, 1, 1, 1, 1, 1, 1, 1, 1, 1, 1, 1, 1, 1, 1] }, MyNotes.Node.leaf { summary := { lineCount := 17, byteLen := 17 }, lineLengths := [1, 1, 1, 1, 1, 1, 1, 1, 1, 1, 1, 1, 1, 1, 1, 1, 1] }, MyNotes.Node.leaf { summary := { lineCount := 17, byteLen := 17 }, lineLengths := [1, 1, 1, 1, 1, 1, 1, 1, 1, 1, 1, 1, 1, 1, 1, 1, 1] }, MyNotes.Node.leaf { summary := { lineCount := 16, byteLen := 16 }, lineLengths := [1, 1, 1, 1, 1, 1, 1, 1, 1, 1, 1, 1, 1, 1, 1, 1] }, MyNotes.Node.leaf { summary := { lineCount := 15, byteLen := 15 }, lineLengths := [1, 1, 1, 1, 1, 1, 1, 1, 1, 1, 1, 1, 1, 1, 1] }, MyNotes.Node.leaf { summary := { lineCount := 13, byteLen := 14 }, lineLengths := [1, 1, 1, 1, 1, 1, 1, 1, 1, 1, 1, 1, 2] }, MyNotes.Node.leaf { summary := { lineCount := 9, byteLen := 9 }, lineLengths := [2, 1, 1, 1, 1, 1, 1, 1, 0] }], cache := none }, isDirty := true })

/-- State after step 9. -/
def c1t9 : TextBuffer := c1p9.2

/-- Step 10 result of the divergence sequence. -/
def c1p10 : Except TbError Position × TextBuffer :=
  (Except.ok { row := 17, col := 0 }, { pieceTable := { original := [], buf := [10, 10, 10, 10, 10, 10, 10, 10, 10, 10, 10, 10, 10, 10, 10, 10, 10, 120, 10, 10, 10, 10, 10, 10, 10, 10, 10, 10, 10, 10, 10, 10, 10, 10, 10, 10, 10, 10, 10, 10, 10, 10, 10, 10, 10, 10, 10, 10, 10, 10, 10, 10, 10, 10, 10, 10, 10, 10, 10, 10, 10, 10, 10, 10, 10, 10, 10, 10, 10, 10, 10, 10, 10, 10, 10, 10, 10, 10, 10, 10, 10, 10, 10, 10, 10, 10, 10, 10, 10, 10, 10, 10, 10, 10, 10, 10, 10, 10, 10, 10, 10, 10, 10, 10, 10, 10, 10, 10, 10, 10, 10, 10, 10, 10, 10, 10, 10, 10, 10, 10, 10, 10, 10, 10, 10, 10, 10, 10, 10, 10, 10, 10, 10, 10, 10, 10, 10, 10, 10, 10, 10, 10, 10, 10, 10, 10, 10, 10, 10, 10, 10, 10, 10, 10], pieces := [{ bufKind := MyNotes.BufferKind.add, rangeStart := 137, rangeStop := 154 }, { bufKind := MyNotes.BufferKind.add, rangeStart := 120, rangeStop := 137 }, { bufKind := MyNotes.BufferKind.add, rangeStart := 103, rangeStop := 120 }, { bufKind := MyNotes.BufferKind.add, rangeStart := 86, rangeStop := 103 }, { bufKind := MyNotes.BufferKind.add, rangeStart := 69, rangeStop := 86 }, { bufKind := MyNotes.BufferKind.add, rangeStart := 52, rangeStop := 69 }, { bufKind := MyNotes.BufferKind.add, rangeStart := 35, rangeStop := 52 }, { bufKind := MyNotes.BufferKind.add, rangeStart := 18, rangeStop := 35 }, { bufKind := MyNotes.BufferKind.add, rangeStart := 0, rangeStop := 9 }, { bufKind := MyNotes.BufferKind.add, rangeStart := 17, rangeStop := 18 }, { bufKind := MyNotes.BufferKind.add, rangeStart := 9, rangeStop := 17 }], undoStack := [MyNotes.Edit.insertE 0 0 17, MyNotes.Edit.insertE 9 17 18, MyNotes.Edit.insertE 0 18 35, MyNotes.Edit.insertE 0 35 52, MyNotes.Edit.insertE 0 52 69, MyNotes.Edit.insertE 0 69 86, MyNotes.Edit.insertE 0 86 103, MyNotes.Edit.insertE 0 103 120, MyNotes.Edit.insertE 0 120 137, MyNotes.Edit.insertE 0 137 154], redoStack := [] }, lineIndex := { root := MyNotes.Node.internal { lineCount := 154, byteLen := 154 } [MyNotes.Node.leaf { summary := { lineCount := 16, byteLen := 16 }, lineLengths := [1, 1, 1, 1, 1, 1, 1, 1, 1, 1, 1, 1, 1, 1, 1, 1] }, MyNotes.Node.leaf { summary := { lineCount := 17, byteLen := 17 }, lineLengths := [1, 1, 1, 1, 1, 1, 1, 1, 1, 1, 1, 1, 1, 1, 1, 1, 1] }, MyNotes.Node.leaf { summary := { lineCount := 17, byteLen := 17 }, lineLengths := [1, 1, 1, 1, 1, 1, 1, 1, 1, 1, 1, 1, 1, 1, 1, 1, 1] }, MyNotes.Node.leaf { summary := { lineCount := 17, byteLen := 17 }, lineLengths := [1, 1, 1, 1, 1, 1, 1, 1, 1, 1, 1, 1, 1, 1, 1, 1, 1] }, MyNotes.Node.leaf { summary := { lineCount := 17, byteLen := 17 }, lineLengths := [1, 1, 1, 1, 1, 1, 1, 1, 1, 1, 1, 1, 1, 1, 1, 1, 1] }, MyNotes.Node.leaf { summary := { lineCount := 17, byteLen := 17 }, lineLengths := [1, 1, 1, 1, 1, 1, 1, 1, 1, 1, 1, 1, 1, 1, 1, 1, 1] }, MyNotes.Node.leaf { summary := { lineCount := 16, byteLen := 16 }, lineLengths := [1, 1, 1, 1, 1, 1, 1, 1, 1, 1, 1, 1, 1, 1, 1, 1] }, MyNotes.Node.leaf { summary := { lineCount := 15, byteLen := 15 }, lineLengths := [1, 1, 1, 1, 1, 1, 1, 1, 1, 1, 1, 1, 1, 1, 1] }, MyNotes.Node.leaf { summary := { lineCount := 13, byteLen := 14 }, lineLengths := [1, 1, 1, 1, 1, 1, 1, 1, 1, 1, 1, 1, 2] }, MyNotes.Node.leaf { summary := { lineCount := 9, byteLen := 9 }, lineLengths := [2, 1, 1, 1, 1, 1, 1, 1, 0] }], cache := none }, isDirty := true })

/-- State after step 10. -/
def c1t10 : TextBuffer := c1p10.2

/-- Step 11 result of the divergence sequence. -/
def c1p11 : Except TbError Position × TextBuffer :=
  (Except.ok { row := 17, col := 0 }, { pieceTable := { original := [], buf := [10, 10, 10, 10, 10, 10, 10, 10, 10, 10, 10, 10, 10, 10, 10, 10, 10, 120, 10, 10, 10, 10, 10, 10, 10, 10, 10, 10, 10, 10, 10, 10, 10, 10, 10, 10, 10, 10, 10, 10, 10, 10, 10, 10, 10, 10, 10, 10, 10, 10, 10, 10, 10, 10, 10, 10, 10, 10, 10, 10, 10, 10, 10, 10, 10, 10, 10, 10, 10, 10, 10, 10, 10, 10, 10, 10, 10, 10, 10, 10, 10, 10, 10, 10, 10, 10, 10, 10, 10, 10, 10, 10, 10, 10, 10, 10, 10, 10, 10, 10, 10, 10, 10, 10, 10, 10, 10, 10, 10, 10, 10, 10, 10, 10, 10, 10, 10, 10, 10, 10, 10, 10, 10, 10, 10, 10, 10, 10, 10, 10, 10, 10, 10, 10, 10, 10, 10, 10, 10, 10, 10, 10, 10, 10, 10, 10, 10, 10, 10, 10, 10, 10, 10, 10, 10, 10, 10, 10, 10, 10, 10, 10, 10, 10, 10, 10, 10, 10, 10, 10, 10], pieces := [{ bufKind := MyNotes.BufferKind.add, rangeStart := 154, rangeStop := 171 }, { bufKind := MyNotes.BufferKind.add, rangeStart := 137, rangeStop := 154 }, { bufKind := MyNotes.BufferKind.add, rangeStart := 120, rangeStop := 137 }, { bufKind := MyNotes.BufferKind.add, rangeStart := 103, rangeStop := 120 }, { bufKind := MyNotes.BufferKind.add, rangeStart := 86, rangeStop := 103 }, { bufKind := MyNotes.BufferKind.add, rangeStart := 69, rangeStop := 86 }, { bufKind := MyNotes.BufferKind.add, rangeStart := 52, rangeStop := 69 }, { bufKind := MyNotes.BufferKind.add, rangeStart := 35, rangeStop := 52 }, { bufKind := MyNotes.BufferKind.add, rangeStart := 18, rangeStop := 35 }, { bufKind := MyNotes.BufferKind.add, rangeStart := 0, rangeStop := 9 }, { bufKind := MyNotes.BufferKind.add, rangeStart := 17, rangeStop := 18 }, { bufKind := MyNotes.BufferKind.add, rangeStart := 9, rangeStop := 17 }], undoStack := [MyNotes.Edit.insertE 0 0 17, MyNotes.Edit.insertE 9 17 18, MyNotes.Edit.insertE 0 18 35, MyNotes.Edit.insertE 0 35 52, MyNotes.Edit.insertE 0 52 69, MyNotes.Edit.insertE 0 69 86, MyNotes.Edit.insertE 0 86 103, MyNotes.Edit.insertE 0 103 120, MyNotes.Edit.insertE 0 120 137, MyNotes.Edit.insertE 0 137 154, MyNotes.Edit.insertE 0 154 171], redoStack := [] }, lineIndex := { root := MyNotes.Node.internal { lineCount := 171, byteLen := 171 } [MyNotes.Node.leaf { summary := { lineCount := 16, byteLen := 16 }, lineLengths := [1, 1, 1, 1, 1, 1, 1, 1, 1, 1, 1, 1, 1, 1, 1, 1] }, MyNotes.Node.leaf { summary := { lineCount := 17, byteLen := 17 }, lineLengths := [1, 1, 1, 1, 1, 1, 1, 1, 1, 1, 1, 1, 1, 1, 1, 1, 1] }, MyNotes.Node.leaf { summary := { lineCount := 17, byteLen := 17 }, lineLengths := [1, 1, 1, 1, 1, 1, 1, 1, 1, 1, 1, 1, 1, 1, 1, 1, 1] }, MyNotes.Node.leaf { summary := { lineCount := 17, byteLen := 17 }, lineLengths := [1, 1, 1, 1, 1, 1, 1, 1, 1, 1, 1, 1, 1, 1, 1, 1, 1] }, MyNotes.Node.leaf { summary := { lineCount := 17, byteLen := 17 }, lineLengths := [1, 1, 1, 1, 1, 1, 1, 1, 1, 1, 1, 1, 1, 1, 1, 1, 1] }, MyNotes.Node.leaf { summary := { lineCount := 17, byteLen := 17 }, lineLengths := [1, 1, 1, 1, 1, 1, 1, 1, 1, 1, 1, 1, 1, 1, 1, 1, 1] }, MyNotes.Node.leaf { summary := { lineCount := 17, byteLen := 17 }, lineLengths := [1, 1, 1, 1, 1, 1, 1, 1, 1, 1, 1, 1, 1, 1, 1, 1, 1] }, MyNotes.Node.leaf { summary := { lineCount := 16, byteLen := 16 }, lineLengths := [1, 1, 1, 1, 1, 1, 1, 1, 1, 1, 1, 1, 1, 1, 1, 1] }, MyNotes.Node.leaf { summary := { lineCount := 15, byteLen := 15 }, lineLengths := [1, 1, 1, 1, 1, 1, 1, 1, 1, 1, 1, 1, 1, 1, 1] }, MyNotes.Node.leaf { summary := { lineCount := 13, byteLen := 14 }, lineLengths := [1, 1, 1, 1, 1, 1, 1, 1, 1, 1, 1, 1, 2] }, MyNotes.Node.leaf { summary := { lineCount := 9, byteLen := 9 }, lineLengths := [2, 1, 1, 1, 1, 1, 1, 1, 0] }], cache := none }, isDirty := true })

/-- State after step 11. -/
def c1t11 : TextBuffer := c1p11.2

/-- Step 12 result of the divergence sequence. -/
def c1p12 : Except TbError Position × TextBuffer :=
  (Except.ok { row := 17, col := 0 }, { pieceTable := { original := [], buf := [10, 10, 10, 10, 10, 10, 10, 10, 10, 10, 10, 10, 10, 10, 10, 10, 10, 120, 10, 10, 10, 10, 10, 10, 10, 10, 10, 10, 10, 10, 10, 10, 10, 10, 10, 10, 10, 10, 10, 10, 10, 10, 10, 10, 10, 10, 10, 10, 10, 10, 10, 10, 10, 10, 10, 10, 10, 10, 10, 10, 10, 10, 10, 10, 10, 10, 10, 10, 10, 10, 10, 10, 10, 10, 10, 10, 10, 10, 10, 10, 10, 10, 10, 10, 10, 10, 10, 10, 10, 10, 10, 10, 10, 10, 10, 10, 10, 10, 10, 10, 10, 10, 10, 10, 10, 10, 10, 10, 10, 10, 10, 10, 10, 10, 10, 10, 10, 10, 10, 10, 10, 10, 10, 10, 10, 10, 10, 10, 10, 10, 10, 10, 10, 10, 10, 10, 10, 10, 10, 10, 10, 10, 10, 10, 10, 10, 10, 10, 10, 10, 10, 10, 10, 10, 10, 10, 10, 10, 10, 10, 10, 10, 10, 10, 10, 10, 10, 10, 10, 10, 10, 10, 10, 10, 10, 10, 10, 10, 10, 10, 10, 10, 10, 10, 10, 10, 10, 10], pieces := [{ bufKind := MyNotes.BufferKind.add, rangeStart := 171, rangeStop := 188 }, { bufKind := MyNotes.BufferKind.add, rangeStart := 154, rangeStop := 171 }, { bufKind := MyNotes.BufferKind.add, rangeStart := 137, rangeStop := 154 }, { bufKind := MyNotes.BufferKind.add, rangeStart := 120, rangeStop := 137 }, { bufKind := MyNotes.BufferKind.add, rangeStart := 103, rangeStop := 120 }, { bufKind := MyNotes.BufferKind.add, rangeStart := 86, rangeStop := 103 }, { bufKind := MyNotes.BufferKind.add, rangeStart := 69, rangeStop := 86 }, { bufKind := MyNotes.BufferKind.add, rangeStart := 52, rangeStop := 69 }, { bufKind := MyNotes.BufferKind.add, rangeStart := 35, rangeStop := 52 }, { bufKind := MyNotes.BufferKind.add, rangeStart := 18, rangeStop := 35 }, { bufKind := MyNotes.BufferKind.add, rangeStart := 0, rangeStop := 9 }, { bufKind := MyNotes.BufferKind.add, rangeStart := 17, rangeStop := 18 }, { bufKind := MyNotes.BufferKind.add, rangeStart := 9, rangeStop := 17 }], undoStack := [MyNotes.Edit.insertE 0 0 17, MyNotes.Edit.insertE 9 17 18, MyNotes.Edit.insertE 0 18 35, MyNotes.Edit.insertE 0 35 52, MyNotes.Edit.insertE 0 52 69, MyNotes.Edit.insertE 0 69 86, MyNotes.Edit.insertE 0 86 103, MyNotes.Edit.insertE 0 103 120, MyNotes.Edit.insertE 0 120 137, MyNotes.Edit.insertE 0 137 154, MyNotes.Edit.insertE 0 154 171, MyNotes.Edit.insertE 0 171 188], redoStack := [] }, lineIndex := { root := MyNotes.Node.internal { lineCount := 188, byteLen := 188 } [MyNotes.Node.leaf { summary := { lineCount := 16, byteLen := 16 }, lineLengths := [1, 1, 1, 1, 1, 1, 1, 1, 1, 1, 1, 1, 1, 1, 1, 1] }, MyNotes.Node.leaf { summary := { lineCount := 17, byteLen := 17 }, lineLengths := [1, 1, 1, 1, 1, 1, 1, 1, 1, 1, 1, 1, 1, 1, 1, 1, 1] }, MyNotes.Node.leaf { summary := { lineCount := 17, byteLen := 17 }, lineLengths := [1, 1, 1, 1, 1, 1, 1, 1, 1, 1, 1, 1, 1, 1, 1, 1, 1] }, MyNotes.Node.leaf { summary := { lineCount := 17, byteLen := 17 }, lineLengths := [1, 1, 1, 1, 1, 1, 1, 1, 1, 1, 1, 1, 1, 1, 1, 1, 1] }, MyNotes.Node.leaf { summary := { lineCount := 17, byteLen := 17 }, lineLengths := [1, 1, 1, 1, 1, 1, 1, 1, 1, 1, 1, 1, 1, 1, 1, 1, 1] }, MyNotes.Node.leaf { summary := { lineCount := 17, byteLen := 17 }, lineLengths := [1, 1, 1, 1, 1, 1, 1, 1, 1, 1, 1, 1, 1, 1, 1, 1, 1] }, MyNotes.Node.leaf { summary := { lineCount := 17, byteLen := 17 }, lineLengths := [1, 1, 1, 1, 1, 1, 1, 1, 1, 1, 1, 1, 1, 1, 1, 1, 1] }, MyNotes.Node.leaf { summary := { lineCount := 17, byteLen := 17 }, lineLengths := [1, 1, 1, 1, 1, 1, 1, 1, 1, 1, 1, 1, 1, 1, 1, 1, 1] }, MyNotes.Node.leaf { summary := { lineCount := 16, byteLen := 16 }, lineLengths := [1, 1, 1, 1, 1, 1, 1, 1, 1, 1, 1, 1, 1, 1, 1, 1] }, MyNotes.Node.leaf { summary := { lineCount := 15, byteLen := 15 }, lineLengths := [1, 1, 1, 1, 1, 1, 1, 1, 1, 1, 1, 1, 1, 1, 1] }, MyNotes.Node.leaf { summary := { lineCount := 13, byteLen := 14 }, lineLengths := [1, 1, 1, 1, 1, 1, 1, 1, 1, 1, 1, 1, 2] }, MyNotes.Node.leaf { summary := { lineCount := 9, byteLen := 9 }, lineLengths := [2, 1, 1, 1, 1, 1, 1, 1, 0] }], cache := none }, isDirty := true })

/-- State after step 12. -/
def c1t12 : TextBuffer := c1p12.2

/-- Step 13 result of the divergence sequence. -/
def c1p13 : Except TbError Position × TextBuffer :=
  (Except.ok { row := 17, col := 0 }, { pieceTable := { original := [], buf := [10, 10, 10, 10, 10, 10, 10, 10, 10, 10, 10, 10, 10, 10, 10, 10, 10, 120, 10, 10, 10, 10, 10, 10, 10, 10, 10, 10, 10, 10, 10, 10, 10, 10, 10, 10, 10, 10, 10, 10, 10, 10, 10, 10, 10, 10, 10, 10, 10, 10, 10, 10, 10, 10, 10, 10, 10, 10, 10, 10, 10, 10, 10, 10, 10, 10, 10, 10, 10, 10, 10, 10, 10, 10, 10, 10, 10, 10, 10, 10, 10, 10, 10, 10, 10, 10, 10, 10, 10, 10, 10, 10, 10, 10, 10, 10, 10, 10, 10, 10, 10, 10, 10, 10, 10, 10, 10, 10, 10, 10, 10, 10, 10, 10, 10, 10, 10, 10, 10, 10, 10, 10, 10, 10, 10, 10, 10, 10, 10, 10, 10, 10, 10, 10, 10, 10, 10, 10, 10, 10, 10, 10, 10, 10, 10, 10, 10, 10, 10, 10, 10, 10, 10, 10, 10, 10, 10, 10, 10, 10, 10, 10, 10, 10, 10, 10, 10, 10, 10, 10, 10, 10, 10, 10, 10, 10, 10, 10, 10, 10, 10, 10, 10, 10, 10, 10, 10, 10, 10, 10, 10, 10, 10, 10, 10, 10, 10, 10, 10, 10, 10, 10, 10, 10, 10], pieces := [{ bufKind := MyNotes.BufferKind.add, rangeStart := 188, rangeStop := 205 }, { bufKind := MyNotes.BufferKind.add, rangeStart := 171, rangeStop := 188 }, { bufKind := MyNotes.BufferKind.add, rangeStart := 154, rangeStop := 171 }, { bufKind := MyNotes.BufferKind.add, rangeStart := 137, rangeStop := 154 }, { bufKind := MyNotes.BufferKind.add, rangeStart := 120, rangeStop := 137 }, { bufKind := MyNotes.BufferKind.add, rangeStart := 103, rangeStop := 120 }, { bufKind := MyNotes.BufferKind.add, rangeStart := 86, rangeStop := 103 }, { bufKind := MyNotes.BufferKind.add, rangeStart := 69, rangeStop := 86 }, { bufKind := MyNotes.BufferKind.add, rangeStart := 52, rangeStop := 69 }, { bufKind := MyNotes.BufferKind.add, rangeStart := 35, rangeStop := 52 }, { bufKind := MyNotes.BufferKind.add, rangeStart := 18, rangeStop := 35 }, { bufKind := MyNotes.BufferKind.add, rangeStart := 0, rangeStop := 9 }, { bufKind := MyNotes.BufferKind.add, rangeStart := 17, rangeStop := 18 }, { bufKind := MyNotes.BufferKind.add, rangeStart := 9, rangeStop := 17 }], undoStack := [MyNotes.Edit.insertE 0 0 17, MyNotes.Edit.insertE 9 17 18, MyNotes.Edit.insertE 0 18 35, MyNotes.Edit.insertE 0 35 52, MyNotes.Edit.insertE 0 52 69, MyNotes.Edit.insertE 0 69 86, MyNotes.Edit.insertE 0 86 103, MyNotes.Edit.insertE 0 103 120, MyNotes.Edit.insertE 0 120 137, MyNotes.Edit.insertE 0 137 154, MyNotes.Edit.insertE 0 154 171, MyNotes.Edit.insertE 0 171 188, MyNotes.Edit.insertE 0 188 205], redoStack := [] }, lineIndex := { root := MyNotes.Node.internal { lineCount := 205, byteLen := 205 } [MyNotes.Node.leaf { summary := { lineCount := 16, byteLen := 16 }, lineLengths := [1, 1, 1, 1, 1, 1, 1, 1, 1, 1, 1, 1, 1, 1, 1, 1] }, MyNotes.Node.leaf { summary := { lineCount := 17, byteLen := 17 }, lineLengths := [1, 1, 1, 1, 1, 1, 1, 1, 1, 1, 1, 1, 1, 1, 1, 1, 1] }, MyNotes.Node.leaf { summary := { lineCount := 17, byteLen := 17 }, lineLengths := [1, 1, 1, 1, 1, 1, 1, 1, 1, 1, 1, 1, 1, 1, 1, 1, 1] }, MyNotes.Node.leaf { summary := { lineCount := 17, byteLen := 17 }, lineLengths := [1, 1, 1, 1, 1, 1, 1, 1, 1, 1, 1, 1, 1, 1, 1, 1, 1] }, MyNotes.Node.leaf { summary := { lineCount := 17, byteLen := 17 }, lineLengths := [1, 1, 1, 1, 1, 1, 1, 1, 1, 1, 1, 1, 1, 1, 1, 1, 1] }, MyNotes.Node.leaf { summary := { lineCount := 17, byteLen := 17 }, lineLengths := [1, 1, 1, 1, 1, 1, 1, 1, 1, 1, 1, 1, 1, 1, 1, 1, 1] }, MyNotes.Node.leaf { summary := { lineCount := 17, byteLen := 17 }, lineLengths := [1, 1, 1, 1, 1, 1, 1, 1, 1, 1, 1, 1, 1, 1, 1, 1, 1] }, MyNotes.Node.leaf { summary := { lineCount := 17, byteLen := 17 }, lineLengths := [1, 1, 1, 1, 1, 1, 1, 1, 1, 1, 1, 1, 1, 1, 1, 1, 1] }, MyNotes.Node.leaf { summary := { lineCount := 17, byteLen := 17 }, lineLengths := [1, 1, 1, 1, 1, 1, 1, 1, 1, 1, 1, 1, 1, 1, 1, 1, 1] }, MyNotes.Node.leaf { summary := { lineCount := 16, byteLen := 16 }, lineLengths := [1, 1, 1, 1, 1, 1, 1, 1, 1, 1, 1, 1, 1, 1, 1, 1] }, MyNotes.Node.leaf { summary := { lineCount := 15, byteLen := 15 }, lineLengths := [1, 1, 1, 1, 1, 1, 1, 1, 1, 1, 1, 1, 1, 1, 1] }, MyNotes.Node.leaf { summary := { lineCount := 13, byteLen := 14 }, lineLengths := [1, 1, 1, 1, 1, 1, 1, 1, 1, 1, 1, 1, 2] }, MyNotes.Node.leaf { summary := { lineCount := 9, byteLen := 9 }, lineLengths := [2, 1, 1, 1, 1, 1, 1, 1, 0] }], cache := none }, isDirty := true })

/-- State after step 13. -/
def c1t13 : TextBuffer := c1p13.2

/-- Step 14 result of the divergence sequence. -/
def c1p14 : Except TbError Position × TextBuffer :=
  (Except.ok { row := 17, col := 0 }, { pieceTable := { original := [], buf := [10, 10, 10, 10, 10, 10, 10, 10, 10, 10, 10, 10, 10, 10, 10, 10, 10, 120, 10, 10, 10, 10, 10, 10, 10, 10, 10, 10, 10, 10, 10, 10, 10, 10, 10, 10, 10, 10, 10, 10, 10, 10, 10, 10, 10, 10, 10, 10, 10, 10, 10, 10, 10, 10, 10, 10, 10, 10, 10, 10, 10, 10, 10, 10, 10, 10, 10, 10, 10, 10, 10, 10, 10, 10, 10, 10, 10, 10, 10, 10, 10, 10, 10, 10, 10, 10, 10, 10, 10, 10, 10, 10, 10, 10, 10, 10, 10, 10, 10, 10, 10, 10, 10, 10, 10, 10, 10, 10, 10, 10, 10, 10, 10, 10, 10, 10, 10, 10, 10, 10, 10, 10, 10, 10, 10, 10, 10, 10, 10, 10, 10, 10, 10, 10, 10, 10, 10, 10, 10, 10, 10, 10, 10, 10, 10, 10, 10, 10, 10, 10, 10, 10, 10, 10, 10, 10, 10, 10, 10, 10, 10, 10, 10, 10, 10, 10, 10, 10, 10, 10, 10, 10, 10, 10, 10, 10, 10, 10, 10, 10, 10, 10, 10, 10, 10, 10, 10, 10, 10, 10, 10, 10, 10, 10, 10, 10, 10, 10, 10, 10, 10, 10, 10, 10, 10, 10, 10, 10, 10, 10, 10, 10, 10, 10, 10, 10, 10, 10, 10, 10, 10, 10], pieces := [{ bufKind := MyNotes.BufferKind.add, rangeStart := 205, rangeStop := 222 }, { bufKind := MyNotes.BufferKind.add, rangeStart := 188, rangeStop := 205 }, { bufKind := MyNotes.BufferKind.add, rangeStart := 171, rangeStop := 188 }, { bufKind := MyNotes.BufferKind.add, rangeStart := 154, rangeStop := 171 }, { bufKind := MyNotes.BufferKind.add, rangeStart := 137, rangeStop := 154 }, { bufKind := MyNotes.BufferKind.add, rangeStart := 120, rangeStop := 137 }, { bufKind := MyNotes.BufferKind.add, rangeStart := 103, rangeStop := 120 }, { bufKind := MyNotes.BufferKind.add, rangeStart := 86, rangeStop := 103 }, { bufKind := MyNotes.BufferKind.add, rangeStart := 69, rangeStop := 86 }, { bufKind := MyNotes.BufferKind.add, rangeStart := 52, rangeStop := 69 }, { bufKind := MyNotes.BufferKind.add, rangeStart := 35, rangeStop := 52 }, { bufKind := MyNotes.BufferKind.add, rangeStart := 18, rangeStop := 35 }, { bufKind := MyNotes.BufferKind.add, rangeStart := 0, rangeStop := 9 }, { bufKind := MyNotes.BufferKind.add, rangeStart := 17, rangeStop := 18 }, { bufKind := MyNotes.BufferKind.add, rangeStart := 9, rangeStop := 17 }], undoStack := [MyNotes.Edit.insertE 0 0 17, MyNotes.Edit.insertE 9 17 18, MyNotes.Edit.insertE 0 18 35, MyNotes.Edit.insertE 0 35 52, MyNotes.Edit.insertE 0 52 69, MyNotes.Edit.insertE 0 69 86, MyNotes.Edit.insertE 0 86 103, MyNotes.Edit.insertE 0 103 120, MyNotes.Edit.insertE 0 120 137, MyNotes.Edit.insertE 0 137 154, MyNotes.Edit.insertE 0 154 171, MyNotes.Edit.insertE 0 171 188, MyNotes.Edit.insertE 0 188 205, MyNotes.Edit.insertE 0 205 222], redoStack := [] }, lineIndex := { root := MyNotes.Node.internal { lineCount := 222, byteLen := 222 } [MyNotes.Node.leaf { summary := { lineCount := 16, byteLen := 16 }, lineLengths := [1, 1, 1, 1, 1, 1, 1, 1, 1, 1, 1, 1, 1, 1, 1, 1] }, MyNotes.Node.leaf { summary := { lineCount := 17, byteLen := 17 }, lineLengths := [1, 1, 1, 1, 1, 1, 1, 1, 1, 1, 1, 1, 1, 1, 1, 1, 1] }, MyNotes.Node.leaf { summary := { lineCount := 17, byteLen := 17 }, lineLengths := [1, 1, 1, 1, 1, 1, 1, 1, 1, 1, 1, 1, 1, 1, 1, 1, 1] }, MyNotes.Node.leaf { summary := { lineCount := 17, byteLen := 17 }, lineLengths := [1, 1, 1, 1, 1, 1, 1, 1, 1, 1, 1, 1, 1, 1, 1, 1, 1] }, MyNotes.Node.leaf { summary := { lineCount := 17, byteLen := 17 }, lineLengths := [1, 1, 1, 1, 1, 1, 1, 1, 1, 1, 1, 1, 1, 1, 1, 1, 1] }, MyNotes.Node.leaf { summary := { lineCount := 17, byteLen := 17 }, lineLengths := [1, 1, 1, 1, 1, 1, 1, 1, 1, 1, 1, 1, 1, 1, 1, 1, 1] }, MyNotes.Node.leaf { summary := { lineCount := 17, byteLen := 17 }, lineLengths := [1, 1, 1, 1, 1, 1, 1, 1, 1, 1, 1, 1, 1, 1, 1, 1, 1] }, MyNotes.Node.leaf { summary := { lineCount := 17, byteLen := 17 }, lineLengths := [1, 1, 1, 1, 1, 1, 1, 1, 1, 1, 1, 1, 1, 1, 1, 1, 1] }, MyNotes.Node.leaf { summary := { lineCount := 17, byteLen := 17 }, lineLengths := [1, 1, 1, 1, 1, 1, 1, 1, 1, 1, 1, 1, 1, 1, 1, 1, 1] }, MyNotes.Node.leaf { summary := { lineCount := 17, byteLen := 17 }, lineLengths := [1, 1, 1, 1, 1, 1, 1, 1, 1, 1, 1, 1, 1, 1, 1, 1, 1] }, MyNotes.Node.leaf { summary := { lineCount := 16, byteLen := 16 }, lineLengths := [1, 1, 1, 1, 1, 1, 1, 1, 1, 1, 1, 1, 1, 1, 1, 1] }, MyNotes.Node.leaf { summary := { lineCount := 15, byteLen := 15 }, lineLengths := [1, 1, 1, 1, 1, 1, 1, 1, 1, 1, 1, 1, 1, 1, 1] }, MyNotes.Node.leaf { summary := { lineCount := 13, byteLen := 14 }, lineLengths := [1, 1, 1, 1, 1, 1, 1, 1, 1, 1, 1, 1, 2] }, MyNotes.Node.leaf { summary := { lineCount := 9, byteLen := 9 }, lineLengths := [2, 1, 1, 1, 1, 1, 1, 1, 0] }], cache := none }, isDirty := true })

/-- State after step 14. -/
def c1t14 : TextBuffer := c1p14.2

/-- Step 15 result of the divergence sequence. -/
def c1p15 : Except TbError Position × TextBuffer :=
  (Except.ok { row := 17, col := 0 }, { pieceTable := { original := [], buf := [10, 10, 10, 10, 10, 10, 10, 10, 10, 10, 10, 10, 10, 10, 10, 10, 10, 120, 10, 10, 10, 10, 10, 10, 10, 10, 10, 10, 10, 10, 10, 10, 10, 10, 10, 10, 10, 10, 10, 10, 10, 10, 10, 10, 10, 10, 10, 10, 10, 10, 10, 10, 10, 10, 10, 10, 10, 10, 10, 10, 10, 10, 10, 10, 10, 10, 10, 10, 10, 10, 10, 10, 10, 10, 10, 10, 10, 10, 10, 10, 10, 10, 10, 10, 10, 10, 10, 10, 10, 10, 10, 10, 10, 10, 10, 10, 10, 10, 10, 10, 10, 10, 10, 10, 10, 10, 10, 10, 10, 10, 10, 10, 10, 10, 10, 10, 10, 10, 10, 10, 10, 10, 10, 10, 10, 10, 10, 10, 10, 10, 10, 10, 10, 10, 10, 10, 10, 10, 10, 10, 10, 10, 10, 10, 10, 10, 10, 10, 10, 10, 10, 10, 10, 10, 10, 10, 10, 10, 10, 10, 10, 10, 10, 10, 10, 10, 10, 10, 10, 10, 10, 10, 10, 10, 10, 10, 10, 10, 10, 10, 10, 10, 10, 10, 10, 10, 10, 10, 10, 10, 10, 10, 10, 10, 10, 10, 10, 10, 10, 10, 10, 10, 10, 10, 10, 10, 10, 10, 10, 10, 10, 10, 10, 10, 10, 10, 10, 10, 10, 10, 10, 10, 10, 10, 10, 10, 10, 10, 10, 10, 10, 10, 10, 10, 10, 10, 10, 10, 10], pieces := [{ bufKind := MyNotes.BufferKind.add, rangeStart := 222, rangeStop := 239 }, { bufKind := MyNotes.BufferKind.add, rangeStart := 205, rangeStop := 222 }, { bufKind := MyNotes.BufferKind.add, rangeStart := 188, rangeStop := 205 }, { bufKind := MyNotes.BufferKind.add, rangeStart := 171, rangeStop := 188 }, { bufKind := MyNotes.BufferKind.add, rangeStart := 154, rangeStop := 171 }, { bufKind := MyNotes.BufferKind.add, rangeStart := 137, rangeStop := 154 }, { bufKind := MyNotes.BufferKind.add, rangeStart := 120, rangeStop := 137 }, { bufKind := MyNotes.BufferKind.add, rangeStart := 103, rangeStop := 120 }, { bufKind := MyNotes.BufferKind.add, rangeStart := 86, rangeStop := 103 }, { bufKind := MyNotes.BufferKind.add, rangeStart := 69, rangeStop := 86 }, { bufKind := MyNotes.BufferKind.add, rangeStart := 52, rangeStop := 69 }, { bufKind := MyNotes.BufferKind.add, rangeStart := 35, rangeStop := 52 }, { bufKind := MyNotes.BufferKind.add, rangeStart := 18, rangeStop := 35 }, { bufKind := MyNotes.BufferKind.add, rangeStart := 0, rangeStop := 9 }, { bufKind := MyNotes.BufferKind.add, rangeStart := 17, rangeStop := 18 }, { bufKind := MyNotes.BufferKind.add, rangeStart := 9, rangeStop := 17 }], undoStack := [MyNotes.Edit.insertE 0 0 17, MyNotes.Edit.insertE 9 17 18, MyNotes.Edit.insertE 0 18 35, MyNotes.Edit.insertE 0 35 52, MyNotes.Edit.insertE 0 52 69, MyNotes.Edit.insertE 0 69 86, MyNotes.Edit.insertE 0 86 103, MyNotes.Edit.insertE 0 103 120, MyNotes.Edit.insertE 0 120 137, MyNotes.Edit.insertE 0 137 154, MyNotes.Edit.insertE 0 154 171, MyNotes.Edit.insertE 0 171 188, MyNotes.Edit.insertE 0 188 205, MyNotes.Edit.insertE 0 205 222, MyNotes.Edit.insertE 0 222 239], redoStack := [] }, lineIndex := { root := MyNotes.Node.internal { lineCount := 239, byteLen := 239 } [MyNotes.Node.leaf { summary := { lineCount := 16, byteLen := 16 }, lineLengths := [1, 1, 1, 1, 1, 1, 1, 1, 1, 1, 1, 1, 1, 1, 1, 1] }, MyNotes.Node.leaf { summary := { lineCount := 17, byteLen := 17 }, lineLengths := [1, 1, 1, 1, 1, 1, 1, 1, 1, 1, 1, 1, 1, 1, 1, 1, 1] }, MyNotes.Node.leaf { summary := { lineCount := 17, byteLen := 17 }, lineLengths := [1, 1, 1, 1, 1, 1, 1, 1, 1, 1, 1, 1, 1, 1, 1, 1, 1] }, MyNotes.Node.leaf { summary := { lineCount := 17, byteLen := 17 }, lineLengths := [1, 1, 1, 1, 1, 1, 1, 1, 1, 1, 1, 1, 1, 1, 1, 1, 1] }, MyNotes.Node.leaf { summary := { lineCount := 17, byteLen := 17 }, lineLengths := [1, 1, 1, 1, 1, 1, 1, 1, 1, 1, 1, 1, 1, 1, 1, 1, 1] }, MyNotes.Node.leaf { summary := { lineCount := 17, byteLen := 17 }, lineLengths := [1, 1, 1, 1, 1, 1, 1, 1, 1, 1, 1, 1, 1, 1, 1, 1, 1] }, MyNotes.Node.leaf { summary := { lineCount := 17, byteLen := 17 }, lineLengths := [1, 1, 1, 1, 1, 1, 1, 1, 1, 1, 1, 1, 1, 1, 1, 1, 1] }, MyNotes.Node.leaf { summary := { lineCount := 17, byteLen := 17 }, lineLengths := [1, 1, 1, 1, 1, 1, 1, 1, 1, 1, 1, 1, 1, 1, 1, 1, 1] }, MyNotes.Node.leaf { summary := { lineCount := 17, byteLen := 17 }, lineLengths := [1, 1, 1, 1, 1, 1, 1, 1, 1, 1, 1, 1, 1, 1, 1, 1, 1] }, MyNotes.Node.leaf { summary := { lineCount := 17, byteLen := 17 }, lineLengths := [1, 1, 1, 1, 1, 1, 1, 1, 1, 1, 1, 1, 1, 1, 1, 1, 1] }, MyNotes.Node.leaf { summary := { lineCount := 17, byteLen := 17 }, lineLengths := [1, 1, 1, 1, 1, 1, 1, 1, 1, 1, 1, 1, 1, 1, 1, 1, 1] }, MyNotes.Node.leaf { summary := { lineCount := 16, byteLen := 16 }, lineLengths := [1, 1, 1, 1, 1, 1, 1, 1, 1, 1, 1, 1, 1, 1, 1, 1] }, MyNotes.Node.leaf { summary := { lineCount := 15, byteLen := 15 }, lineLengths := [1, 1, 1, 1, 1, 1, 1, 1, 1, 1, 1, 1, 1, 1, 1] }, MyNotes.Node.leaf { summary := { lineCount := 13, byteLen := 14 }, lineLengths := [1, 1, 1, 1, 1, 1, 1, 1, 1, 1, 1, 1, 2] }, MyNotes.Node.leaf { summary := { lineCount := 9, byteLen := 9 }, lineLengths := [2, 1, 1, 1, 1, 1, 1, 1, 0] }], cache := none }, isDirty := true })

/-- State after step 15. -/
def c1t15 : TextBuffer := c1p15.2

/-- Step 16 result of the divergence sequence. -/
def c1p16 : Except TbError Position × TextBuffer :=
  (Except.ok { row := 17, col := 0 }, { pieceTable := { original := [], buf := [10, 10, 10, 10, 10, 10, 10, 10, 10, 10, 10, 10, 10, 10, 10, 10, 10, 120, 10, 10, 10, 10, 10, 10, 10, 10, 10, 10, 10, 10, 10, 10, 10, 10, 10, 10, 10, 10, 10, 10, 10, 10, 10, 10, 10, 10, 10, 10, 10, 10, 10, 10, 10, 10, 10, 10, 10, 10, 10, 10, 10, 10, 10, 10, 10, 10, 10, 10, 10, 10, 10, 10, 10, 10, 10, 10, 10, 10, 10, 10, 10, 10, 10, 10, 10, 10, 10, 10, 10, 10, 10, 10, 10, 10, 10, 10, 10, 10, 10, 10, 10, 10, 10, 10, 10, 10, 10, 10, 10, 10, 10, 10, 10, 10, 10, 10, 10, 10, 10, 10, 10, 10, 10, 10, 10, 10, 10, 10, 10, 10, 10, 10, 10, 10, 10, 10, 10, 10, 10, 10, 10, 10, 10, 10, 10, 10, 10, 10, 10, 10, 10, 10, 10, 10, 10, 10, 10, 10, 10, 10, 10, 10, 10, 10, 10, 10, 10, 10, 10, 10, 10, 10, 10, 10, 10, 10, 10, 10, 10, 10, 10, 10, 10, 10, 10, 10, 10, 10, 10, 10, 10, 10, 10, 10, 10, 10, 10, 10, 10, 10, 10, 10, 10, 10, 10, 10, 10, 10, 10, 10, 10, 10, 10, 10, 10, 10, 10, 10, 10, 10, 10, 10, 10, 10, 10, 10, 10, 10, 10, 10, 10, 10, 10, 10, 10, 10, 10, 10, 10, 10, 10, 10, 10, 10, 10, 10, 10, 10, 10, 10, 10, 10, 10, 10, 10, 10], pieces := [{ bufKind := MyNotes.BufferKind.add, rangeStart := 239, rangeStop := 256 }, { bufKind := MyNotes.BufferKind.add, rangeStart := 222, rangeStop := 239 }, { bufKind := MyNotes.BufferKind.add, rangeStart := 205, rangeStop := 222 }, { bufKind := MyNotes.BufferKind.add, rangeStart := 188, rangeStop := 205 }, { bufKind := MyNotes.BufferKind.add, rangeStart := 171, rangeStop := 188 }, { bufKind := MyNotes.BufferKind.add, rangeStart := 154, rangeStop := 171 }, { bufKind := MyNotes.BufferKind.add, rangeStart := 137, rangeStop := 154 }, { bufKind := MyNotes.BufferKind.add, rangeStart := 120, rangeStop := 137 }, { bufKind := MyNotes.BufferKind.add, rangeStart := 103, rangeStop := 120 }, { bufKind := MyNotes.BufferKind.add, rangeStart := 86, rangeStop := 103 }, { bufKind := MyNotes.BufferKind.add, rangeStart := 69, rangeStop := 86 }, { bufKind := MyNotes.BufferKind.add, rangeStart := 52, rangeStop := 69 }, { bufKind := MyNotes.BufferKind.add, rangeStart := 35, rangeStop := 52 }, { bufKind := MyNotes.BufferKind.add, rangeStart := 18, rangeStop := 35 }, { bufKind := MyNotes.BufferKind.add, rangeStart := 0, rangeStop := 9 }, { bufKind := MyNotes.BufferKind.add, rangeStart := 17, rangeStop := 18 }, { bufKind := MyNotes.BufferKind.add, rangeStart := 9, rangeStop := 17 }], undoStack := [MyNotes.Edit.insertE 0 0 17, MyNotes.Edit.insertE 9 17 18, MyNotes.Edit.insertE 0 18 35, MyNotes.Edit.insertE 0 35 52, MyNotes.Edit.insertE 0 52 69, MyNotes.Edit.insertE 0 69 86, MyNotes.Edit.insertE 0 86 103, MyNotes.Edit.insertE 0 103 120, MyNotes.Edit.insertE 0 120 137, MyNotes.Edit.insertE 0 137 154, MyNotes.Edit.insertE 0 154 171, MyNotes.Edit.insertE 0 171 188, MyNotes.Edit.insertE 0 188 205, MyNotes.Edit.insertE 0 205 222, MyNotes.Edit.insertE 0 222 239, MyNotes.Edit.insertE 0 239 256], redoStack := [] }, lineIndex := { root := MyNotes.Node.internal { lineCount := 256, byteLen := 256 } [MyNotes.Node.leaf { summary := { lineCount := 16, byteLen := 16 }, lineLengths := [1, 1, 1, 1, 1, 1, 1, 1, 1, 1, 1, 1, 1, 1, 1, 1] }, MyNotes.Node.leaf { summary := { lineCount := 17, byteLen := 17 }, lineLengths := [1, 1, 1, 1, 1, 1, 1, 1, 1, 1, 1, 1, 1, 1, 1, 1, 1] }, MyNotes.Node.leaf { summary := { lineCount := 17, byteLen := 17 }, lineLengths := [1, 1, 1, 1, 1, 1, 1, 1, 1, 1, 1, 1, 1, 1, 1, 1, 1] }, MyNotes.Node.leaf { summary := { lineCount := 17, byteLen := 17 }, lineLengths := [1, 1, 1, 1, 1, 1, 1, 1, 1, 1, 1, 1, 1, 1, 1, 1, 1] }, MyNotes.Node.leaf { summary := { lineCount := 17, byteLen := 17 }, lineLengths := [1, 1, 1, 1, 1, 1, 1, 1, 1, 1, 1, 1, 1, 1, 1, 1, 1] }, MyNotes.Node.leaf { summary := { lineCount := 17, byteLen := 17 }, lineLengths := [1, 1, 1, 1, 1, 1, 1, 1, 1, 1, 1, 1, 1, 1, 1, 1, 1] }, MyNotes.Node.leaf { summary := { lineCount := 17, byteLen := 17 }, lineLengths := [1, 1, 1, 1, 1, 1, 1, 1, 1, 1, 1, 1, 1, 1, 1, 1, 1] }, MyNotes.Node.leaf { summary := { lineCount := 17, byteLen := 17 }, lineLengths := [1, 1, 1, 1, 1, 1, 1, 1, 1, 1, 1, 1, 1, 1, 1, 1, 1] }, MyNotes.Node.leaf { summary := { lineCount := 17, byteLen := 17 }, lineLengths := [1, 1, 1, 1, 1, 1, 1, 1, 1, 1, 1, 1, 1, 1, 1, 1, 1] }, MyNotes.Node.leaf { summary := { lineCount := 17, byteLen := 17 }, lineLengths := [1, 1, 1, 1, 1, 1, 1, 1, 1, 1, 1, 1, 1, 1, 1, 1, 1] }, MyNotes.Node.leaf { summary := { lineCount := 17, byteLen := 17 }, lineLengths := [1, 1, 1, 1, 1, 1, 1, 1, 1, 1, 1, 1, 1, 1, 1, 1, 1] }, MyNotes.Node.leaf { summary := { lineCount := 17, byteLen := 17 }, lineLengths := [1, 1, 1, 1, 1, 1, 1, 1, 1, 1, 1, 1, 1, 1, 1, 1, 1] }, MyNotes.Node.leaf { summary := { lineCount := 16, byteLen := 16 }, lineLengths := [1, 1, 1, 1, 1, 1, 1, 1, 1, 1, 1, 1, 1, 1, 1, 1] }, MyNotes.Node.leaf { summary := { lineCount := 15, byteLen := 15 }, lineLengths := [1, 1, 1, 1, 1, 1, 1, 1, 1, 1, 1, 1, 1, 1, 1] }, MyNotes.Node.leaf { summary := { lineCount := 13, byteLen := 14 }, lineLengths := [1, 1, 1, 1, 1, 1, 1, 1, 1, 1, 1, 1, 2] }, MyNotes.Node.leaf { summary := { lineCount := 9, byteLen := 9 }, lineLengths := [2, 1, 1, 1, 1, 1, 1, 1, 0] }], cache := none }, isDirty := true })

/-- State after step 16. -/
def c1t16 : TextBuffer := c1p16.2

/-- Step 17 result of the divergence sequence. -/
def c1p17 : Except TbError Position × TextBuffer :=
  (Except.ok { row := 17, col := 0 }, { pieceTable := { original := [], buf := [10, 10, 10, 10, 10, 10, 10, 10, 10, 10, 10, 10, 10, 10, 10, 10, 10, 120, 10, 10, 10, 10, 10, 10, 10, 10, 10, 10, 10, 10, 10, 10, 10, 10, 10, 10, 10, 10, 10, 10, 10, 10, 10, 10, 10, 10, 10, 10, 10, 10, 10, 10, 10, 10, 10, 10, 10, 10, 10, 10, 10, 10, 10, 10, 10, 10, 10, 10, 10, 10, 10, 10, 10, 10, 10, 10, 10, 10, 10, 10, 10, 10, 10, 10, 10, 10, 10, 10, 10, 10, 10, 10, 10, 10, 10, 10, 10, 10, 10, 10, 10, 10, 10, 10, 10, 10, 10, 10, 10, 10, 10, 10, 10, 10, 10, 10, 10, 10, 10, 10, 10, 10, 10, 10, 10, 10, 10, 10, 10, 10, 10, 10, 10, 10, 10, 10, 10, 10, 10, 10, 10, 10, 10, 10, 10, 10, 10, 10, 10, 10, 10, 10, 10, 10, 10, 10, 10, 10, 10, 10, 10, 10, 10, 10, 10, 10, 10, 10, 10, 10, 10, 10, 10, 10, 10, 10, 10, 10, 10, 10, 10, 10, 10, 10, 10, 10, 10, 10, 10, 10, 10, 10, 10, 10, 10, 10, 10, 10, 10, 10, 10, 10, 10, 10, 10, 10, 10, 10, 10, 10, 10, 10, 10, 10, 10, 10, 10, 10, 10, 10, 10, 10, 10, 10, 10, 10, 10, 10, 10, 10, 10, 10, 10, 10, 10, 10, 10, 10, 10, 10, 10, 10, 10, 10, 10, 10, 10, 10, 10, 10, 10, 10, 10, 10, 10, 10, 10, 10, 10, 10, 10, 10, 10, 10, 10, 10, 10, 10, 10, 10, 10, 10, 10], pieces := [{ bufKind := MyNotes.BufferKind.add, rangeStart := 256, rangeStop := 273 }, { bufKind := MyNotes.BufferKind.add, rangeStart := 239, rangeStop := 256 }, { bufKind := MyNotes.BufferKind.add, rangeStart := 222, rangeStop := 239 }, { bufKind := MyNotes.BufferKind.add, rangeStart := 205, rangeStop := 222 }, { bufKind := MyNotes.BufferKind.add, rangeStart := 188, rangeStop := 205 }, { bufKind := MyNotes.BufferKind.add, rangeStart := 171, rangeStop := 188 }, { bufKind := MyNotes.BufferKind.add, rangeStart := 154, rangeStop := 171 }, { bufKind := MyNotes.BufferKind.add, rangeStart := 137, rangeStop := 154 }, { bufKind := MyNotes.BufferKind.add, rangeStart := 120, rangeStop := 137 }, { bufKind := MyNotes.BufferKind.add, rangeStart := 103, rangeStop := 120 }, { bufKind := MyNotes.BufferKind.add, rangeStart := 86, rangeStop := 103 }, { bufKind := MyNotes.BufferKind.add, rangeStart := 69, rangeStop := 86 }, { bufKind := MyNotes.BufferKind.add, rangeStart := 52, rangeStop := 69 }, { bufKind := MyNotes.BufferKind.add, rangeStart := 35, rangeStop := 52 }, { bufKind := MyNotes.BufferKind.add, rangeStart := 18, rangeStop := 35 }, { bufKind := MyNotes.BufferKind.add, rangeStart := 0, rangeStop := 9 }, { bufKind := MyNotes.BufferKind.add, rangeStart := 17, rangeStop := 18 }, { bufKind := MyNotes.BufferKind.add, rangeStart := 9, rangeStop := 17 }], undoStack := [MyNotes.Edit.insertE 0 0 17, MyNotes.Edit.insertE 9 17 18, MyNotes.Edit.insertE 0 18 35, MyNotes.Edit.insertE 0 35 52, MyNotes.Edit.insertE 0 52 69, MyNotes.Edit.insertE 0 69 86, MyNotes.Edit.insertE 0 86 103, MyNotes.Edit.insertE 0 103 120, MyNotes.Edit.insertE 0 120 137, MyNotes.Edit.insertE 0 137 154, MyNotes.Edit.insertE 0 154 171, MyNotes.Edit.insertE 0 171 188, MyNotes.Edit.insertE 0 188 205, MyNotes.Edit.insertE 0 205 222, MyNotes.Edit.insertE 0 222 239, MyNotes.Edit.insertE 0 239 256, MyNotes.Edit.insertE 0 256 273], redoStack := [] }, lineIndex := { root := MyNotes.Node.internal { lineCount := 273, byteLen := 274 } [MyNotes.Node.internal { lineCount := 135, byteLen := 135 } [MyNotes.Node.leaf { summary := { lineCount := 16, byteLen := 16 }, lineLengths := [1, 1, 1, 1, 1, 1, 1, 1, 1, 1, 1, 1, 1, 1, 1, 1] }, MyNotes.Node.leaf { summary := { lineCount := 17, byteLen := 17 }, lineLengths := [1, 1, 1, 1, 1, 1, 1, 1, 1, 1, 1, 1, 1, 1, 1, 1, 1] }, MyNotes.Node.leaf { summary := { lineCount := 17, byteLen := 17 }, lineLengths := [1, 1, 1, 1, 1, 1, 1, 1, 1, 1, 1, 1, 1, 1, 1, 1, 1] }, MyNotes.Node.leaf { summary := { lineCount := 17, byteLen := 17 }, lineLengths := [1, 1, 1, 1, 1, 1, 1, 1, 1, 1, 1, 1, 1, 1, 1, 1, 1] }, MyNotes.Node.leaf { summary := { lineCount := 17, byteLen := 17 }, lineLengths := [1, 1, 1, 1, 1, 1, 1, 1, 1, 1, 1, 1, 1, 1, 1, 1, 1] }, MyNotes.Node.leaf { summary := { lineCount := 17, byteLen := 17 }, lineLengths := [1, 1, 1, 1, 1, 1, 1, 1, 1, 1, 1, 1, 1, 1, 1, 1, 1] }, MyNotes.Node.leaf { summary := { lineCount := 17, byteLen := 17 }, lineLengths := [1, 1, 1, 1, 1, 1, 1, 1, 1, 1, 1, 1, 1, 1, 1, 1, 1] }, MyNotes.Node.leaf { summary := { lineCount := 17, byteLen := 17 }, lineLengths := [1, 1, 1, 1, 1, 1, 1, 1, 1, 1, 1, 1, 1, 1, 1, 1, 1] }], MyNotes.Node.internal { lineCount := 138, byteLen := 139 } [MyNotes.Node.leaf { summary := { lineCount := 17, byteLen := 17 }, lineLengths := [1, 1, 1, 1, 1, 1, 1, 1, 1, 1, 1, 1, 1, 1, 1, 1, 1] }, MyNotes.Node.leaf { summary := { lineCount := 17, byteLen := 17 }, lineLengths := [1, 1, 1, 1, 1, 1, 1, 1, 1, 1, 1, 1, 1, 1, 1, 1, 1] }, MyNotes.Node.leaf { summary := { lineCount := 17, byteLen := 17 }, lineLengths := [1, 1, 1, 1, 1, 1, 1, 1, 1, 1, 1, 1, 1, 1, 1, 1, 1] }, MyNotes.Node.leaf { summary := { lineCount := 17, byteLen := 17 }, lineLengths := [1, 1, 1, 1, 1, 1, 1, 1, 1, 1, 1, 1, 1, 1, 1, 1, 1] }, MyNotes.Node.leaf { summary := { lineCount := 17, byteLen := 17 }, lineLengths := [1, 1, 1, 1, 1, 1, 1, 1, 1, 1, 1, 1, 1, 1, 1, 1, 1] }, MyNotes.Node.leaf { summary := { lineCount := 16, byteLen := 16 }, lineLengths := [1, 1, 1, 1, 1, 1, 1, 1, 1, 1, 1, 1, 1, 1, 1, 1] }, MyNotes.Node.leaf { summary := { lineCount := 15, byteLen := 15 }, lineLengths := [1, 1, 1, 1, 1, 1, 1, 1, 1, 1, 1, 1, 1, 1, 1] }, MyNotes.Node.leaf { summary := { lineCount := 13, byteLen := 14 }, lineLengths := [1, 1, 1, 1, 1, 1, 1, 1, 1, 1, 1, 1, 2] }, MyNotes.Node.leaf { summary := { lineCount := 9, byteLen := 9 }, lineLengths := [2, 1, 1, 1, 1, 1, 1, 1, 0] }]], cache := none }, isDirty := true })

/-- State after step 17. -/
def c1t17 : TextBuffer := c1p17.2

/-- A fresh empty line index, as produced by BTreeLineIndex::new of no
bytes. -/
def liEmpty : BTreeLineIndex := ⟨Node.leaf LeafNode.defaultLeaf, none⟩

/-- The empty line index after inserting a single newline: line lengths
one and zero, with a zero-length trailing line. -/
def liNL : BTreeLineIndex := (liEmpty.insert 0 [10]).toOption.getD liEmpty

/-- The line index built from the two bytes ab. -/
def liAB : BTreeLineIndex := (BTreeLineIndex.new [97, 98]).toOption.getD liEmpty

/-- An empty history. -/
def historyEmpty : History := ⟨[], []⟩

/-- The history after recording the byte H at row 0 column 0. -/
def historyH : History :=
  (historyEmpty.recordInsert ⟨0, 0⟩ [72] (Cursor.mk' 0 0) (Cursor.mk' 0 1)).toOption.getD
    historyEmpty


/-! Theorems. Helper lemmas come first, then one theorem (plus witness or
counterexample) per claim. -/

set_option maxRecDepth 100000

/-- Unfolding one step of runInserts when the insert succeeds. -/
theorem runInserts_cons (tb tb2 : TextBuffer) (c : Cursor) (txt : List Nat)
    (rest : List (Cursor × List Nat)) (p : Position)
    (h : tb.insert c txt = (Except.ok p, tb2)) :
    runInserts tb ((c, txt) :: rest) = runInserts tb2 rest := by
  simp only [runInserts]
  rw [h]

/-- Step 1 of the divergence sequence succeeds and lands in the recorded
state. -/
theorem c1Step1 :
    c1t0.insert (Cursor.mk' 0 0) nlText = (Except.ok (⟨17, 0⟩ : Position), c1t1) := by
  with_unfolding_all rfl

/-- Step 2 of the divergence sequence succeeds and lands in the recorded
state. -/
theorem c1Step2 :
    c1t1.insert (Cursor.mk' 9 0) [120] = (Except.ok (⟨9, 1⟩ : Position), c1t2) := by
  with_unfolding_all rfl

/-- Step 3 of the divergence sequence succeeds and lands in the recorded
state. -/
theorem c1Step3 :
    c1t2.insert (Cursor.mk' 0 0) nlText = (Except.ok (⟨17, 0⟩ : Position), c1t3) := by
  with_unfolding_all rfl

/-- Step 4 of the divergence sequence succeeds and lands in the recorded
state. -/
theorem c1Step4 :
    c1t3.insert (Cursor.mk' 0 0) nlText = (Except.ok (⟨17, 0⟩ : Position), c1t4) := by
  with_unfolding_all rfl

/-- Step 5 of the divergence sequence succeeds and lands in the recorded
state. -/
theorem c1Step5 :
    c1t4.insert (Cursor.mk' 0 0) nlText = (Except.ok (⟨17, 0⟩ : Position), c1t5) := by
  with_unfolding_all rfl

/-- Step 6 of the divergence sequence succeeds and lands in the recorded
state. -/
theorem c1Step6 :
    c1t5.insert (Cursor.mk' 0 0) nlText = (Except.ok (⟨17, 0⟩ : Position), c1t6) := by
  with_unfolding_all rfl

/-- Step 7 of the divergence sequence succeeds and lands in the recorded
state. -/
theorem c1Step7 :
    c1t6.insert (Cursor.mk' 0 0) nlText = (Except.ok (⟨17, 0⟩ : Position), c1t7) := by
  with_unfolding_all rfl

/-- Step 8 of the divergence sequence succeeds and lands in the recorded
state. -/
theorem c1Step8 :
    c1t7.insert (Cursor.mk' 0 0) nlText = (Except.ok (⟨17, 0⟩ : Position), c1t8) := by
  with_unfolding_all rfl

/-- Step 9 of the divergence sequence succeeds and lands in the recorded
state. -/
theorem c1Step9 :
    c1t8.insert (Cursor.mk' 0 0) nlText = (Except.ok (⟨17, 0⟩ : Position), c1t9) := by
  with_unfolding_all rfl

/-- Step 10 of the divergence sequence succeeds and lands in the recorded
state. -/
theorem c1Step10 :
    c1t9.insert (Cursor.mk' 0 0) nlText = (Except.ok (⟨17, 0⟩ : Position), c1t10) := by
  with_unfolding_all rfl

/-- Step 11 of the divergence sequence succeeds and lands in the recorded
state. -/
theorem c1Step11 :
    c1t10.insert (Cursor.mk' 0 0) nlText = (Except.ok (⟨17, 0⟩ : Position), c1t11) := by
  with_unfolding_all rfl

/-- Step 12 of the divergence sequence succeeds and lands in the recorded
state. -/
theorem c1Step12 :
    c1t11.insert (Cursor.mk' 0 0) nlText = (Except.ok (⟨17, 0⟩ : Position), c1t12) := by
  with_unfolding_all rfl

/-- Step 13 of the divergence sequence succeeds and lands in the recorded
state. -/
theorem c1Step13 :
    c1t12.insert (Cursor.mk' 0 0) nlText = (Except.ok (⟨17, 0⟩ : Position), c1t13) := by
  with_unfolding_all rfl

/-- Step 14 of the divergence sequence succeeds and lands in the recorded
state. -/
theorem c1Step14 :
    c1t13.insert (Cursor.mk' 0 0) nlText = (Except.ok (⟨17, 0⟩ : Position), c1t14) := by
  with_unfolding_all rfl

/-- Step 15 of the divergence sequence succeeds and lands in the recorded
state. -/
theorem c1Step15 :
    c1t14.insert (Cursor.mk' 0 0) nlText = (Except.ok (⟨17, 0⟩ : Position), c1t15) := by
  with_unfolding_all rfl

/-- Step 16 of the divergence sequence succeeds and lands in the recorded
state. -/
theorem c1Step16 :
    c1t15.insert (Cursor.mk' 0 0) nlText = (Except.ok (⟨17, 0⟩ : Position), c1t16) := by
  with_unfolding_all rfl

/-- Step 17 of the divergence sequence succeeds and lands in the recorded
state. -/
theorem c1Step17 :
    c1t16.insert (Cursor.mk' 0 0) nlText = (Except.ok (⟨17, 0⟩ : Position), c1t17) := by
  with_unfolding_all rfl

/-- C1: the claimed invariant PieceTable.len() == LineIndex.byte_len() is
broken by a reachable TextBuffer state: seventeen successful insert calls
starting from a fresh buffer (all through TextBuffer::insert with
in-bounds cursors) leave the piece table holding 273 bytes while the line
index root summary reports 274. The slip is in InternalNode::add_child:
an insert offset equal to a child boundary is handed to the next child as
well (and the running offset underflows), so the byte count is added to
two leaves; the mismatch surfaces at the root summary when the root
splits and recomputes it from the children. -/
theorem C1_length_agreement_fails :
    runInserts c1t0 c1Ops = (true, c1t17) ∧
      c1t17.pieceTable.len = 273 ∧
      c1t17.lineIndex.byteLen = 274 ∧
      c1t17.pieceTable.len ≠ c1t17.lineIndex.byteLen := by
  refine ⟨?_, by with_unfolding_all rfl, by with_unfolding_all rfl, ?_⟩
  · have hops :
        c1Ops =
          (Cursor.mk' 0 0, nlText) :: (Cursor.mk' 9 0, [120]) ::
            (Cursor.mk' 0 0, nlText) :: (Cursor.mk' 0 0, nlText) ::
            (Cursor.mk' 0 0, nlText) :: (Cursor.mk' 0 0, nlText) ::
            (Cursor.mk' 0 0, nlText) :: (Cursor.mk' 0 0, nlText) ::
            (Cursor.mk' 0 0, nlText) :: (Cursor.mk' 0 0, nlText) ::
            (Cursor.mk' 0 0, nlText) :: (Cursor.mk' 0 0, nlText) ::
            (Cursor.mk' 0 0, nlText) :: (Cursor.mk' 0 0, nlText) ::
            (Cursor.mk' 0 0, nlText) :: (Cursor.mk' 0 0, nlText) ::
            (Cursor.mk' 0 0, nlText) :: [] := rfl
    rw [hops,
      runInserts_cons _ _ _ _ _ _ c1Step1,
      runInserts_cons _ _ _ _ _ _ c1Step2,
      runInserts_cons _ _ _ _ _ _ c1Step3,
      runInserts_cons _ _ _ _ _ _ c1Step4,
      runInserts_cons _ _ _ _ _ _ c1Step5,
      runInserts_cons _ _ _ _ _ _ c1Step6,
      runInserts_cons _ _ _ _ _ _ c1Step7,
      runInserts_cons _ _ _ _ _ _ c1Step8,
      runInserts_cons _ _ _ _ _ _ c1Step9,
      runInserts_cons _ _ _ _ _ _ c1Step10,
      runInserts_cons _ _ _ _ _ _ c1Step11,
      runInserts_cons _ _ _ _ _ _ c1Step12,
      runInserts_cons _ _ _ _ _ _ c1Step13,
      runInserts_cons _ _ _ _ _ _ c1Step14,
      runInserts_cons _ _ _ _ _ _ c1Step15,
      runInserts_cons _ _ _ _ _ _ c1Step16,
      runInserts_cons _ _ _ _ _ _ c1Step17]
    rfl
  · have h1 : c1t17.pieceTable.len = 273 := by with_unfolding_all rfl
    have h2 : c1t17.lineIndex.byteLen = 274 := by with_unfolding_all rfl
    omega

/-- C2: undo does not restore the original byte sequence. Deleting two
bytes at the end of the single original piece of abcdef takes the
shrink-from-the-right branch of delete_no_history, whose journal entry
records the sub-range end - (end - remove_len) .. end instead of
end - remove_len .. end; the subsequent undo re-inserts four bytes in
place of two and yields abcdcdef (length 8) instead of abcdef. -/
theorem C2_undo_fails_after_shrink_right_delete :
    (abcdefTable.delete 4 2).1 = Except.ok () ∧
      ((abcdefTable.delete 4 2).2.undo).1 = Except.ok () ∧
      abcdefTable.getBytesAt 0 abcdefTable.len = abcdefBytes ∧
      ((abcdefTable.delete 4 2).2.undo).2.len = 8 ∧
      ((abcdefTable.delete 4 2).2.undo).2.getBytesAt 0 8 =
        [97, 98, 99, 100, 99, 100, 101, 102] ∧
      ((abcdefTable.delete 4 2).2.undo).2.getBytesAt 0
          ((abcdefTable.delete 4 2).2.undo).2.len ≠
        abcdefTable.getBytesAt 0 abcdefTable.len := by
  refine ⟨by decide, by decide, by decide, by decide, by decide, by decide⟩

/-- C3 counterexample: after insert(3, X) and undo, the piece layout is
not the single Original piece over 0..6 the claim requires. -/
theorem C3_layout_counterexample :
    (abcdefTable.insert 3 [88]).1 = Except.ok () ∧
      ((abcdefTable.insert 3 [88]).2.undo).1 = Except.ok () ∧
      ((abcdefTable.insert 3 [88]).2.undo).2.pieces ≠
        [⟨BufferKind.original, 0, 6⟩] := by
  refine ⟨by decide, by decide, by decide⟩

/-- C3 amended: undo restores the byte content abcdef but leaves the two
split halves of the original piece uncoalesced (Original 0..3 and
Original 3..6); redo then yields abcXdef again. -/
theorem C3_undo_redo_amended :
    ((abcdefTable.insert 3 [88]).2.undo).2.getBytesAt 0 6 = abcdefBytes ∧
      ((abcdefTable.insert 3 [88]).2.undo).2.len = 6 ∧
      ((abcdefTable.insert 3 [88]).2.undo).2.pieces =
        [⟨BufferKind.original, 0, 3⟩, ⟨BufferKind.original, 3, 6⟩] ∧
      (((abcdefTable.insert 3 [88]).2.undo).2.redo).1 = Except.ok () ∧
      (((abcdefTable.insert 3 [88]).2.undo).2.redo).2.getBytesAt 0 7 =
        [97, 98, 99, 88, 100, 101, 102] := by
  refine ⟨by decide, by decide, by decide, by decide, by decide⟩

/-- C10: inserting an empty byte string or deleting a zero-length range
returns Ok without touching any state, even out of bounds: the pieces,
buffers and both journals are identical, and in particular the redo stack
is not cleared. -/
theorem C10_empty_edits_leave_state_unchanged (pt : PieceTable) (pos : Nat) :
    pt.insert pos [] = (Except.ok (), pt) ∧ pt.delete pos 0 = (Except.ok (), pt) :=
  ⟨rfl, rfl⟩

/-- C7 counterexample: an empty insert past the end succeeds instead of
failing with OutOfBounds (the position 10 is beyond the length 6). -/
theorem C7_empty_insert_counterexample :
    abcdefTable.len < 10 ∧ (abcdefTable.insert 10 []).1 = Except.ok () := by
  refine ⟨by decide, by decide⟩

/-- C7 amended: for every NONEMPTY byte string and every position beyond
the document length, insert fails with OutOfBounds(pos) and leaves the
table untouched; with empty bytes the call returns Ok without mutating. -/
theorem C7_insert_out_of_bounds_amended (pt : PieceTable) (pos : Nat) (bytes : List Nat)
    (hb : bytes ≠ []) (hp : pos > pt.len) :
    pt.insert pos bytes = (Except.error (MathError.outOfBounds pos), pt) := by
  unfold PieceTable.insert
  rw [if_neg (by simpa [List.isEmpty_iff] using hb), if_pos hp]

/-- C7 witness: the amended theorem applied to the abcdef table at
position 10 with one byte. -/
theorem C7_insert_out_of_bounds_witness :
    abcdefTable.insert 10 [88] =
      (Except.error (MathError.outOfBounds 10), abcdefTable) :=
  C7_insert_out_of_bounds_amended abcdefTable 10 [88] (by decide) (by decide)


/-- When the position lies past the total piece length, the locate scan
falls through to the sentinel pair. -/
theorem locateAux_beyond (pieces : List Piece) (pos : Nat)
    (h : pos > (pieces.map Piece.len).sum) :
    PieceTable.locateAux pieces pos = (pieces.length, 0) := by
  induction pieces generalizing pos with
  | nil => simp [PieceTable.locateAux]
  | cons p rest ih =>
    rw [PieceTable.locateAux]
    simp only [List.map_cons, List.sum_cons] at h
    rw [if_neg (by omega)]
    have hr := ih (pos - p.len) (by omega)
    simp [hr]

/-- When the position is the sum of the first i piece lengths plus an
offset o with 0 < o and o at most the length of piece i, the locate scan
answers (i, o): a position strictly inside piece i, or the boundary
reported as the end of piece i. -/
theorem locateAux_at (pieces : List Piece) (i o : Nat) (hi : i < pieces.length)
    (ho : 0 < o) (hle : o ≤ pieces[i].len) :
    PieceTable.locateAux pieces (((pieces.map Piece.len).take i).sum + o) = (i, o) := by
  induction pieces generalizing i with
  | nil => simp at hi
  | cons p rest ih =>
    cases i with
    | zero =>
      simp only [List.map_cons, List.take_zero, List.sum_nil, Nat.zero_add]
      rw [PieceTable.locateAux]
      simp only [List.getElem_cons_zero] at hle
      rw [if_pos hle]
    | succ j =>
      rw [PieceTable.locateAux]
      simp only [List.map_cons, List.take_succ_cons, List.sum_cons]
      rw [if_neg (by omega)]
      have hj : j < rest.length := by
        simpa using hi
      have hle2 : o ≤ rest[j].len := by
        simpa using hle
      have hrec := ih j hj hle2
      have harg :
          p.len + ((List.map Piece.len rest).take j).sum + o - p.len =
            ((List.map Piece.len rest).take j).sum + o := by omega
      simp only [harg, hrec]

/-- C6, amended: locate only answers the sentinel (pieces.len(), 0) when
the position exceeds the total length (or the table has no pieces); at a
position equal to the document length it answers the LAST piece with an
offset equal to that piece length; an interior boundary is reported as
the left piece at its full length; and a position strictly inside a piece
is reported inside that piece. All pieces are assumed nonempty, the
source invariant after a completed mutation. -/
theorem C6_locate_amended (pt : PieceTable)
    (hpos : ∀ p ∈ pt.pieces, 0 < p.len) :
    (∀ pos, pos > pt.len → pt.locate pos = (pt.pieces.length, 0)) ∧
      (∀ hne : pt.pieces ≠ [],
        pt.locate pt.len = (pt.pieces.length - 1, (pt.pieces.getLast hne).len)) ∧
      (∀ k, (hk : k < pt.pieces.length) → 0 < k →
        pt.locate (((pt.pieces.map Piece.len).take k).sum) =
          (k - 1, (pt.pieces.get ⟨k - 1, by omega⟩).len)) ∧
      (∀ i o, (hi : i < pt.pieces.length) → 0 < o →
        o < pt.pieces[i].len →
        pt.locate (((pt.pieces.map Piece.len).take i).sum + o) = (i, o)) := by
  have boundary :
      ∀ k, (hkk : k - 1 < pt.pieces.length) → 0 < k → k ≤ pt.pieces.length →
        pt.locate (((pt.pieces.map Piece.len).take k).sum) =
          (k - 1, pt.pieces[k - 1].len) := by
    intro k hkk h0 hk
    have hmem : pt.pieces[k - 1] ∈ pt.pieces := List.getElem_mem _
    have hposk := hpos _ hmem
    have hidx : k - 1 < (pt.pieces.map Piece.len).length := by simpa using hkk
    have hsum := List.sum_take_succ (pt.pieces.map Piece.len) (k - 1) hidx
    have hsucc : k - 1 + 1 = k := by omega
    rw [hsucc] at hsum
    simp only [List.getElem_map] at hsum
    have hloc := locateAux_at pt.pieces (k - 1) (pt.pieces[k - 1].len)
      hkk hposk (le_refl _)
    unfold PieceTable.locate
    rw [hsum]
    exact hloc
  refine ⟨?_, ?_, ?_, ?_⟩
  · intro pos hp
    exact locateAux_beyond pt.pieces pos hp
  · intro hne
    have hlen : 0 < pt.pieces.length := List.length_pos.mpr hne
    have hlast : pt.pieces.getLast hne = pt.pieces[pt.pieces.length - 1] :=
      List.getLast_eq_getElem pt.pieces hne
    have htake : (pt.pieces.map Piece.len).take pt.pieces.length =
        pt.pieces.map Piece.len := by
      apply List.take_of_length_le
      simp
    have hb := boundary pt.pieces.length (by omega) hlen (le_refl _)
    rw [htake] at hb
    rw [hlast]
    exact hb
  · intro k hk h0
    have hb := boundary k (by omega) h0 (le_of_lt hk)
    simpa [List.get_eq_getElem] using hb
  · intro i o hi ho hlt
    exact locateAux_at pt.pieces i o hi ho (le_of_lt hlt)

/-- C6 counterexample: on the abcdef table (one piece of length six) the
claim requires locate(6) = (1, 0), the one-past-the-end sentinel, but
locate answers (0, 6), the last piece at its full length. -/
theorem C6_locate_end_counterexample :
    abcdefTable.len = 6 ∧ abcdefTable.pieces.length = 1 ∧
      abcdefTable.locate 6 = (0, 6) ∧
      abcdefTable.locate 6 ≠ (abcdefTable.pieces.length, 0) := by
  refine ⟨by decide, by decide, by decide, by decide⟩

/-- C6 witness: the amended theorem applied to the abcdef table: position
six (the document length) locates to the last piece at offset six,
position three locates strictly inside piece zero, and position seven is
past the end. -/
theorem C6_locate_amended_witness :
    abcdefTable.locate 6 = (0, 6) ∧ abcdefTable.locate 3 = (0, 3) ∧
      abcdefTable.locate 7 = (1, 0) := by
  have h := C6_locate_amended abcdefTable (by decide)
  refine ⟨?_, ?_, ?_⟩
  · have h2 := h.2.1 (by decide)
    simpa using h2
  · have h4 := h.2.2.2 0 3 (by decide) (by decide) (by decide)
    simpa using h4
  · have h1 := h.1 7 (by decide)
    simpa using h1


/-- C9: record_insert batches an insert that lands exactly at the end of
the top transaction last Insert action, on the same row and with no
newline on either side: the text is appended to that Insert and only
cursor_after changes; the redo stack is cleared and no new transaction is
pushed. -/
theorem C9_record_insert_batches (h : History) (pre : List Transaction)
    (tx : Transaction) (acts : List EditAction) (p : Position) (t : List Nat)
    (pos : Position) (text : List Nat) (cb ca : Cursor)
    (h1 : h.undoStack = pre ++ [tx])
    (h2 : tx.actions = acts ++ [EditAction.insertA p t])
    (h3 : p.row = pos.row)
    (h4 : text.contains 10 = false)
    (h5 : t.contains 10 = false)
    (h6 : p.col + t.length = pos.col)
    (h7 : p.col + t.length < 2 ^ 64) :
    h.recordInsert pos text cb ca =
      Except.ok
        { undoStack :=
            pre ++
              [{ tx with
                  actions := acts ++ [EditAction.insertA p (t ++ text)]
                  cursorAfter := ca }]
          redoStack := [] } := by
  unfold History.recordInsert
  simp only [h1, h2, List.getLast?_concat, List.dropLast_concat]
  rw [if_pos ⟨h3, h4, h5⟩, if_neg (by omega), if_pos h6]

/-- C9 witness: from an empty history, recording H at row 0 column 0 and
then i at row 0 column 1 yields exactly one transaction whose Insert
action is the two bytes Hi at position (0,0), with cursor_before at
(0,0) and cursor_after at (0,2). -/
theorem C9_record_insert_batches_witness :
    historyEmpty.recordInsert ⟨0, 0⟩ [72] (Cursor.mk' 0 0) (Cursor.mk' 0 1) =
        Except.ok historyH ∧
      historyH.recordInsert ⟨0, 1⟩ [105] (Cursor.mk' 0 1) (Cursor.mk' 0 2) =
        Except.ok
          { undoStack :=
              [{ actions := [EditAction.insertA ⟨0, 0⟩ [72, 105]]
                 cursorBefore := Cursor.mk' 0 0
                 cursorAfter := Cursor.mk' 0 2 }]
            redoStack := [] } ∧
      historyH.undoStack.length = 1 := by
  refine ⟨by decide, ?_, by decide⟩
  have hb :=
    C9_record_insert_batches historyH []
      { actions := [EditAction.insertA ⟨0, 0⟩ [72]]
        cursorBefore := Cursor.mk' 0 0
        cursorAfter := Cursor.mk' 0 1 }
      [] ⟨0, 0⟩ [72] ⟨0, 1⟩ [105] (Cursor.mk' 0 1) (Cursor.mk' 0 2)
      (by decide) (by decide) (by decide) (by decide) (by decide) (by decide)
      (by decide)
  simpa using hb


/-! Pure facts about the line scan lineOfLens and prefix sums, feeding the
round-trip and removal theorems. -/

/-- The scan answers none exactly on offsets at or past the total. -/
theorem lineOfLens_none (lens : List Nat) (a : Nat) (h : lens.sum ≤ a) :
    lineOfLens lens a = none := by
  induction lens generalizing a with
  | nil => simp [lineOfLens]
  | cons l ls ih =>
    rw [lineOfLens]
    simp only [List.sum_cons] at h
    rw [if_neg (by omega)]
    rw [ih (a - l) (by omega)]
    rfl

/-- The scan answers some on offsets below the total. -/
theorem lineOfLens_isSome (lens : List Nat) (a : Nat) (h : a < lens.sum) :
    ∃ j, lineOfLens lens a = some j := by
  induction lens generalizing a with
  | nil => simp at h
  | cons l ls ih =>
    rw [lineOfLens]
    by_cases hl : a < l
    · exact ⟨0, by rw [if_pos hl]⟩
    · rw [if_neg hl]
      simp only [List.sum_cons] at h
      obtain ⟨j, hj⟩ := ih (a - l) (by omega)
      exact ⟨j + 1, by rw [hj]; rfl⟩

/-- The scan answer brackets the offset: the found line starts at or before
the offset and ends strictly after it, and is in bounds. -/
theorem lineOfLens_bracket (lens : List Nat) (a j : Nat)
    (h : lineOfLens lens a = some j) :
    (lens.take j).sum ≤ a ∧ a < (lens.take (j + 1)).sum ∧ j < lens.length := by
  induction lens generalizing a j with
  | nil => simp [lineOfLens] at h
  | cons l ls ih =>
    rw [lineOfLens] at h
    by_cases hl : a < l
    · rw [if_pos hl] at h
      cases h
      refine ⟨?_, ?_, ?_⟩
      · simp only [List.take_zero, List.sum_nil]
        omega
      · simp only [List.take_succ_cons, List.take_zero, List.sum_cons, List.sum_nil]
        omega
      · simp only [List.length_cons]
        omega
    · rw [if_neg hl] at h
      cases hj : lineOfLens ls (a - l) with
      | none => rw [hj] at h; simp at h
      | some j0 =>
        rw [hj] at h
        have hjj : j0 + 1 = j := by simpa using h
        subst hjj
        obtain ⟨h1, h2, h3⟩ := ih (a - l) j0 hj
        refine ⟨?_, ?_, by simpa using h3⟩
        · simp only [List.take_succ_cons, List.sum_cons]
          omega
        · simp only [List.take_succ_cons, List.sum_cons]
          omega

/-- The scan recovers the index of any line of positive length from its
starting offset, even with zero-length lines elsewhere. -/
theorem lineOfLens_of_start (lens : List Nat) (j : Nat) (hj : j < lens.length)
    (hpos : 0 < lens[j]) :
    lineOfLens lens ((lens.take j).sum) = some j := by
  induction lens generalizing j with
  | nil => simp at hj
  | cons l ls ih =>
    cases j with
    | zero =>
      simp only [List.getElem_cons_zero] at hpos
      simp [lineOfLens, hpos]
    | succ j0 =>
      rw [lineOfLens]
      simp only [List.take_succ_cons, List.sum_cons]
      rw [if_neg (by omega)]
      have hj0 : j0 < ls.length := by simpa using hj
      have hp0 : 0 < ls[j0] := by simpa using hpos
      have hrec := ih j0 hj0 hp0
      have harg : l + (ls.take j0).sum - l = (ls.take j0).sum := by omega
      rw [harg, hrec]
      rfl

/-- Prefix sums are bounded by the total. -/
theorem sum_take_le (lens : List Nat) (k : Nat) : (lens.take k).sum ≤ lens.sum := by
  conv_rhs => rw [← List.take_append_drop k lens]
  rw [List.sum_append]
  omega

/-! Well-formedness facts about the node queries: on summary-consistent
trees every query agrees with the flat line length list toLens. -/

/-- Unfolding of wfB on a leaf. -/
theorem wfB_leaf_iff (l : LeafNode) :
    (Node.leaf l).wfB = true ↔
      l.summary.lineCount = l.lineLengths.length ∧
        l.summary.byteLen = l.lineLengths.sum := by
  simp [Node.wfB, Bool.and_eq_true, beq_iff_eq]

/-- Unfolding of wfB on an internal node. -/
theorem wfB_internal_iff (s : LineSummary) (cs : List Node) :
    (Node.internal s cs).wfB = true ↔
      s.lineCount = (cs.map (fun c => c.summary.lineCount)).sum ∧
        s.byteLen = (cs.map (fun c => c.summary.byteLen)).sum ∧
        Node.wfListB cs = true := by
  simp [Node.wfB, Bool.and_eq_true, beq_iff_eq, and_assoc]

/-- Unfolding of wfListB on a cons cell. -/
theorem wfListB_cons_iff (c : Node) (rest : List Node) :
    Node.wfListB (c :: rest) = true ↔ c.wfB = true ∧ Node.wfListB rest = true := by
  simp [Node.wfListB, Bool.and_eq_true]

mutual

/-- A consistent summary counts exactly the flattened lines and bytes. -/
theorem wfB_summary (n : Node) (h : n.wfB = true) :
    n.summary.lineCount = n.toLens.length ∧ n.summary.byteLen = n.toLens.sum := by
  match n with
  | Node.leaf l =>
    rw [wfB_leaf_iff] at h
    simpa [Node.toLens, Node.summary] using h
  | Node.internal s cs =>
    rw [wfB_internal_iff] at h
    have hlist := wfListB_summary cs h.2.2
    simp only [Node.toLens, Node.summary]
    omega

/-- Summed child summaries count the flattened lines and bytes. -/
theorem wfListB_summary (cs : List Node) (h : Node.wfListB cs = true) :
    (cs.map (fun c => c.summary.lineCount)).sum = (Node.toLensList cs).length ∧
      (cs.map (fun c => c.summary.byteLen)).sum = (Node.toLensList cs).sum := by
  match cs with
  | [] => simp [Node.toLensList]
  | c :: rest =>
    rw [wfListB_cons_iff] at h
    have h1 := wfB_summary c h.1
    have h2 := wfListB_summary rest h.2
    simp only [Node.toLensList, List.map_cons, List.sum_cons, List.length_append,
      List.sum_append]
    omega

end

mutual

/-- On consistent trees the downward line-to-offset walk computes the
prefix sum of the flattened line lengths. -/
theorem lineIdxToAbsIdx_eq (n : Node) (idx : Nat) (hwf : n.wfB = true)
    (hidx : idx < n.toLens.length) :
    n.lineIdxToAbsIdx idx = some ((n.toLens.take idx).sum) := by
  match n with
  | Node.leaf l =>
    rw [wfB_leaf_iff] at hwf
    simp only [Node.toLens] at hidx ⊢
    simp only [Node.lineIdxToAbsIdx, LeafNode.lineIdxToAbsIdx]
    rw [if_neg (by omega)]
    rw [Nat.min_eq_left (by omega)]
  | Node.internal s cs =>
    have hcount := (wfB_summary (Node.internal s cs) hwf).1
    simp only [Node.toLens] at hidx
    simp only [Node.toLens, Node.summary] at hcount
    simp only [Node.lineIdxToAbsIdx]
    rw [if_neg (by omega)]
    rw [wfB_internal_iff] at hwf
    have hloop := lineIdxChildren_eq cs idx 0 hwf.2.2 hidx
    rw [hloop]
    simp [Node.toLens]

/-- The child loop of the line-to-offset walk, with an arbitrary
accumulated offset. -/
theorem lineIdxChildren_eq (cs : List Node) (idx acc : Nat)
    (hwf : Node.wfListB cs = true) (hidx : idx < (Node.toLensList cs).length) :
    Node.lineIdxChildren cs idx acc = acc + ((Node.toLensList cs).take idx).sum := by
  match cs with
  | [] => simp [Node.toLensList] at hidx
  | c :: rest =>
    rw [wfListB_cons_iff] at hwf
    have hc := wfB_summary c hwf.1
    simp only [Node.lineIdxChildren]
    by_cases hin : idx < c.summary.lineCount
    · rw [if_pos hin]
      have hrec := lineIdxToAbsIdx_eq c idx hwf.1 (by omega)
      rw [hrec]
      have htake : (Node.toLensList (c :: rest)).take idx =
          (Node.toLens c).take idx := by
        simp only [Node.toLensList]
        rw [List.take_append_of_le_length (by omega)]
      rw [htake]
    · rw [if_neg hin]
      have hlen : (Node.toLens c).length ≤ idx := by omega
      have hrest : idx - c.summary.lineCount < (Node.toLensList rest).length := by
        simp only [Node.toLensList, List.length_append] at hidx
        omega
      have hrec := lineIdxChildren_eq rest (idx - c.summary.lineCount)
        (acc + c.summary.byteLen) hwf.2 hrest
      rw [hrec]
      have htake : (Node.toLensList (c :: rest)).take idx =
          Node.toLens c ++ (Node.toLensList rest).take (idx - c.summary.lineCount) := by
        simp only [Node.toLensList]
        rw [List.take_append_eq_append_take, List.take_of_length_le hlen]
        congr 2
        omega
      rw [htake, List.sum_append]
      omega

end


/-- Scanning a concatenation for an offset inside the first part. -/
theorem lineOfLens_append_left (l1 l2 : List Nat) (a : Nat) (h : a < l1.sum) :
    lineOfLens (l1 ++ l2) a = lineOfLens l1 a := by
  induction l1 generalizing a with
  | nil => simp at h
  | cons l ls ih =>
    simp only [List.cons_append]
    rw [lineOfLens, lineOfLens]
    by_cases hl : a < l
    · rw [if_pos hl, if_pos hl]
    · rw [if_neg hl, if_neg hl]
      simp only [List.sum_cons] at h
      rw [ih (a - l) (by omega)]

/-- Scanning a concatenation for an offset past the first part. -/
theorem lineOfLens_append_right (l1 l2 : List Nat) (a : Nat) (h : l1.sum ≤ a) :
    lineOfLens (l1 ++ l2) a =
      (lineOfLens l2 (a - l1.sum)).map (· + l1.length) := by
  induction l1 generalizing a with
  | nil => simp
  | cons l ls ih =>
    simp only [List.cons_append, List.sum_cons] at h ⊢
    rw [lineOfLens]
    rw [if_neg (by omega)]
    rw [ih (a - l) (by omega)]
    have harg : a - l - ls.sum = a - (l + ls.sum) := by omega
    rw [harg]
    cases lineOfLens l2 (a - (l + ls.sum)) with
    | none => rfl
    | some v =>
      simp only [Option.map_some', List.length_cons]
      congr 1

mutual

/-- On consistent trees the offset-to-line walk computes the flat scan. -/
theorem absIdxToLineIdx_eq (n : Node) (a : Nat) (hwf : n.wfB = true) :
    n.absIdxToLineIdx a = lineOfLens n.toLens a := by
  match n with
  | Node.leaf l =>
    simp [Node.absIdxToLineIdx, LeafNode.absIdxToLineIdx, Node.toLens]
  | Node.internal s cs =>
    have hsum := (wfB_summary (Node.internal s cs) hwf).2
    simp only [Node.summary, Node.toLens] at hsum
    simp only [Node.absIdxToLineIdx, Node.toLens]
    rw [wfB_internal_iff] at hwf
    by_cases hge : a ≥ s.byteLen
    · rw [if_pos hge]
      rw [lineOfLens_none (Node.toLensList cs) a (by omega)]
    · rw [if_neg hge]
      obtain ⟨j, hj, hloop⟩ := absIdxChildren_eq cs a 0 hwf.2.2 (by omega)
      rw [hloop, hj]
      simp

/-- The child loop of the offset-to-line walk, with an arbitrary
accumulated line index. -/
theorem absIdxChildren_eq (cs : List Node) (a acc : Nat)
    (hwf : Node.wfListB cs = true) (ha : a < (Node.toLensList cs).sum) :
    ∃ j, lineOfLens (Node.toLensList cs) a = some j ∧
      Node.absIdxChildren cs a acc = acc + j := by
  match cs with
  | [] => simp [Node.toLensList] at ha
  | c :: rest =>
    rw [wfListB_cons_iff] at hwf
    have hc := wfB_summary c hwf.1
    simp only [Node.toLensList] at ha ⊢
    simp only [Node.absIdxChildren]
    by_cases hin : a < c.summary.byteLen
    · rw [if_pos hin]
      have hrec := absIdxToLineIdx_eq c a hwf.1
      obtain ⟨j, hj⟩ := lineOfLens_isSome c.toLens a (by omega)
      rw [lineOfLens_append_left c.toLens (Node.toLensList rest) a (by omega), hj]
      refine ⟨j, rfl, ?_⟩
      rw [hrec, hj]
    · rw [if_neg hin]
      have hsum : c.toLens.sum ≤ a := by omega
      have ha2 : a - c.summary.byteLen < (Node.toLensList rest).sum := by
        rw [List.sum_append] at ha
        omega
      obtain ⟨j, hj, hloop⟩ :=
        absIdxChildren_eq rest (a - c.summary.byteLen) (acc + c.summary.lineCount)
          hwf.2 ha2
      rw [lineOfLens_append_right c.toLens (Node.toLensList rest) a hsum]
      have harg : a - c.toLens.sum = a - c.summary.byteLen := by omega
      rw [harg, hj]
      refine ⟨j + c.toLens.length, by simp, ?_⟩
      rw [hloop]
      omega

end

mutual

/-- On consistent trees the per-line length lookup reads the flat list. -/
theorem getLineLengthAt_eq (n : Node) (idx : Nat) (hwf : n.wfB = true) :
    n.getLineLengthAt idx = n.toLens[idx]? := by
  match n with
  | Node.leaf l =>
    simp [Node.getLineLengthAt, LeafNode.getLineLengthAt, Node.toLens]
  | Node.internal s cs =>
    have hcount := (wfB_summary (Node.internal s cs) hwf).1
    simp only [Node.summary, Node.toLens] at hcount
    simp only [Node.getLineLengthAt, Node.toLens]
    rw [wfB_internal_iff] at hwf
    by_cases hge : idx ≥ s.lineCount
    · rw [if_pos hge]
      rw [eq_comm, List.getElem?_eq_none_iff]
      omega
    · rw [if_neg hge]
      exact getLineLengthChildren_eq cs idx hwf.2.2

/-- The child loop of the per-line length lookup (on indexes handled by
some child; past the end both sides are none). -/
theorem getLineLengthChildren_eq (cs : List Node) (idx : Nat)
    (hwf : Node.wfListB cs = true) :
    Node.getLineLengthChildren cs idx = (Node.toLensList cs)[idx]? := by
  match cs with
  | [] => simp [Node.getLineLengthChildren, Node.toLensList]
  | c :: rest =>
    rw [wfListB_cons_iff] at hwf
    have hc := wfB_summary c hwf.1
    simp only [Node.getLineLengthChildren, Node.toLensList]
    by_cases hin : idx < c.summary.lineCount
    · rw [if_pos hin]
      rw [getLineLengthAt_eq c idx hwf.1]
      rw [List.getElem?_append_left (by omega)]
    · rw [if_neg hin]
      rw [getLineLengthChildren_eq rest (idx - c.summary.lineCount) hwf.2]
      rw [List.getElem?_append_right (by omega)]
      congr 1
      omega

end


/-- With bust_cache set, the line-to-offset query ignores the cache and
asks the root. -/
theorem lineIdxToAbsIdx_bust_fst (li : BTreeLineIndex) (i : Nat) :
    (li.lineIdxToAbsIdx i true).1 = li.root.lineIdxToAbsIdx i := by
  unfold BTreeLineIndex.lineIdxToAbsIdx
  cases li.cache with
  | none =>
    cases li.root.lineIdxToAbsIdx i with
    | none => rfl
    | some r => rfl
  | some c =>
    simp only [Bool.true_eq_false, false_and, if_false]
    cases li.root.lineIdxToAbsIdx i with
    | none => rfl
    | some r => rfl

/-- The busting query never changes the root. -/
theorem lineIdxToAbsIdx_bust_root (li : BTreeLineIndex) (i : Nat) :
    (li.lineIdxToAbsIdx i true).2.root = li.root := by
  unfold BTreeLineIndex.lineIdxToAbsIdx
  cases li.cache with
  | none =>
    cases li.root.lineIdxToAbsIdx i with
    | none => rfl
    | some r => rfl
  | some c =>
    simp only [Bool.true_eq_false, false_and, if_false]
    cases li.root.lineIdxToAbsIdx i with
    | none => rfl
    | some r => rfl

/-- With bust_cache set, the offset-to-line query ignores the cache and
asks the root. -/
theorem absIdxToLineIdx_bust_fst (li : BTreeLineIndex) (a : Nat) :
    (li.absIdxToLineIdx a true).1 = li.root.absIdxToLineIdx a := by
  unfold BTreeLineIndex.absIdxToLineIdx
  cases li.cache with
  | none =>
    cases li.root.absIdxToLineIdx a with
    | none => rfl
    | some r => rfl
  | some c =>
    simp only [Bool.true_eq_false, false_and, if_false]
    cases li.root.absIdxToLineIdx a with
    | none => rfl
    | some r => rfl

/-- C8, amended: on a summary-consistent line index, converting a line of
POSITIVE length to its byte offset and back round-trips (cache busted on
both queries); the round trip fails exactly at zero-length lines, such as
the trailing line an insert of text ending in a newline leaves behind. -/
theorem C8_round_trip_amended (li : BTreeLineIndex) (line x : Nat)
    (hwf : li.root.wfB = true) (hl : line < li.lineCount)
    (hx : li.getLineLengthAt line = some x) (hxpos : 0 < x) :
    ∃ off, (li.lineIdxToAbsIdx line true).1 = some off ∧
      ((li.lineIdxToAbsIdx line true).2.absIdxToLineIdx off true).1 = some line := by
  have hs := wfB_summary li.root hwf
  have hlen : line < li.root.toLens.length := by
    unfold BTreeLineIndex.lineCount at hl
    omega
  have hget := getLineLengthAt_eq li.root line hwf
  unfold BTreeLineIndex.getLineLengthAt at hx
  rw [hget] at hx
  have hxval : li.root.toLens[line] = x := by
    have := List.getElem?_eq_getElem hlen
    rw [this] at hx
    exact Option.some_injective _ hx
  refine ⟨(li.root.toLens.take line).sum, ?_, ?_⟩
  · rw [lineIdxToAbsIdx_bust_fst]
    exact lineIdxToAbsIdx_eq li.root line hwf hlen
  · rw [absIdxToLineIdx_bust_fst, lineIdxToAbsIdx_bust_root]
    rw [absIdxToLineIdx_eq li.root _ hwf]
    apply lineOfLens_of_start
    omega

/-- C8 witness: the amended theorem applied to the index built from the
two bytes ab: line zero (length two) round-trips through offset zero. -/
theorem C8_round_trip_amended_witness :
    (liAB.lineIdxToAbsIdx 0 true).1 = some 0 ∧
      ((liAB.lineIdxToAbsIdx 0 true).2.absIdxToLineIdx 0 true).1 = some 0 := by
  obtain ⟨off, h1, h2⟩ :=
    C8_round_trip_amended liAB 0 2 (by decide) (by decide) (by decide) (by decide)
  have hq : (liAB.lineIdxToAbsIdx 0 true).1 = some 0 := by decide
  have hoff : off = 0 := by
    rw [hq] at h1
    exact Option.some_injective _ h1.symm
  subst hoff
  exact ⟨h1, h2⟩

/-- C8 counterexample: the zero-length trailing line breaks the claimed
round trip on a reachable, summary-consistent state: inserting one
newline into a fresh empty index leaves lines of lengths one and zero;
line one maps to offset one, but offset one maps back to no line at all
(it equals the total byte length). -/
theorem C8_round_trip_counterexample :
    liEmpty.insert 0 [10] = Except.ok liNL ∧
      liNL.root.wfB = true ∧
      liNL.lineCount = 2 ∧
      (liNL.lineIdxToAbsIdx 1 true).1 = some 1 ∧
      ((liNL.lineIdxToAbsIdx 1 true).2.absIdxToLineIdx 1 true).1 = none := by
  refine ⟨by rfl, by decide, by decide, by decide, by decide⟩


/-- The busting offset-to-line query never changes the root. -/
theorem absIdxToLineIdx_bust_root (li : BTreeLineIndex) (a : Nat) :
    (li.absIdxToLineIdx a true).2.root = li.root := by
  unfold BTreeLineIndex.absIdxToLineIdx
  cases li.cache with
  | none =>
    cases li.root.absIdxToLineIdx a with
    | none => rfl
    | some r => rfl
  | some c =>
    simp only [Bool.true_eq_false, false_and, if_false]
    cases li.root.absIdxToLineIdx a with
    | none => rfl
    | some r => rfl

mutual

/-- remove_line_range never returns a structured error: the leaf case is
infallible and the child loop only propagates child results. -/
theorem removeLineRange_ok (n : Node) (s e : Nat) :
    ∃ r, n.removeLineRange s e = Except.ok r := by
  match n with
  | Node.leaf l => exact ⟨_, rfl⟩
  | Node.internal sm cs =>
    obtain ⟨r, hok⟩ := removeChildren_ok cs s e
    simp only [Node.removeLineRange, hok]
    exact ⟨_, rfl⟩

/-- The remove_line_range child loop never returns a structured error. -/
theorem removeChildren_ok (cs : List Node) (s e : Nat) :
    ∃ r, Node.removeChildren cs s e = Except.ok r := by
  match cs with
  | [] => exact ⟨_, rfl⟩
  | c :: rest =>
    simp only [Node.removeChildren]
    by_cases h1 : s ≤ e
    · rw [if_pos h1]
      by_cases h2 : s < c.summary.lineCount
      · rw [if_pos h2]
        obtain ⟨⟨c2, rem⟩, hok⟩ :=
          removeLineRange_ok c s (min e (c.summary.lineCount - 1))
        simp only [hok]
        by_cases h3 : e < c.summary.lineCount
        · rw [if_pos h3]
          exact ⟨_, rfl⟩
        · rw [if_neg h3]
          obtain ⟨⟨rest2, rem2⟩, hok2⟩ :=
            removeChildren_ok rest 0 (e - c.summary.lineCount)
          simp only [hok2]
          exact ⟨_, rfl⟩
      · rw [if_neg h2]
        obtain ⟨⟨rest2, rem2⟩, hok2⟩ :=
          removeChildren_ok rest (s - c.summary.lineCount) (e - c.summary.lineCount)
        simp only [hok2]
        exact ⟨_, rfl⟩
    · rw [if_neg h1]
      exact ⟨_, rfl⟩

end


/-- C5, amended: on a summary-consistent line index whose byte total fits
in u64, an in-bounds removal request (absIdx + len <= byte_len) whose end
is strictly below byte_len (or whose length is zero) either succeeds or
returns a structured error, never a panic; but a nonzero-length removal
whose end EQUALS byte_len always panics: the second offset-to-line query
asks for the one-past-the-end offset, gets None, and the CRASH 3 expect
fires. The original claim (never panics, in particular at end == byte_len)
is false exactly on that boundary. -/
theorem C5_remove_amended (li : BTreeLineIndex) (absIdx len : Nat)
    (hwf : li.root.wfB = true)
    (hb : li.byteLen < 2 ^ 64)
    (hin : absIdx + len ≤ li.byteLen) :
    (absIdx + len < li.byteLen ∨ len = 0 →
        (li.remove absIdx len).1 = Except.ok () ∨
          ∃ e, (li.remove absIdx len).1 = Except.error (RemoveError.err e)) ∧
      (0 < len → absIdx + len = li.byteLen →
        (li.remove absIdx len).1 = Except.error (RemoveError.crash 3)) := by
  have hs := wfB_summary li.root hwf
  have hbl : li.byteLen = li.root.toLens.sum := by
    unfold BTreeLineIndex.byteLen
    omega
  constructor
  · intro hcase
    by_cases h0 : len = 0
    · subst h0
      left
      simp [BTreeLineIndex.remove]
    · have hend : absIdx + len < li.byteLen := by omega
      have ha1 : absIdx < li.root.toLens.sum := by omega
      obtain ⟨sl, hsl⟩ := lineOfLens_isSome li.root.toLens absIdx ha1
      have habs1 : (li.absIdxToLineIdx absIdx true).1 = some sl := by
        rw [absIdxToLineIdx_bust_fst, absIdxToLineIdx_eq li.root absIdx hwf, hsl]
      have hroot1 : (li.absIdxToLineIdx absIdx true).2.root = li.root :=
        absIdxToLineIdx_bust_root li absIdx
      have ha2 : absIdx + len < li.root.toLens.sum := by omega
      obtain ⟨el, hel⟩ := lineOfLens_isSome li.root.toLens (absIdx + len) ha2
      have habs2 :
          ((li.absIdxToLineIdx absIdx true).2.absIdxToLineIdx (absIdx + len) true).1 =
            some el := by
        rw [absIdxToLineIdx_bust_fst, hroot1, absIdxToLineIdx_eq li.root _ hwf, hel]
      have hroot2 :
          ((li.absIdxToLineIdx absIdx true).2.absIdxToLineIdx (absIdx + len) true).2.root =
            li.root := by
        rw [absIdxToLineIdx_bust_root, hroot1]
      obtain ⟨hsl1, hsl2, hsl3⟩ := lineOfLens_bracket _ _ _ hsl
      obtain ⟨hel1, hel2, hel3⟩ := lineOfLens_bracket _ _ _ hel
      have hlin3 :
          (((li.absIdxToLineIdx absIdx true).2.absIdxToLineIdx (absIdx + len)
              true).2.lineIdxToAbsIdx sl true).1 =
            some ((li.root.toLens.take sl).sum) := by
        rw [lineIdxToAbsIdx_bust_fst, hroot2, lineIdxToAbsIdx_eq li.root sl hwf hsl3]
      have hroot3 :
          (((li.absIdxToLineIdx absIdx true).2.absIdxToLineIdx (absIdx + len)
              true).2.lineIdxToAbsIdx sl true).2.root = li.root := by
        rw [lineIdxToAbsIdx_bust_root, hroot2]
      have hlin4 :
          ((((li.absIdxToLineIdx absIdx true).2.absIdxToLineIdx (absIdx + len)
              true).2.lineIdxToAbsIdx sl true).2.lineIdxToAbsIdx el true).1 =
            some ((li.root.toLens.take el).sum) := by
        rw [lineIdxToAbsIdx_bust_fst, hroot3, lineIdxToAbsIdx_eq li.root el hwf hel3]
      have hroot4 :
          ((((li.absIdxToLineIdx absIdx true).2.absIdxToLineIdx (absIdx + len)
              true).2.lineIdxToAbsIdx sl true).2.lineIdxToAbsIdx el true).2.root =
            li.root := by
        rw [lineIdxToAbsIdx_bust_root, hroot3]
      have hlen4 :
          ((((li.absIdxToLineIdx absIdx true).2.absIdxToLineIdx (absIdx + len)
              true).2.lineIdxToAbsIdx sl true).2.lineIdxToAbsIdx el
              true).2.getLineLengthAt el =
            some (li.root.toLens[el]) := by
        unfold BTreeLineIndex.getLineLengthAt
        rw [hroot4, getLineLengthAt_eq li.root el hwf, List.getElem?_eq_getElem hel3]
      have hts := List.sum_take_succ li.root.toLens el hel3
      have htle := sum_take_le li.root.toLens (el + 1)
      simp only [BTreeLineIndex.remove]
      rw [if_neg (by omega : ¬ len = 0)]
      rw [if_neg (by omega : ¬ absIdx + len ≥ 2 ^ 64)]
      simp only [habs1, habs2, hlin3, hlin4, hlen4]
      rw [if_neg (by omega : ¬ absIdx < (li.root.toLens.take sl).sum)]
      rw [if_neg (by omega :
        ¬ (li.root.toLens.take el).sum + li.root.toLens[el] ≥ 2 ^ 64)]
      rw [if_neg (by omega :
        ¬ (li.root.toLens.take el).sum + li.root.toLens[el] < absIdx + len)]
      rw [if_neg (by omega :
        ¬ absIdx - (li.root.toLens.take sl).sum +
            ((li.root.toLens.take el).sum + li.root.toLens[el] - (absIdx + len)) ≥
          2 ^ 64)]
      simp only [hroot4]
      cases hset : li.root.setLineLength sl
          (absIdx - (li.root.toLens.take sl).sum +
            ((li.root.toLens.take el).sum + li.root.toLens[el] - (absIdx + len))) with
      | error e =>
        simp only [hset]
        exact Or.inr ⟨e, rfl⟩
      | ok p =>
        obtain ⟨root2, d⟩ := p
        simp only [hset]
        by_cases hlt : sl < el
        · rw [if_pos hlt]
          cases hrem : root2.removeLineRange (sl + 1) el with
          | error e2 =>
            simp only [hrem]
            exact Or.inr ⟨e2, rfl⟩
          | ok q =>
            obtain ⟨root3, rem⟩ := q
            simp only [hrem]
            exact Or.inl (by trivial)
        · rw [if_neg hlt]
          exact Or.inl (by trivial)
  · intro hpos heq
    have ha1 : absIdx < li.root.toLens.sum := by omega
    obtain ⟨sl, hsl⟩ := lineOfLens_isSome li.root.toLens absIdx ha1
    have habs1 : (li.absIdxToLineIdx absIdx true).1 = some sl := by
      rw [absIdxToLineIdx_bust_fst, absIdxToLineIdx_eq li.root absIdx hwf, hsl]
    have hroot1 : (li.absIdxToLineIdx absIdx true).2.root = li.root :=
      absIdxToLineIdx_bust_root li absIdx
    have habs2n :
        ((li.absIdxToLineIdx absIdx true).2.absIdxToLineIdx (absIdx + len) true).1 =
          none := by
      rw [absIdxToLineIdx_bust_fst, hroot1, absIdxToLineIdx_eq li.root _ hwf,
        lineOfLens_none _ _ (by omega)]
    simp only [BTreeLineIndex.remove]
    rw [if_neg (by omega : ¬ len = 0)]
    rw [if_neg (by omega : ¬ absIdx + len ≥ 2 ^ 64)]
    simp only [habs1, habs2n]

/-- C5 witness: on the index of "ab" (one line of length 2) the strictly
interior removal of one byte at offset 0 does not panic. -/
theorem C5_remove_amended_witness :
    (liAB.remove 0 1).1 = Except.ok () ∨
      ∃ e, (liAB.remove 0 1).1 = Except.error (RemoveError.err e) :=
  (C5_remove_amended liAB 0 1 (by decide) (by decide) (by decide)).1
    (Or.inl (by decide))

/-- C5 counterexample: on the index of "ab" (byte_len 2) the in-bounds
request remove(0, 2), whose end equals byte_len, panics at the CRASH 3
expect instead of succeeding or returning a structured error. -/
theorem C5_remove_end_counterexample :
    liAB.byteLen = 2 ∧
      (liAB.remove 0 2).1 = Except.error (RemoveError.crash 3) :=
  ⟨rfl, rfl⟩


theorem nlSegs_length (ps : List Nat) (lastPos : Nat) :
    (nlSegs ps lastPos).length = ps.length := by
  induction ps generalizing lastPos with
  | nil => rfl
  | cons p ps ih => simp [nlSegs, ih]

theorem nlPositions_length (bytes : List Nat) :
    (nlPositions bytes).length = bytes.count 10 := by
  induction bytes with
  | nil => rfl
  | cons b rest ih =>
    rw [nlPositions]
    by_cases hb : b = 10
    · subst hb
      simp [List.count_cons, ih]
    · rw [if_neg hb]
      simp [List.count_cons, ih, hb]

theorem nlPositions_concat (xs : List Nat) (b : Nat) :
    nlPositions (xs ++ [b]) =
      nlPositions xs ++ (if b = 10 then [xs.length] else []) := by
  induction xs with
  | nil =>
    by_cases hb : b = 10
    · simp [nlPositions, hb]
    · simp [nlPositions, hb]
  | cons x xs ih =>
    by_cases hb : b = 10
    · subst hb
      simp only [if_pos rfl] at ih ⊢
      by_cases hx : x = 10
      · simp [List.cons_append, nlPositions, hx, ih]
      · simp [List.cons_append, nlPositions, hx, ih]
    · simp only [if_neg hb] at ih ⊢
      by_cases hx : x = 10
      · simp [List.cons_append, nlPositions, hx, ih]
      · simp [List.cons_append, nlPositions, hx, ih]

theorem lastNlPos_concat_nl (xs : List Nat) :
    lastNlPos (xs ++ [10]) = xs.length + 1 := by
  unfold lastNlPos
  rw [nlPositions_concat, if_pos rfl, List.getLast?_concat]

theorem lastNlPos_concat_other (xs : List Nat) (b : Nat) (hb : b ≠ 10) :
    lastNlPos (xs ++ [b]) = lastNlPos xs := by
  unfold lastNlPos
  rw [nlPositions_concat, if_neg hb, List.append_nil]

theorem lastNlPos_le (bytes : List Nat) : lastNlPos bytes ≤ bytes.length := by
  induction bytes using List.reverseRecOn with
  | nil => rfl
  | append_singleton xs b ih =>
    by_cases hb : b = 10
    · subst hb
      rw [lastNlPos_concat_nl]
      simp
    · rw [lastNlPos_concat_other xs b hb]
      simp only [List.length_append, List.length_cons, List.length_nil]
      omega

theorem lineLens_length (bytes : List Nat) (h : bytes ≠ []) :
    (lineLens bytes).length =
      bytes.count 10 + (if bytes.getLast? = some 10 then 0 else 1) := by
  rcases List.eq_nil_or_concat bytes with rfl | ⟨xs, b, rfl⟩
  · exact absurd rfl h
  · simp only [List.concat_eq_append] at h ⊢
    by_cases hb : b = 10
    · subst hb
      rw [lineLens]
      simp only [lastNlPos_concat_nl, List.length_append, List.length_cons,
        List.length_nil, List.getLast?_concat]
      rw [if_neg (by omega), if_pos trivial]
      rw [nlSegs_length, nlPositions_length]
      omega
    · rw [lineLens]
      have hle := lastNlPos_le xs
      simp only [lastNlPos_concat_other xs b hb, List.length_append,
        List.length_cons, List.length_nil, List.getLast?_concat]
      rw [if_pos (by omega), if_neg (by simp [hb])]
      simp [nlSegs_length, nlPositions_length]

theorem lineLens_ne_nil (bytes : List Nat) (h : bytes ≠ []) :
    lineLens bytes ≠ [] := by
  rw [lineLens]
  by_cases hlt : lastNlPos bytes < bytes.length
  · rw [if_pos hlt]
    simp
  · rw [if_neg hlt]
    have hpos : 0 < bytes.length := List.length_pos.mpr h
    have hl : 0 < lastNlPos bytes := by omega
    unfold lastNlPos at hl
    cases hg : (nlPositions bytes).getLast? with
    | none => rw [hg] at hl; simp at hl
    | some p =>
      have hne : nlPositions bytes ≠ [] := by
        intro hnil
        rw [hnil] at hg
        simp at hg
      cases hnp : nlPositions bytes with
      | nil => exact absurd hnp hne
      | cons p0 ps => simp [nlSegs]

theorem packChunks_length_sum {α : Type} (l cur : List α) :
    ((packChunks l cur).map (fun c => c.length)).sum = cur.length + l.length := by
  induction l generalizing cur with
  | nil =>
    rw [packChunks]
    by_cases hc : cur.isEmpty
    · rw [if_pos hc]
      simp [List.isEmpty_iff.mp hc]
    · rw [if_neg hc]
      simp
  | cons x xs ih =>
    rw [packChunks]
    by_cases hf : (cur ++ [x]).length = maxChildren
    · rw [if_pos hf]
      simp only [List.map_cons, List.sum_cons, ih]
      simp only [List.length_append, List.length_cons, List.length_nil]
      omega
    · rw [if_neg hf]
      rw [ih]
      simp only [List.length_append, List.length_cons, List.length_nil]
      omega

theorem packChunks_map_sum {α : Type} (f : α → Nat) (l cur : List α) :
    ((packChunks l cur).map (fun c => (c.map f).sum)).sum =
      (cur.map f).sum + (l.map f).sum := by
  induction l generalizing cur with
  | nil =>
    rw [packChunks]
    by_cases hc : cur.isEmpty
    · rw [if_pos hc]
      simp [List.isEmpty_iff.mp hc]
    · rw [if_neg hc]
      simp
  | cons x xs ih =>
    rw [packChunks]
    by_cases hf : (cur ++ [x]).length = maxChildren
    · rw [if_pos hf]
      simp only [List.map_cons, List.sum_cons, ih]
      simp only [List.map_append, List.sum_append, List.map_cons, List.map_nil,
        List.sum_cons, List.sum_nil]
      omega
    · rw [if_neg hf]
      rw [ih]
      simp only [List.map_append, List.sum_append, List.map_cons, List.map_nil,
        List.sum_cons, List.sum_nil]
      omega

theorem packChunks_ne_nil {α : Type} (l cur : List α) (h : l ≠ [] ∨ cur ≠ []) :
    packChunks l cur ≠ [] := by
  induction l generalizing cur with
  | nil =>
    rw [packChunks]
    have hc : ¬ cur.isEmpty := by
      rcases h with h | h
      · exact absurd rfl h
      · simp [List.isEmpty_iff, h]
    rw [if_neg hc]
    simp
  | cons x xs ih =>
    rw [packChunks]
    by_cases hf : (cur ++ [x]).length = maxChildren
    · rw [if_pos hf]
      simp
    · rw [if_neg hf]
      exact ih (cur ++ [x]) (Or.inr (by simp))

theorem packChunks_length_bound {α : Type} (l cur : List α) :
    16 * (packChunks l cur).length ≤ cur.length + l.length + 15 := by
  induction l generalizing cur with
  | nil =>
    rw [packChunks]
    by_cases hc : cur.isEmpty
    · rw [if_pos hc]
      simp
    · rw [if_neg hc]
      have : 0 < cur.length := by
        cases cur with
        | nil => simp at hc
        | cons a as => simp
      simp only [List.length_cons, List.length_nil]
      omega
  | cons x xs ih =>
    rw [packChunks]
    by_cases hf : (cur ++ [x]).length = maxChildren
    · rw [if_pos hf]
      have hrec := ih ([] : List α)
      simp only [List.length_append, List.length_cons, List.length_nil] at hf
      simp only [List.length_cons, List.length_nil] at hrec ⊢
      unfold maxChildren at hf
      omega
    · rw [if_neg hf]
      have hrec := ih (cur ++ [x])
      simp only [List.length_append, List.length_cons, List.length_nil] at hrec ⊢
      omega

theorem foldl_add_lineCount (chunk : List Node) (init : LineSummary) :
    (chunk.foldl (fun acc c => acc.add c.summary) init).lineCount =
      init.lineCount + (chunk.map (fun c => c.summary.lineCount)).sum := by
  induction chunk generalizing init with
  | nil => simp
  | cons c rest ih =>
    rw [List.foldl_cons, ih]
    simp only [LineSummary.add, List.map_cons, List.sum_cons]
    omega

theorem buildLevel_total (level : List Node) :
    ((BTreeLineIndex.buildLevel level).map (fun c => c.summary.lineCount)).sum =
      (level.map (fun c => c.summary.lineCount)).sum := by
  unfold BTreeLineIndex.buildLevel
  rw [List.map_map]
  have heq : ((fun c => c.summary.lineCount) ∘ fun chunk =>
      Node.internal (chunk.foldl (fun acc c => acc.add c.summary) ⟨0, 0⟩) chunk) =
      fun chunk => (chunk.map (fun c => c.summary.lineCount)).sum := by
    funext chunk
    have h2 := foldl_add_lineCount chunk ⟨0, 0⟩
    simpa [Node.summary] using h2
  rw [heq]
  unfold chunksOf
  simpa using packChunks_map_sum (fun c => c.summary.lineCount) level []

theorem buildLevel_ne_nil (level : List Node) (h : level ≠ []) :
    BTreeLineIndex.buildLevel level ≠ [] := by
  unfold BTreeLineIndex.buildLevel
  simp only [ne_eq, List.map_eq_nil_iff]
  exact packChunks_ne_nil level [] (Or.inl h)

theorem buildLevel_length (level : List Node) :
    (BTreeLineIndex.buildLevel level).length = (chunksOf level).length := by
  unfold BTreeLineIndex.buildLevel chunksOf
  simp

theorem buildTreeFuel_ok (fuel : Nat) (level : List Node) (h : level ≠ [])
    (hlen : level.length ≤ fuel + 1) :
    ∃ n, BTreeLineIndex.buildTreeFuel fuel level = Except.ok n ∧
      n.summary.lineCount = (level.map (fun c => c.summary.lineCount)).sum := by
  induction fuel generalizing level with
  | zero =>
    match level with
    | [] => exact absurd rfl h
    | [n] =>
      refine ⟨n, rfl, ?_⟩
      simp
    | a :: b :: rest => simp at hlen
  | succ fuel ih =>
    match level with
    | [] => exact absurd rfl h
    | [n] =>
      refine ⟨n, rfl, ?_⟩
      simp
    | a :: b :: rest =>
      have hlev2 : 2 ≤ (a :: b :: rest).length := by simp
      have hshrink := packChunks_length_bound (a :: b :: rest) ([] : List Node)
      have hblen : (BTreeLineIndex.buildLevel (a :: b :: rest)).length <
          (a :: b :: rest).length := by
        rw [buildLevel_length]
        unfold chunksOf
        simp only [List.length_nil] at hshrink
        omega
      obtain ⟨n, hok, hcnt⟩ := ih (BTreeLineIndex.buildLevel (a :: b :: rest))
        (buildLevel_ne_nil _ (by simp)) (by omega)
      refine ⟨n, ?_, ?_⟩
      · rw [BTreeLineIndex.buildTreeFuel]
        exact hok
      · rw [hcnt, buildLevel_total]

/-- C4, amended: BTreeLineIndex::new satisfies the 1 + newline-count law
only for inputs that are empty or do not end in a newline byte. For every
input the built line count equals count of newlines plus one exactly when
the last byte is not a newline; when the input ends in a newline, build
emits NO trailing sentinel line, so the count is just the newline count.
The incremental insert path, by contrast, does keep the sentinel: inserting
a single newline into an empty index yields line count 2 where building
from the same single newline yields 1, so the two maintenance paths
disagree and the claimed law fails for build. -/
theorem C4_line_count_amended :
    (∀ bytes : List Nat,
        ∃ li, BTreeLineIndex.new bytes = Except.ok li ∧
          li.lineCount =
            if bytes.isEmpty then 1
            else bytes.count 10 + (if bytes.getLast? = some 10 then 0 else 1)) ∧
      (∃ li, BTreeLineIndex.insert liEmpty 0 [10] = Except.ok li ∧
          li.lineCount = 2) := by
  constructor
  · intro bytes
    by_cases hempty : bytes = []
    · subst hempty
      exact ⟨_, rfl, rfl⟩
    · have hie : bytes.isEmpty = false := by
        revert hempty
        cases bytes <;> simp
      have hne := lineLens_ne_nil bytes hempty
      have hleaves : BTreeLineIndex.buildLeaves bytes ≠ [] := by
        unfold BTreeLineIndex.buildLeaves
        simp only [ne_eq, List.map_eq_nil_iff]
        exact packChunks_ne_nil _ [] (Or.inl hne)
      have hie2 : (BTreeLineIndex.buildLeaves bytes).isEmpty = false := by
        revert hleaves
        cases BTreeLineIndex.buildLeaves bytes <;> simp
      obtain ⟨root, hok, hcnt⟩ := buildTreeFuel_ok
        (BTreeLineIndex.buildLeaves bytes).length (BTreeLineIndex.buildLeaves bytes)
        hleaves (by omega)
      refine ⟨⟨root, none⟩, ?_, ?_⟩
      · unfold BTreeLineIndex.new
        simp only [hie, hie2, Bool.false_eq_true, if_false]
        unfold BTreeLineIndex.buildTree
        simp only [hok]
      · unfold BTreeLineIndex.lineCount
        simp only [hie, Bool.false_eq_true, if_false]
        show root.summary.lineCount = _
        rw [hcnt]
        unfold BTreeLineIndex.buildLeaves
        rw [List.map_map]
        have heq : ((fun c => c.summary.lineCount) ∘ fun c =>
            Node.leaf ⟨⟨c.length, c.sum⟩, c⟩) = fun c : List Nat => c.length := by
          funext c
          show (LeafNode.mk ⟨c.length, c.sum⟩ c).summary.lineCount = c.length
          rfl
        rw [heq]
        unfold chunksOfLens
        rw [packChunks_length_sum]
        simp only [List.length_nil, Nat.zero_add]
        exact lineLens_length bytes hempty
  · exact ⟨liNL, by rfl, by rfl⟩


/-- C4 counterexample: building from "A
" yields line count 1, not
1 + count of newlines = 2: the build path drops the trailing sentinel
line. -/
theorem C4_line_count_counterexample :
    (BTreeLineIndex.new [65, 10]).map (fun li => li.lineCount) = Except.ok 1 ∧
      ¬ (1 = 1 + [65, 10].count 10) :=
  ⟨rfl, by decide⟩

end MyNotes
